import Mathlib

/-! # Address Conflict Detection orchestration of `main/main.c`

A shallow embedding of the static-IP ACD orchestration found in `main/main.c`
(`tcpip_acd_conflict_callback`, `tcpip_acd_start_retry`, `tcpip_perform_acd`,
`tcpip_try_pending_acd`, the retry timer, `configure_netif_from_tcpip` and
`ethernet_event_handler`).

* The file-scope variables of `main.c` and the fields of `g_tcpip` that the
  orchestration touches are the fields of `St`, with the names of the source.
* Pointers are modelled by their nullness (`true` = non-NULL); there is one
  Ethernet interface, whose lwIP `struct netif` is `St.lwip` and whose
  esp-netif address record is `St.ip_info`.
* Every call into lwIP, esp-netif, FreeRTOS or the heap is appended to
  `St.trace` (most recent first).  Results that the platform decides (does
  `acd_add` succeed, does `malloc` return NULL, which engine callbacks run during
  a bounded wait, ...) are inputs, collected in `CallbackEnv` and `Env`.
* `esp_netif_set_ip_info` is modelled as storing its argument in `St.ip_info`;
  the esp-netif calls return `ESP_OK`, so that no `ESP_ERROR_CHECK` aborts.
* `int` is 32 bits wide; `s_acd_retry_count++` is `int32_wrap (count + 1)`, the
  two's complement result the target produces.
* The engine reports one of the three enumerators of `acd_callback_enum_t`; the
  `default` arm of the callback's `switch` is therefore not embedded.
* Logging (`ESP_LOGx`) and delays (`vTaskDelay`) have no counterpart.
* Work handed to `tcpip_callback_with_block` either fails to be posted, runs
  before the caller continues, or stays in `St.tcpip_queue` until the tcpip thread
  runs it (`Event.tcpip_run`).
* The handlers of the event system run to completion: an engine callback runs
  either inside the bounded wait of `tcpip_perform_acd` or between two handlers.
  In the program the callback runs on the tcpip thread, while `tcpip_perform_acd`
  is entered from `app_main`, from the event task and from the timer task; the
  interleaving in which callbacks run between the two stores that reset the
  outcome record (main.c 615 and 616) is embedded separately, as
  `tcpip_perform_acd_preempted`.
* The code is embedded for `LWIP_IPV4 && LWIP_ACD`; `CONFIG_OPENER_ACD_RETRY_ENABLED`
  and the other configuration macros are fields of `Config`.

The last sections of Part I embed what the remaining claims are about: the
responses and the handler table of `components/webui/src/webui_api.c`, the
NAU7802 record that `nau7802_scale_task` writes into Assembly 100 and the status
handler reads back, one pass of the multipart upload loop, the normalisation
of the loaded configuration in `app_main`, and `tcpip_perform_acd` preempted by
the engine callback.
-/

namespace AcdOrch

/-! # Part I: the embedding -/

/-! ## Data model -/

/-- Outcome reported by the lwIP ACD engine (`acd_callback_enum_t`). -/
inductive acd_callback_enum_t where
  | ACD_IP_OK
  | ACD_RESTART_CLIENT
  | ACD_DECLINE
  deriving DecidableEq, Repr

/-- The address record `esp_netif_ip_info_t` (IPv4 addresses as 32-bit words). -/
structure esp_netif_ip_info_t where
  ip : Nat
  netmask : Nat
  gw : Nat
  deriving DecidableEq, Repr

/-- The all-zero record `esp_netif_ip_info_t zero_ip = {0}`. -/
def zero_ip : esp_netif_ip_info_t := { ip := 0, netmask := 0, gw := 0 }

/-- The fields of the lwIP `struct netif` read by the orchestration. -/
structure LwipNetif where
  hwaddr_len : Nat
  hwaddr : List Nat
  link_up : Bool
  deriving DecidableEq, Repr

/-- Constants and build-time configuration that `main.c` takes from headers
and `sdkconfig.h`, none of which is part of the sources at hand. -/
structure Config where
  kTcpipStatusAcdStatus : Nat
  kTcpipStatusAcdFault : Nat
  kTcpipStatusIfaceCfgPend : Nat
  kTcpipCfgCtrlMethodMask : Nat
  kTcpipCfgCtrlStaticIp : Nat
  kTcpipCfgCtrlDhcp : Nat
  CONFIG_OPENER_ACD_RETRY_ENABLED : Bool
  CONFIG_OPENER_ACD_RETRY_MAX_ATTEMPTS : Nat
  CONFIG_OPENER_ACD_RETRY_DELAY_MS : Nat
  CONFIG_LWIP_AUTOIP : Bool
  deriving DecidableEq, Repr

/-- Where a call into the ACD engine is made from: the caller's own context,
a function run by the tcpip thread through `tcpip_callback_with_block`, or the
engine's own conflict callback. -/
inductive Via where
  | direct
  | marshaled
  | engine_callback
  deriving DecidableEq, Repr

/-- The functions that `main.c` hands to `tcpip_callback_with_block`. -/
inductive Work where
  | tcpip_acd_start_cb (ctx_netif : Bool) (ip : Nat)
  | acd_start_probe_cb (ctx_netif : Bool) (ip : Nat)
  | tcpip_acd_stop_cb
  | retry_callback
  deriving DecidableEq, Repr

/-- The two heap contexts of `tcpip_perform_acd`. -/
inductive Ctx where
  | AcdStartContext
  | AcdStartProbeContext
  deriving DecidableEq, Repr

/-- Calls that leave `main.c`, plus two markers for the outcome record
(`acd_callback`: entry of `tcpip_acd_conflict_callback`; `outcome_reset`:
`s_acd_callback_received = false` in `tcpip_perform_acd`). -/
inductive Op where
  | acd_callback (state : acd_callback_enum_t)
  | outcome_reset
  | esp_netif_set_ip_info (info : esp_netif_ip_info_t)
  | esp_netif_set_dns_info (main : Bool) (addr : Nat)
  | esp_netif_set_hostname
  | esp_netif_set_mac
  | esp_netif_dhcpc_stop
  | esp_netif_dhcpc_start
  | netifapi_autoip_start (ok : Bool)
  | NvTcpipStore
  | acd_list_reset
  | acd_add (via : Via) (ok : Bool)
  | acd_start (via : Via) (ip : Nat) (ok : Bool)
  | acd_stop (via : Via)
  | acd_set_ongoing (ip : Nat)
  | user_led_start_flash
  | user_led_stop_flash
  | user_led_set (level : Bool)
  | gpio_set_level (level : Bool)
  | xTaskCreate (ok : Bool)
  | xSemaphoreCreateBinary (ok : Bool)
  | xTimerCreate (ok : Bool)
  | xTimerStop
  | xTimerChangePeriod (ms : Nat)
  | xTimerStart
  | sys_timeout (ms : Nat)
  | malloc (c : Ctx) (ok : Bool)
  | free (c : Ctx)
  | tcpip_callback_with_block (w : Work) (block : Nat) (ok : Bool)
  | ScaleApplicationNotifyLinkUp
  | ScaleApplicationNotifyLinkDown
  deriving DecidableEq, Repr

/-- The state of the orchestration: `g_tcpip`, the file-scope variables of
`main.c`, the interface, the tcpip thread's queue and the log of calls. -/
structure St where
  /- g_tcpip -/
  status : Nat
  select_acd : Bool
  config_control : Nat
  ip_address : Nat
  network_mask : Nat
  gateway : Nat
  name_server : Nat
  name_server_2 : Nat
  hostname_set : Bool
  /- value last passed to CipTcpIpSetLastAcdActivity -/
  last_acd_activity : Nat
  /- file-scope variables -/
  s_acd_registered : Bool
  s_acd_sem : Bool
  acd_sem_given : Bool
  s_acd_registration_sem : Bool
  acd_registration_sem_given : Bool
  s_acd_last_state : acd_callback_enum_t
  s_acd_callback_received : Bool
  s_acd_probe_pending : Bool
  s_pending_static_ip_cfg : esp_netif_ip_info_t
  s_acd_retry_timer : Bool
  retry_timer_active : Bool
  s_acd_retry_count : Int
  s_acd_retry_netif : Bool
  s_acd_retry_lwip_netif : Bool
  s_user_led_initialized : Bool
  s_user_led_flash_enabled : Bool
  s_user_led_task_handle : Bool
  s_opener_initialized : Bool
  s_services_initialized : Bool
  /- the interface and the platform -/
  lwip : LwipNetif
  ip_info : esp_netif_ip_info_t
  tcpip_queue : List Work
  trace : List Op

/-- Append a call to the log. -/
def St.log (s : St) (o : Op) : St := { s with trace := o :: s.trace }

/-- Platform decisions during one run of `tcpip_acd_conflict_callback`. -/
structure CallbackEnv where
  /-- Source: `esp_netif_get_handle_from_netif_impl(netif) != NULL` -/
  esp_netif_found : Bool
  /-- Source: `xTaskCreate(user_led_flash_task, ...) == pdPASS` -/
  xTaskCreate_ok : Bool
  /-- Source: `xTimerCreate("acd_retry", ...) != NULL` -/
  xTimerCreate_ok : Bool
  deriving DecidableEq, Repr

/-- One delivery of the engine's callback: its arguments and the platform
decisions while it runs. -/
structure CallbackEvent where
  netif : Bool
  state : acd_callback_enum_t
  env : CallbackEnv
  deriving DecidableEq, Repr

/-! ## Machine arithmetic -/

/-- Value of a 32-bit two's-complement `int` holding `x` modulo `2^32`. -/
def int32_wrap (x : Int) : Int := (x + 2147483648) % 4294967296 - 2147483648

/-- Source: `status &= ~mask` on the unsigned status word. -/
def clear_bits (status mask : Nat) : Nat := Nat.ldiff status mask

/-! ## Status indicator (user LED) -/

/-- Source: `user_led_set` (main.c 1676-1680). -/
def user_led_set (level : Bool) (s : St) : St :=
  let s := s.log (.user_led_set level)
  if s.s_user_led_initialized then s.log (.gpio_set_level level) else s

/-- Source: `user_led_start_flash` (main.c 1701-1723). -/
def user_led_start_flash (xTaskCreate_ok : Bool) (s : St) : St :=
  let s := s.log .user_led_start_flash
  if !s.s_user_led_initialized then s
  else if !s.s_user_led_task_handle then
    let s := { s with s_user_led_flash_enabled := true }
    let s := s.log (.xTaskCreate xTaskCreate_ok)
    if xTaskCreate_ok then { s with s_user_led_task_handle := true }
    else { s with s_user_led_flash_enabled := false }
  else s

/-- Source: `user_led_stop_flash` (main.c 1725-1736). -/
def user_led_stop_flash (s : St) : St :=
  let s := s.log .user_led_stop_flash
  if s.s_user_led_task_handle then
    { s with s_user_led_flash_enabled := false, s_user_led_task_handle := false }
  else s

/-! ## Small platform wrappers -/

/-- Source: `CipTcpIpSetLastAcdActivity(code)`. -/
def CipTcpIpSetLastAcdActivity (code : Nat) (s : St) : St :=
  { s with last_acd_activity := code }

/-- Source: `esp_netif_set_ip_info(netif, &info)`. -/
def esp_netif_set_ip_info (info : esp_netif_ip_info_t) (s : St) : St :=
  { s with ip_info := info, trace := .esp_netif_set_ip_info info :: s.trace }

/-- Source: `opener_configure_dns` (main.c 225-238). -/
def opener_configure_dns (s : St) : St :=
  let s := if s.name_server != 0 then s.log (.esp_netif_set_dns_info true s.name_server) else s
  if s.name_server_2 != 0 then s.log (.esp_netif_set_dns_info false s.name_server_2) else s

/-- Source: `xSemaphoreGive(s_acd_sem)` guarded by `s_acd_sem != NULL`. -/
def give_acd_sem (s : St) : St :=
  if s.s_acd_sem then { s with acd_sem_given := true } else s

/-- Source: `xSemaphoreGive(s_acd_registration_sem)` guarded by the NULL check. -/
def give_registration_sem (s : St) : St :=
  if s.s_acd_registration_sem then { s with acd_registration_sem_given := true } else s

/-! ## Retry scheduler and engine callback -/

/-- Source: `tcpip_acd_start_retry` (main.c 932-983). -/
def tcpip_acd_start_retry (P : Config) (xTimerCreate_ok : Bool)
    (netif lwip_netif : Bool) (s : St) : St :=
  if !netif || !lwip_netif then s
  else
    let s := { s with s_acd_retry_count := int32_wrap (s.s_acd_retry_count + 1) }
    let s := { s with s_acd_retry_netif := netif, s_acd_retry_lwip_netif := lwip_netif }
    let s := esp_netif_set_ip_info zero_ip s
    let s :=
      if s.s_acd_registered then
        let s := s.log (.acd_stop .engine_callback)
        { s with s_acd_registered := false }
      else s
    if !s.s_acd_retry_timer then
      let s := s.log (.xTimerCreate xTimerCreate_ok)
      if !xTimerCreate_ok then s
      else
        let s := { s with s_acd_retry_timer := true }
        let s := s.log (.xTimerChangePeriod P.CONFIG_OPENER_ACD_RETRY_DELAY_MS)
        let s := s.log .xTimerStart
        { s with retry_timer_active := true }
    else
      let s := s.log (.xTimerChangePeriod P.CONFIG_OPENER_ACD_RETRY_DELAY_MS)
      let s := s.log .xTimerStart
      { s with retry_timer_active := true }

/-- The `ACD_IP_OK` arm of `tcpip_acd_conflict_callback` (main.c 384-410). -/
def conflict_callback_ip_ok (P : Config) (e : CallbackEnv) (netif : Bool) (s : St) : St :=
  let cleared := clear_bits s.status (P.kTcpipStatusAcdStatus ||| P.kTcpipStatusAcdFault)
  let s := { s with status := cleared }
  let s := CipTcpIpSetLastAcdActivity 1 s
  let s := user_led_start_flash e.xTaskCreate_ok s
  let s :=
    if P.CONFIG_OPENER_ACD_RETRY_ENABLED then
      let s := { s with s_acd_retry_count := 0 }
      if s.s_acd_retry_timer then
        let s := s.log .xTimerStop
        { s with retry_timer_active := false }
      else s
    else s
  if s.s_acd_probe_pending && netif then
    if e.esp_netif_found && s.s_pending_static_ip_cfg.ip != 0 then
      let s := esp_netif_set_ip_info s.s_pending_static_ip_cfg s
      let s := opener_configure_dns s
      { s with s_acd_probe_pending := false }
    else s
  else s

/-- The `ACD_DECLINE` / `ACD_RESTART_CLIENT` arm of
`tcpip_acd_conflict_callback` (main.c 411-440). -/
def conflict_callback_conflict (P : Config) (e : CallbackEnv) (netif : Bool) (s : St) : St :=
  let s := { s with status := s.status ||| P.kTcpipStatusAcdStatus }
  let s := { s with status := s.status ||| P.kTcpipStatusAcdFault }
  let s := CipTcpIpSetLastAcdActivity 3 s
  let s := user_led_stop_flash s
  let s := user_led_set true s
  if P.CONFIG_OPENER_ACD_RETRY_ENABLED then
    if netif then
      if e.esp_netif_found then
        if P.CONFIG_OPENER_ACD_RETRY_MAX_ATTEMPTS == 0 ||
            decide (s.s_acd_retry_count < (P.CONFIG_OPENER_ACD_RETRY_MAX_ATTEMPTS : Int)) then
          tcpip_acd_start_retry P e.xTimerCreate_ok true netif s
        else s
      else s
    else s
  else s

/-- Source: `tcpip_acd_conflict_callback` (main.c 379-449). -/
def tcpip_acd_conflict_callback (P : Config) (e : CallbackEnv) (netif : Bool)
    (state : acd_callback_enum_t) (s : St) : St :=
  let s := s.log (.acd_callback state)
  let s := { s with s_acd_last_state := state, s_acd_callback_received := true }
  let s :=
    match state with
    | .ACD_IP_OK => conflict_callback_ip_ok P e netif s
    | .ACD_DECLINE => conflict_callback_conflict P e netif s
    | .ACD_RESTART_CLIENT => conflict_callback_conflict P e netif s
  give_acd_sem s

/-- Deliver one engine callback. -/
def deliver (P : Config) (s : St) (ev : CallbackEvent) : St :=
  tcpip_acd_conflict_callback P ev.env ev.netif ev.state s

/-! ## Work run by the tcpip thread -/

/-- How one `tcpip_callback_with_block` call turns out: posting fails, the
function has run by the time the caller looks again, or it is still queued. -/
inductive Marshal where
  | failed
  | ran
  | queued
  deriving DecidableEq, Repr

/-- Platform decisions during one run of the orchestration entry points. -/
structure Env where
  /-- Source: `xSemaphoreCreateBinary()` for `s_acd_sem` returns non-NULL -/
  sem_create_ok : Bool
  /-- Source: `malloc(sizeof(AcdStartContext))` returns non-NULL -/
  malloc_start_ctx_ok : Bool
  /-- Source: `xSemaphoreCreateBinary()` for `s_acd_registration_sem` returns non-NULL -/
  registration_sem_create_ok : Bool
  /-- first direct `acd_add` returns `ERR_OK` -/
  acd_add_direct_ok : Bool
  /-- posting `tcpip_acd_start_cb` -/
  marshal_start_cb : Marshal
  /-- Source: `acd_add` inside `tcpip_acd_start_cb` returns `ERR_OK` -/
  acd_add_cb_ok : Bool
  /-- the re-adding `acd_add` of `tcpip_acd_start_cb` returns `ERR_OK` -/
  acd_readd_cb_ok : Bool
  /-- last-resort direct `acd_add` returns `ERR_OK` -/
  acd_add_fallback_ok : Bool
  /-- direct `acd_start` returns `ERR_OK` -/
  acd_start_ok : Bool
  /-- Source: `malloc(sizeof(AcdStartProbeContext))` returns non-NULL -/
  malloc_probe_ctx_ok : Bool
  /-- posting `acd_start_probe_cb` -/
  marshal_probe_cb : Marshal
  /-- Source: `acd_start` inside `acd_start_probe_cb` returns `ERR_OK` -/
  acd_start_cb_ok : Bool
  /-- engine callbacks that run during the 2000 ms wait on `s_acd_sem` -/
  callbacks : List CallbackEvent
  /-- posting `tcpip_acd_stop_cb` -/
  marshal_stop_cb : Marshal
  /-- posting `retry_callback` -/
  marshal_retry_callback : Marshal
  /-- Source: `esp_netif_get_netif_impl(netif) != NULL` -/
  lwip_netif_found : Bool
  /-- Source: `netifapi_autoip_start` returns `ERR_OK` -/
  autoip_start_ok : Bool
  deriving DecidableEq, Repr

/-- Source: `tcpip_acd_stop_cb` (main.c 554-557). -/
def tcpip_acd_stop_cb (s : St) : St := s.log (.acd_stop .marshaled)

/-- Source: `acd_start_probe_cb` (main.c 301-313); `ctx` is `none` for a NULL argument,
otherwise the `netif` (by nullness) and `ip` fields of the context. -/
def acd_start_probe_cb (acd_start_ok : Bool) (ctx : Option (Bool × Nat)) (s : St) : St :=
  match ctx with
  | none => s
  | some (ctx_netif, ip) =>
    if !ctx_netif then s.log (.free .AcdStartProbeContext)
    else
      let s := s.log (.acd_start .marshaled ip acd_start_ok)
      s.log (.free .AcdStartProbeContext)

/-- Source: `tcpip_acd_start_cb` (main.c 459-544). -/
def tcpip_acd_start_cb (acd_add_ok acd_readd_ok : Bool) (ctx : Option (Bool × Nat))
    (s : St) : St :=
  match ctx with
  | none => give_registration_sem s
  | some (ctx_netif, ip) =>
    if !ctx_netif then s.log (.free .AcdStartContext)
    else
      let probe_was_pending := s.s_acd_probe_pending
      let registered_or_added := s.s_acd_registered || acd_add_ok
      let s :=
        if !s.s_acd_registered then
          let s := s.log .acd_list_reset
          let s := s.log (.acd_add .marshaled acd_add_ok)
          if acd_add_ok then { s with s_acd_registered := true } else s
        else s
      if !registered_or_added then
        let s := give_registration_sem s
        s.log (.free .AcdStartContext)
      else
        let s := give_registration_sem s
        let s :=
          if !probe_was_pending then
            let s := s.log (.acd_stop .marshaled)
            let s := s.log (.acd_set_ongoing ip)
            let s := s.log (.acd_add .marshaled acd_readd_ok)
            CipTcpIpSetLastAcdActivity 1 s
          else s
        s.log (.free .AcdStartContext)

/-- Source: `tcpip_callback_with_block(fn, arg, block)`: `run` is the effect of `fn(arg)`
on the tcpip thread, `w` names it; the result is `err == ERR_OK`. -/
def tcpip_callback_with_block (m : Marshal) (w : Work) (block : Nat) (run : St → St)
    (s : St) : St × Bool :=
  match m with
  | .failed => (s.log (.tcpip_callback_with_block w block false), false)
  | .ran => (run (s.log (.tcpip_callback_with_block w block true)), true)
  | .queued =>
    let s := s.log (.tcpip_callback_with_block w block true)
    ({ s with tcpip_queue := s.tcpip_queue ++ [w] }, true)

/-! ## `tcpip_perform_acd` -/

/-- The statement pair
`g_tcpip.status |= kTcpipStatusAcdStatus | kTcpipStatusAcdFault; CipTcpIpSetLastAcdActivity(3);`. -/
def acd_fault (P : Config) (s : St) : St :=
  let s := { s with status := s.status ||| (P.kTcpipStatusAcdStatus ||| P.kTcpipStatusAcdFault) }
  CipTcpIpSetLastAcdActivity 3 s

/-- The direct registration `netif->acd_list = NULL; memset(...); acd_add(...)`. -/
def direct_acd_add (ok : Bool) (s : St) : St :=
  let s := s.log .acd_list_reset
  let s := s.log (.acd_add .direct ok)
  if ok then { s with s_acd_registered := true } else s

/-- Registration part of `tcpip_perform_acd` (main.c 658-714).  The Boolean is
`false` when the function returns `false` from inside this part. -/
def perform_acd_register (P : Config) (env : Env) (netif : Bool) (ip : Nat) (s : St) :
    St × Bool :=
  let s :=
    if !s.s_acd_registered then
      let s := direct_acd_add env.acd_add_direct_ok s
      if env.acd_add_direct_ok then s.log (.free .AcdStartContext) else s
    else s
  if !s.s_acd_registered then
    let r := tcpip_callback_with_block env.marshal_start_cb (.tcpip_acd_start_cb netif ip) 1
      (tcpip_acd_start_cb env.acd_add_cb_ok env.acd_readd_cb_ok (some (netif, ip))) s
    let s := r.1
    if !r.2 then (acd_fault P s, false)
    else if !s.acd_registration_sem_given then
      /- the 500 ms wait timed out -/
      if !s.s_acd_registered then
        let s := direct_acd_add env.acd_add_fallback_ok s
        if env.acd_add_fallback_ok then (s, true) else (acd_fault P s, false)
      else (s, true)
    else
      let s := { s with acd_registration_sem_given := false }
      if !s.s_acd_registered then (acd_fault P s, false) else (s, true)
  else (s, true)

/-- Probe start of `tcpip_perform_acd` (main.c 716-751). -/
def perform_acd_start (P : Config) (env : Env) (netif : Bool) (ip : Nat) (s : St) :
    St × Bool :=
  if s.s_acd_probe_pending && s.s_acd_registered then
    let s := s.log (.acd_start .direct ip env.acd_start_ok)
    if env.acd_start_ok then (s, true)
    else
      let s := s.log (.malloc .AcdStartProbeContext env.malloc_probe_ctx_ok)
      if !env.malloc_probe_ctx_ok then (acd_fault P s, false)
      else
        let r := tcpip_callback_with_block env.marshal_probe_cb (.acd_start_probe_cb netif ip) 1
          (acd_start_probe_cb env.acd_start_cb_ok (some (netif, ip))) s
        let s := r.1
        if !r.2 then
          let s := s.log (.free .AcdStartProbeContext)
          (acd_fault P s, false)
        else (s, true)
  else (s, true)

/-- End of `tcpip_perform_acd` after the wait on `s_acd_sem` (main.c 783-804). -/
def perform_acd_after_wait (env : Env) (s : St) : St × Bool :=
  if s.s_acd_last_state == .ACD_RESTART_CLIENT || s.s_acd_last_state == .ACD_DECLINE then
    let s := CipTcpIpSetLastAcdActivity 3 s
    let r := tcpip_callback_with_block env.marshal_stop_cb .tcpip_acd_stop_cb 1 tcpip_acd_stop_cb s
    (r.1, false)
  else (s, true)

/-- The bounded wait of `tcpip_perform_acd` (main.c 753-804): the callbacks of
`env.callbacks` run on the engine's thread, then `xSemaphoreTake(s_acd_sem, 2000 ms)`
succeeds exactly when the semaphore has been given. -/
def perform_acd_wait (P : Config) (env : Env) (s : St) : St × Bool :=
  let s := env.callbacks.foldl (deliver P) s
  if s.acd_sem_given then
    let s := { s with acd_sem_given := false }
    if s.s_acd_last_state == .ACD_IP_OK then (CipTcpIpSetLastAcdActivity 0 s, true)
    else if s.s_acd_last_state == .ACD_DECLINE || s.s_acd_last_state == .ACD_RESTART_CLIENT then
      (CipTcpIpSetLastAcdActivity 3 s, false)
    else perform_acd_after_wait env s
  else if s.s_acd_callback_received && s.s_acd_last_state == .ACD_IP_OK then
    (CipTcpIpSetLastAcdActivity 0 s, true)
  else perform_acd_after_wait env s

/-- Registration, probe start and bounded wait of `tcpip_perform_acd`
(main.c 658-804), entered once the semaphores and the start context exist. -/
def perform_acd_attempt (P : Config) (env : Env) (netif : Bool) (ip : Nat) (s : St) :
    St × Bool :=
  let r := perform_acd_register P env netif ip s
  if !r.2 then r
  else
    let r := perform_acd_start P env netif ip r.1
    if !r.2 then r
    else perform_acd_wait P env r.1

/-- Source: `tcpip_perform_acd` (main.c 579-805). -/
def tcpip_perform_acd (P : Config) (env : Env) (netif : Bool) (ip : Nat) (s : St) :
    St × Bool :=
  if !s.select_acd then
    let cleared := clear_bits s.status (P.kTcpipStatusAcdStatus ||| P.kTcpipStatusAcdFault)
    (CipTcpIpSetLastAcdActivity 0 { s with status := cleared }, true)
  else if !netif then (acd_fault P s, false)
  else if !s.s_acd_sem && !env.sem_create_ok then
    (acd_fault P (s.log (.xSemaphoreCreateBinary false)), false)
  else
    let s :=
      if !s.s_acd_sem then
        let s := s.log (.xSemaphoreCreateBinary true)
        { s with s_acd_sem := true, acd_sem_given := false }
      else s
    let s := { s with acd_sem_given := false }
    if !s.s_acd_probe_pending then (s, true)
    else
      let s := s.log .outcome_reset
      let s := { s with s_acd_callback_received := false, s_acd_last_state := .ACD_IP_OK }
      let s := CipTcpIpSetLastAcdActivity 2 s
      let s := s.log (.malloc .AcdStartContext env.malloc_start_ctx_ok)
      if !env.malloc_start_ctx_ok then (acd_fault P s, false)
      else if !s.s_acd_registration_sem && !env.registration_sem_create_ok then
        let s := s.log (.xSemaphoreCreateBinary false)
        let s := s.log (.free .AcdStartContext)
        (acd_fault P s, false)
      else
        let s :=
          if !s.s_acd_registration_sem then
            let s := s.log (.xSemaphoreCreateBinary true)
            { s with s_acd_registration_sem := true, acd_registration_sem_given := false }
          else s
        let s := { s with acd_registration_sem_given := false }
        perform_acd_attempt P env netif ip s

/-! ## `tcpip_try_pending_acd` and its callers -/

/-- Source: `netif_has_valid_hwaddr` (main.c 342-355), with `ETH_HWADDR_LEN = 6`. -/
def netif_has_valid_hwaddr (netif : Bool) (n : LwipNetif) : Bool :=
  if !netif then false
  else if n.hwaddr_len != 6 then false
  else (n.hwaddr.take 6).any (fun b => b != 0)

/-- Source: `tcpip_try_pending_acd` (main.c 807-874). -/
def tcpip_try_pending_acd (P : Config) (env : Env) (netif lwip_netif : Bool) (s : St) : St :=
  if !s.s_acd_probe_pending || !netif || !lwip_netif then s
  else if !netif_has_valid_hwaddr lwip_netif s.lwip then s
  else if !s.lwip.link_up then s.log (.sys_timeout 100)
  else
    let desired_ip := s.s_pending_static_ip_cfg.ip
    let s := CipTcpIpSetLastAcdActivity 2 s
    let s := (tcpip_perform_acd P env lwip_netif desired_ip s).1
    if s.s_acd_callback_received &&
        (s.s_acd_last_state == .ACD_DECLINE || s.s_acd_last_state == .ACD_RESTART_CLIENT) then
      let s := acd_fault P s
      let s := { s with s_acd_probe_pending := false }
      (tcpip_callback_with_block env.marshal_stop_cb .tcpip_acd_stop_cb 1 tcpip_acd_stop_cb s).1
    else
      let s :=
        if s.s_acd_callback_received && s.s_acd_last_state == .ACD_IP_OK then
          let s := esp_netif_set_ip_info s.s_pending_static_ip_cfg s
          let s := opener_configure_dns s
          { s with s_acd_probe_pending := false }
        else s
      CipTcpIpSetLastAcdActivity 1 s

/-- Source: `tcpip_retry_acd_deferred` (main.c 876-902), the `sys_timeout` handler. -/
def tcpip_retry_acd_deferred (P : Config) (env : Env) (netif : Bool) (s : St) : St :=
  if !netif then s
  else if !s.s_acd_probe_pending then s
  else if s.s_acd_registered then s
  else if env.lwip_netif_found then tcpip_try_pending_acd P env netif true s
  else s

/-- Source: `retry_callback` (main.c 323-330). -/
def retry_callback (P : Config) (env : Env) (s : St) : St :=
  if s.s_acd_retry_netif && s.s_acd_retry_lwip_netif then
    tcpip_try_pending_acd P env s.s_acd_retry_netif s.s_acd_retry_lwip_netif s
  else s

/-- Source: `tcpip_acd_retry_timer_callback` (main.c 911-930), compiled only with
`CONFIG_OPENER_ACD_RETRY_ENABLED`. -/
def tcpip_acd_retry_timer_callback (P : Config) (env : Env) (s : St) : St :=
  if !s.s_acd_retry_netif || !s.s_acd_retry_lwip_netif then s
  else
    let s := { s with s_acd_probe_pending := true }
    let r := tcpip_callback_with_block env.marshal_retry_callback .retry_callback 0
      (retry_callback P env) s
    if !r.2 then tcpip_try_pending_acd P env r.1.s_acd_retry_netif r.1.s_acd_retry_lwip_netif r.1
    else r.1

/-! ## Configuration and link events -/

/-- Source: `ip_info_has_static_address` (main.c 191-199); `none` is the NULL pointer. -/
def ip_info_has_static_address (ip_info : Option esp_netif_ip_info_t) : Bool :=
  match ip_info with
  | none => false
  | some i => if i.ip == 0 || i.netmask == 0 then false else true

/-- Source: `tcpip_config_uses_dhcp` (main.c 201-203). -/
def tcpip_config_uses_dhcp (P : Config) (s : St) : Bool :=
  (s.config_control &&& P.kTcpipCfgCtrlMethodMask) == P.kTcpipCfgCtrlDhcp

/-- Source: `configure_hostname` (main.c 212-223); `hostname_set` stands for
`g_tcpip.hostname.length > 0 && g_tcpip.hostname.string != NULL`. -/
def configure_hostname (s : St) : St :=
  if s.hostname_set then s.log .esp_netif_set_hostname else s

/-- The last three statements of `configure_netif_from_tcpip` (main.c 1087-1089). -/
def configure_netif_finish (P : Config) (s : St) : St :=
  let s := configure_hostname s
  let s := { s with status := s.status ||| 1 }
  { s with status := clear_bits s.status P.kTcpipStatusIfaceCfgPend }

/-- The switch to DHCP for a static configuration without address or mask
(main.c 1035-1058). -/
def configure_netif_invalid_static (P : Config) (env : Env) (s : St) : St :=
  let try_autoip := P.CONFIG_LWIP_AUTOIP && env.lwip_netif_found
  let s := if try_autoip then s.log (.netifapi_autoip_start env.autoip_start_ok) else s
  let cleared := clear_bits s.config_control P.kTcpipCfgCtrlMethodMask
  let s := { s with config_control := cleared ||| P.kTcpipCfgCtrlDhcp }
  if try_autoip && env.autoip_start_ok then
    let s := { s with ip_address := 0, network_mask := 0, gateway := 0,
                      name_server := 0, name_server_2 := 0 }
    s.log .NvTcpipStore
  else
    let s := s.log .NvTcpipStore
    s.log .esp_netif_dhcpc_start

/-- The deferred assignment of `configure_netif_from_tcpip` when ACD is selected
(main.c 1061-1072): record the pending address and try to start the probe. -/
def configure_netif_deferred (P : Config) (env : Env) (netif lwip_netif : Bool)
    (ip_info : esp_netif_ip_info_t) (s : St) : St :=
  let s := { s with s_pending_static_ip_cfg := ip_info, s_acd_probe_pending := true }
  let s := CipTcpIpSetLastAcdActivity 1 s
  if lwip_netif then tcpip_try_pending_acd P env netif lwip_netif s else s

/-- Source: `configure_netif_from_tcpip` (main.c 1007-1090). -/
def configure_netif_from_tcpip (P : Config) (env : Env) (netif : Bool) (s : St) : St :=
  if !netif then s
  else
    let lwip_netif := env.lwip_netif_found
    if tcpip_config_uses_dhcp P s then
      let s := s.log .esp_netif_dhcpc_stop
      let s := s.log .esp_netif_dhcpc_start
      configure_netif_finish P s
    else
      let ip_info : esp_netif_ip_info_t :=
        { ip := s.ip_address, netmask := s.network_mask, gw := s.gateway }
      let s := s.log .esp_netif_dhcpc_stop
      if ip_info_has_static_address (some ip_info) then
        let s :=
          if s.select_acd then s
          else opener_configure_dns (esp_netif_set_ip_info ip_info s)
        let s :=
          if s.select_acd then configure_netif_deferred P env netif lwip_netif ip_info s
          else
            let s := CipTcpIpSetLastAcdActivity 0 s
            let s := { s with s_acd_probe_pending := false }
            opener_configure_dns (esp_netif_set_ip_info ip_info s)
        configure_netif_finish P s
      else configure_netif_invalid_static P env s

/-- The `event_id` values of `ethernet_event_handler`. -/
inductive eth_event_t where
  | ETHERNET_EVENT_START
  | ETHERNET_EVENT_STOP
  | ETHERNET_EVENT_CONNECTED
  | ETHERNET_EVENT_DISCONNECTED
  | other
  deriving DecidableEq, Repr

/-- Source: `ethernet_event_handler` (main.c 1092-1134); `eth_netif` is the handler
argument `arg`. -/
def ethernet_event_handler (P : Config) (env : Env) (eth_netif : Bool) (event_id : eth_event_t)
    (s : St) : St :=
  match event_id with
  | .ETHERNET_EVENT_CONNECTED =>
    let s := s.log .esp_netif_set_mac
    let s :=
      if !tcpip_config_uses_dhcp P s then
        tcpip_try_pending_acd P env eth_netif env.lwip_netif_found s
      else s
    s.log .ScaleApplicationNotifyLinkUp
  | .ETHERNET_EVENT_DISCONNECTED =>
    let s :=
      (tcpip_callback_with_block env.marshal_stop_cb .tcpip_acd_stop_cb 1 tcpip_acd_stop_cb s).1
    let s := { s with s_opener_initialized := false, s_services_initialized := false }
    s.log .ScaleApplicationNotifyLinkDown
  | _ => s

/-! ## The event system -/

/-- Run one function taken from the tcpip thread's queue. -/
def run_work (P : Config) (env : Env) (w : Work) (s : St) : St :=
  match w with
  | .tcpip_acd_start_cb n ip =>
    tcpip_acd_start_cb env.acd_add_cb_ok env.acd_readd_cb_ok (some (n, ip)) s
  | .acd_start_probe_cb n ip => acd_start_probe_cb env.acd_start_cb_ok (some (n, ip)) s
  | .tcpip_acd_stop_cb => tcpip_acd_stop_cb s
  | .retry_callback => if P.CONFIG_OPENER_ACD_RETRY_ENABLED then retry_callback P env s else s

/-- What can happen to the orchestration after start-up. -/
inductive Event where
  /-- Source: `app_main` calls `configure_netif_from_tcpip(eth_netif)` -/
  | configure (env : Env)
  /-- the event loop calls `ethernet_event_handler` -/
  | ethernet (event_id : eth_event_t) (env : Env)
  /-- the ACD engine calls `tcpip_acd_conflict_callback` outside a wait -/
  | acd_callback (ev : CallbackEvent)
  /-- the one-shot retry timer expires -/
  | retry_timer (env : Env)
  /-- a `sys_timeout` scheduled by `tcpip_try_pending_acd` expires -/
  | deferred (env : Env)
  /-- the tcpip thread runs the oldest queued function -/
  | tcpip_run (env : Env)
  /-- the driver changes the hardware address or link flag of the netif -/
  | netif_update (n : LwipNetif)

/-- One step of the system. -/
def step (P : Config) (s : St) : Event → St
  | .configure env => configure_netif_from_tcpip P env true s
  | .ethernet event_id env => ethernet_event_handler P env true event_id s
  | .acd_callback ev => deliver P s ev
  | .retry_timer env =>
    if P.CONFIG_OPENER_ACD_RETRY_ENABLED && s.retry_timer_active then
      tcpip_acd_retry_timer_callback P env { s with retry_timer_active := false }
    else s
  | .deferred env => tcpip_retry_acd_deferred P env true s
  | .tcpip_run env =>
    match s.tcpip_queue with
    | [] => s
    | w :: rest => run_work P env w { s with tcpip_queue := rest }
  | .netif_update n => { s with lwip := n }

/-- Run a sequence of events. -/
def run (P : Config) (s : St) (es : List Event) : St := es.foldl (step P) s

/-- The state in which `app_main` reaches `configure_netif_from_tcpip`: the
file-scope variables of the ACD code have their initial values, no address is
bound, nothing is queued or logged, and `g_tcpip.select_acd` is set (which
`app_main` forces for a static configuration). -/
structure Init (s : St) : Prop where
  select_acd : s.select_acd = true
  registered : s.s_acd_registered = false
  sem : s.s_acd_sem = false
  sem_given : s.acd_sem_given = false
  registration_sem : s.s_acd_registration_sem = false
  registration_sem_given : s.acd_registration_sem_given = false
  last_state : s.s_acd_last_state = .ACD_IP_OK
  callback_received : s.s_acd_callback_received = false
  probe_pending : s.s_acd_probe_pending = false
  pending_cfg : s.s_pending_static_ip_cfg = zero_ip
  retry_timer : s.s_acd_retry_timer = false
  timer_active : s.retry_timer_active = false
  retry_count : s.s_acd_retry_count = 0
  retry_netif : s.s_acd_retry_netif = false
  retry_lwip_netif : s.s_acd_retry_lwip_netif = false
  ip_info : s.ip_info = zero_ip
  queue : s.tcpip_queue = []
  trace : s.trace = []

/-- States the system can be in: reached from an initial state by events. -/
def Reachable (P : Config) (s : St) : Prop :=
  ∃ s0 es, Init s0 ∧ s = run P s0 es

/-- A concrete initial state for a static configuration `ip`/`mask`/`gw` on a
link that is up with hardware address `02:00:00:00:00:01`; the user LED has
been initialised and is flashing. -/
def boot (config_control ip mask gw : Nat) : St :=
  { status := 0, select_acd := true, config_control := config_control,
    ip_address := ip, network_mask := mask, gateway := gw,
    name_server := 0, name_server_2 := 0, hostname_set := false,
    last_acd_activity := 0,
    s_acd_registered := false, s_acd_sem := false, acd_sem_given := false,
    s_acd_registration_sem := false, acd_registration_sem_given := false,
    s_acd_last_state := .ACD_IP_OK, s_acd_callback_received := false,
    s_acd_probe_pending := false, s_pending_static_ip_cfg := zero_ip,
    s_acd_retry_timer := false, retry_timer_active := false, s_acd_retry_count := 0,
    s_acd_retry_netif := false, s_acd_retry_lwip_netif := false,
    s_user_led_initialized := true, s_user_led_flash_enabled := true,
    s_user_led_task_handle := true,
    s_opener_initialized := false, s_services_initialized := false,
    lwip := { hwaddr_len := 6, hwaddr := [2, 0, 0, 0, 0, 1], link_up := true },
    ip_info := zero_ip, tcpip_queue := [], trace := [] }

/-! ## Reading the log -/

/-- An `ACD_IP_OK` callback has been received after the outcome record was last
reset (the log is read from the most recent call backwards). -/
def ip_ok_since_reset : List Op → Bool
  | [] => false
  | o :: t =>
    if o = .outcome_reset then false
    else if o = .acd_callback .ACD_IP_OK then true
    else ip_ok_since_reset t

/-- The call `o`, made after the calls of `t`, is not an `esp_netif_set_ip_info`
with a non-null address, or an `ACD_IP_OK` callback had been received since the
last reset of the outcome record. -/
def bind_allowed (o : Op) (t : List Op) : Bool :=
  match o with
  | .esp_netif_set_ip_info info => info.ip == 0 || ip_ok_since_reset t
  | _ => true

/-- Every `esp_netif_set_ip_info` with a non-null address in the log was made
when an `ACD_IP_OK` callback had been received since the last reset of the
outcome record. -/
def probe_before_bind : List Op → Bool
  | [] => true
  | o :: t => bind_allowed o t && probe_before_bind t

/-- Number of `xTimerStart` calls after the most recent `ACD_IP_OK` callback. -/
def arms_since_ip_ok : List Op → Nat
  | [] => 0
  | o :: t =>
    if o = .acd_callback .ACD_IP_OK then 0
    else (if o = .xTimerStart then 1 else 0) + arms_since_ip_ok t

/-- Number of `xTimerStart` calls after the most recent `esp_netif_set_ip_info`
with a non-null address. -/
def arms_since_bind : List Op → Nat
  | [] => 0
  | o :: t =>
    match o with
    | .esp_netif_set_ip_info info =>
      if info.ip != 0 then 0 else arms_since_bind t
    | .xTimerStart => arms_since_bind t + 1
    | _ => arms_since_bind t

/-- Calls of the user-LED functions (the status indicator). -/
def is_led_op : Op → Bool
  | .user_led_start_flash => true
  | .user_led_stop_flash => true
  | .user_led_set _ => true
  | .gpio_set_level _ => true
  | .xTaskCreate _ => true
  | _ => false

/-- Number of status-indicator calls in a log. -/
def led_ops (t : List Op) : Nat := t.countP is_led_op

/-- Number of `xTimerStart` calls in a log. -/
def timer_starts (t : List Op) : Nat := t.count .xTimerStart

/-- Number of `user_led_start_flash` calls in a log. -/
def normal_signals (t : List Op) : Nat := t.count .user_led_start_flash

/-- Calls that neither touch the interface address, the outcome record nor the
retry timer. -/
def quiet_op : Op → Bool
  | .acd_callback _ => false
  | .outcome_reset => false
  | .esp_netif_set_ip_info _ => false
  | .xTimerStart => false
  | _ => true

/-- The bits of `mask` are all set in `status`. -/
def bits_set (status mask : Nat) : Prop := status &&& mask = mask

/-- The bits of `mask` are all clear in `status`. -/
def bits_clear (status mask : Nat) : Prop := status &&& mask = 0

/-! ## The calls logged by the leaf functions -/

/-- Calls logged by `user_led_set`, most recent first. -/
def user_led_set_ops (level : Bool) (s : St) : List Op :=
  if s.s_user_led_initialized then [.gpio_set_level level, .user_led_set level]
  else [.user_led_set level]

/-- Calls logged by `user_led_start_flash`, most recent first. -/
def user_led_start_flash_ops (ok : Bool) (s : St) : List Op :=
  if s.s_user_led_initialized && !s.s_user_led_task_handle then
    [.xTaskCreate ok, .user_led_start_flash]
  else [.user_led_start_flash]

/-- Value of `s_user_led_flash_enabled` after `user_led_start_flash`. -/
def user_led_start_flash_enabled (ok : Bool) (s : St) : Bool :=
  if s.s_user_led_initialized && !s.s_user_led_task_handle then ok
  else s.s_user_led_flash_enabled

/-- Value of `s_user_led_task_handle` after `user_led_start_flash`. -/
def user_led_start_flash_handle (ok : Bool) (s : St) : Bool :=
  if s.s_user_led_initialized && !s.s_user_led_task_handle then ok
  else s.s_user_led_task_handle

/-- Calls logged by `opener_configure_dns`, most recent first. -/
def opener_configure_dns_ops (s : St) : List Op :=
  (if s.name_server_2 != 0 then [Op.esp_netif_set_dns_info false s.name_server_2] else []) ++
  (if s.name_server != 0 then [Op.esp_netif_set_dns_info true s.name_server] else [])

/-! ## Conditions on the platform decisions -/

/-- The semaphores and the start context of `tcpip_perform_acd` can be obtained. -/
def resources_available (env : Env) (s : St) : Bool :=
  (s.s_acd_sem || env.sem_create_ok) && env.malloc_start_ctx_ok &&
    (s.s_acd_registration_sem || env.registration_sem_create_ok)

/-- The engine client is registered when the registration part of
`tcpip_perform_acd` ends: it was registered before, or the direct `acd_add`
succeeds, or `tcpip_acd_start_cb` is posted and its `acd_add` (if it runs in time)
or the last-resort direct `acd_add` (if it does not) succeeds. -/
def registration_succeeds (env : Env) (s : St) : Bool :=
  s.s_acd_registered || env.acd_add_direct_ok ||
    (match env.marshal_start_cb with
      | .failed => false
      | .ran => env.acd_add_cb_ok
      | .queued => env.acd_add_fallback_ok)

/-- The probe start is issued: the direct `acd_start` succeeds, or the probe
context is allocated and `acd_start_probe_cb` is posted. -/
def start_succeeds (env : Env) : Bool :=
  env.acd_start_ok ||
    (env.malloc_probe_ctx_ok &&
      (match env.marshal_probe_cb with
        | .failed => false
        | _ => true))

/-- The conflict arm of the callback takes the retry path: the retry feature is
compiled in, `netif` is non-NULL and maps to an esp-netif handle, and attempts
remain (`CONFIG_OPENER_ACD_RETRY_MAX_ATTEMPTS == 0` or the count is below it). -/
def retry_applies (P : Config) (e : CallbackEnv) (netif : Bool) (s : St) : Bool :=
  P.CONFIG_OPENER_ACD_RETRY_ENABLED && netif && e.esp_netif_found &&
    (P.CONFIG_OPENER_ACD_RETRY_MAX_ATTEMPTS == 0 ||
      decide (s.s_acd_retry_count < (P.CONFIG_OPENER_ACD_RETRY_MAX_ATTEMPTS : Int)))

/-- The `ACD_IP_OK` arm of the callback binds the pending address. -/
def callback_binds (e : CallbackEnv) (netif : Bool) (s : St) : Bool :=
  s.s_acd_probe_pending && netif && e.esp_netif_found && (s.s_pending_static_ip_cfg.ip != 0)

/-! ## Concrete configurations, states and event lists -/

/-- Nominal platform decisions: every allocation, registration, start and
posting succeeds, posted work runs at once, and no callback runs during the wait. -/
def env_nominal : Env :=
  { sem_create_ok := true, malloc_start_ctx_ok := true, registration_sem_create_ok := true,
    acd_add_direct_ok := true, marshal_start_cb := .ran, acd_add_cb_ok := true,
    acd_readd_cb_ok := true, acd_add_fallback_ok := true, acd_start_ok := true,
    malloc_probe_ctx_ok := true, marshal_probe_cb := .ran, acd_start_cb_ok := true,
    callbacks := [], marshal_stop_cb := .ran, marshal_retry_callback := .ran,
    lwip_netif_found := true, autoip_start_ok := true }

/-- Nominal platform decisions during a callback: the netif maps to an esp-netif
handle, the LED task and the retry timer can be created. -/
def callback_env_nominal : CallbackEnv :=
  { esp_netif_found := true, xTaskCreate_ok := true, xTimerCreate_ok := true }

/-- A configuration with the retry feature compiled in. -/
def config_with_retry (max_attempts : Nat) : Config :=
  { kTcpipStatusAcdStatus := 64, kTcpipStatusAcdFault := 128, kTcpipStatusIfaceCfgPend := 16,
    kTcpipCfgCtrlMethodMask := 15, kTcpipCfgCtrlStaticIp := 0, kTcpipCfgCtrlDhcp := 2,
    CONFIG_OPENER_ACD_RETRY_ENABLED := true,
    CONFIG_OPENER_ACD_RETRY_MAX_ATTEMPTS := max_attempts,
    CONFIG_OPENER_ACD_RETRY_DELAY_MS := 10000, CONFIG_LWIP_AUTOIP := false }

/-- The state after start-up for `192.0.2.10/24`, gateway `192.0.2.1`, with the
probe intent set as `configure_netif_from_tcpip` sets it. -/
def pending_192_0_2_10 : St :=
  { boot 0 3221225994 4294967040 3221225985 with
    s_acd_probe_pending := true,
    s_pending_static_ip_cfg := { ip := 3221225994, netmask := 4294967040, gw := 3221225985 } }

/-- The most recent calls of a log are `xTimerChangePeriod(ms)` followed by
`xTimerStart`. -/
def armed_with_period (ms : Nat) (t : List Op) : Bool :=
  match t with
  | .xTimerStart :: .xTimerChangePeriod p :: _ => p == ms
  | _ => false

/-- An `ACD_DECLINE` callback (for a netif with an esp-netif handle) followed by
the expiry of the retry timer. -/
def decline_then_timer (P : Config) (e : CallbackEnv) (env : Env) (s : St) : St :=
  step P (deliver P s ⟨true, .ACD_DECLINE, { e with esp_netif_found := true }⟩)
    (.retry_timer env)

/-- The events of the exhaustion scenario: start-up, then two `ACD_DECLINE`
callbacks with the retry timer expiring in between. -/
def events_two_declines : List Event :=
  [.configure env_nominal,
   .acd_callback ⟨true, .ACD_DECLINE, callback_env_nominal⟩,
   .retry_timer env_nominal,
   .acd_callback ⟨true, .ACD_DECLINE, callback_env_nominal⟩]

/-- The state after `n` consecutive `ACD_DECLINE` callbacks for a netif with an
esp-netif handle. -/
def conflicts (P : Config) (e : CallbackEnv) (n : Nat) (s : St) : St :=
  (fun x => deliver P x ⟨true, .ACD_DECLINE, e⟩)^[n] s

/-- Start-up followed by a link-down event. -/
def events_link_down : List Event :=
  [.configure env_nominal, .ethernet .ETHERNET_EVENT_DISCONNECTED env_nominal]

/-- Start-up, a late `ACD_DECLINE` callback (which arms the retry timer), then a
link-down event. -/
def events_conflict_link_down : List Event :=
  [.configure env_nominal,
   .acd_callback ⟨true, .ACD_DECLINE, callback_env_nominal⟩,
   .ethernet .ETHERNET_EVENT_DISCONNECTED env_nominal]

/-- Calls logged by the link-down arm of `ethernet_event_handler`, most recent
first. -/
def link_down_ops (m : Marshal) : List Op :=
  match m with
  | .failed =>
    [.ScaleApplicationNotifyLinkDown, .tcpip_callback_with_block .tcpip_acd_stop_cb 1 false]
  | .ran =>
    [.ScaleApplicationNotifyLinkDown, .acd_stop .marshaled,
     .tcpip_callback_with_block .tcpip_acd_stop_cb 1 true]
  | .queued =>
    [.ScaleApplicationNotifyLinkDown, .tcpip_callback_with_block .tcpip_acd_stop_cb 1 true]

/-- Start-up with one `ACD_IP_OK` callback delivered during the wait. -/
def events_success : List Event :=
  [.configure { env_nominal with callbacks := [⟨true, .ACD_IP_OK, callback_env_nominal⟩] }]

/-! ## Invariants of the event system -/

/-- What holds in every state reached after start-up: ACD stays selected; every
non-null bind in the log was allowed; a recorded `ACD_IP_OK` outcome was received
since the last reset and finds the retry count at 0; a non-zero retry count goes
with a removed address; without the retry feature the count stays 0; and with
`0 < max_attempts < 2^31` the count lies in `0..max_attempts` and bounds the number
of timer starts since the last `ACD_IP_OK` callback. -/
structure Inv (P : Config) (s : St) : Prop where
  acd : s.select_acd = true
  guarded : probe_before_bind s.trace = true
  outcome : s.s_acd_callback_received = true → s.s_acd_last_state = .ACD_IP_OK →
    ip_ok_since_reset s.trace = true ∧ s.s_acd_retry_count = 0
  unbound : s.s_acd_retry_count ≠ 0 → s.ip_info = zero_ip
  disabled : P.CONFIG_OPENER_ACD_RETRY_ENABLED = false → s.s_acd_retry_count = 0
  bounded : 0 < P.CONFIG_OPENER_ACD_RETRY_MAX_ATTEMPTS →
    P.CONFIG_OPENER_ACD_RETRY_MAX_ATTEMPTS < 2147483648 →
    0 ≤ s.s_acd_retry_count ∧
    s.s_acd_retry_count ≤ (P.CONFIG_OPENER_ACD_RETRY_MAX_ATTEMPTS : Int) ∧
    (arms_since_ip_ok s.trace : Int) ≤ s.s_acd_retry_count

/-- The second state agrees with the first on everything `Inv` reads. -/
structure SameMon (s t : St) : Prop where
  acd : t.select_acd = s.select_acd
  guarded : probe_before_bind t.trace = probe_before_bind s.trace
  received : t.s_acd_callback_received = s.s_acd_callback_received
  last : t.s_acd_last_state = s.s_acd_last_state
  since : ip_ok_since_reset t.trace = ip_ok_since_reset s.trace
  count : t.s_acd_retry_count = s.s_acd_retry_count
  bound : t.ip_info = s.ip_info
  arms : arms_since_ip_ok t.trace = arms_since_ip_ok s.trace

/-- The second state agrees with the first on what `Inv` reads, except that its
outcome record has been reset. -/
structure ResetMon (s t : St) : Prop where
  acd : t.select_acd = s.select_acd
  guarded : probe_before_bind t.trace = probe_before_bind s.trace
  received : t.s_acd_callback_received = false
  count : t.s_acd_retry_count = s.s_acd_retry_count
  bound : t.ip_info = s.ip_info
  arms : arms_since_ip_ok t.trace = arms_since_ip_ok s.trace

/-! ## States, event lists and log readers for the later claims -/

/-- The state after start-up for `192.0.2.10` in which two retries have been
scheduled. -/
def pending_after_two_retries : St :=
  { pending_192_0_2_10 with s_acd_retry_count := 2 }

/-- A state with a pending intent whose netif has no hardware address yet. -/
def pending_without_hwaddr : St :=
  { pending_192_0_2_10 with
    lwip := { hwaddr_len := 6, hwaddr := [0, 0, 0, 0, 0, 0], link_up := true } }

/-- A state with a pending intent whose netif has a hardware address but no link. -/
def pending_link_down : St :=
  { pending_192_0_2_10 with
    lwip := { hwaddr_len := 6, hwaddr := [2, 0, 0, 0, 0, 1], link_up := false } }

/-- The operations of the ACD engine: `acd_add` (register), `acd_start`,
`acd_stop`, and the two direct writes to its data (`netif->acd_list = NULL`,
the forced `ACD_STATE_ONGOING`). -/
def is_engine_call : Op → Bool
  | .acd_add _ _ => true
  | .acd_start _ _ _ => true
  | .acd_stop _ => true
  | .acd_set_ongoing _ => true
  | .acd_list_reset => true
  | _ => false

/-- Calls logged by `configure_netif_from_tcpip` after `esp_netif_dhcpc_stop` for a
static configuration without address or mask, most recent first. -/
def invalid_static_ops (P : Config) (env : Env) : List Op :=
  if P.CONFIG_LWIP_AUTOIP && env.lwip_netif_found then
    if env.autoip_start_ok then [.NvTcpipStore, .netifapi_autoip_start true]
    else [.esp_netif_dhcpc_start, .NvTcpipStore, .netifapi_autoip_start false]
  else [.esp_netif_dhcpc_start, .NvTcpipStore]

/-- A static configuration (`method = 0`) without an address. -/
def boot_without_address : St := boot 0 0 0 0

/-- The call is an `acd_add`. -/
def is_acd_add : Op → Bool
  | .acd_add _ _ => true
  | _ => false

/-- The call is an `acd_start`. -/
def is_acd_start : Op → Bool
  | .acd_start _ _ _ => true
  | _ => false

/-- The call is an `acd_stop`. -/
def is_acd_stop : Op → Bool
  | .acd_stop _ => true
  | _ => false

/-- Number of `acd_add` calls in a log. -/
def acd_adds (t : List Op) : Nat := t.countP is_acd_add

/-- Number of `acd_start` calls in a log. -/
def acd_starts (t : List Op) : Nat := t.countP is_acd_start

/-- Start-up, a bind on a late `ACD_IP_OK` callback, then a conflict that arms the
retry timer: the intent is no longer pending when the timer runs. -/
def events_bind_then_conflict : List Event :=
  [.configure env_nominal,
   .acd_callback ⟨true, .ACD_IP_OK, callback_env_nominal⟩,
   .acd_callback ⟨true, .ACD_DECLINE, callback_env_nominal⟩]

/-- Start-up, a conflict that arms the retry timer, then a link-up event that
registers and starts the client again before the timer runs. -/
def events_conflict_then_link_up : List Event :=
  [.configure env_nominal,
   .acd_callback ⟨true, .ACD_DECLINE, callback_env_nominal⟩,
   .ethernet .ETHERNET_EVENT_CONNECTED env_nominal]

/-- A resource of `tcpip_perform_acd` cannot be obtained: `s_acd_sem` or
`s_acd_registration_sem` cannot be created, the start context cannot be
allocated, or (after registration and a failed direct `acd_start`) the probe
context cannot be allocated. -/
def resource_exhausted (env : Env) (s : St) : Bool :=
  (!s.s_acd_sem && !env.sem_create_ok) || !env.malloc_start_ctx_ok ||
    (!s.s_acd_registration_sem && !env.registration_sem_create_ok) ||
    (registration_succeeds env s && !env.acd_start_ok && !env.malloc_probe_ctx_ok)

/-- Platform decisions under which the start context cannot be allocated. -/
def env_no_memory : Env := { env_nominal with malloc_start_ctx_ok := false }

/-- Start-up whose bounded wait times out, then a second link-up event: the
probe intent is already pending and the engine registered and started when the
second start request arrives. -/
def events_second_link_up : List Event :=
  [.configure env_nominal, .ethernet .ETHERNET_EVENT_CONNECTED env_nominal]

/-- Value of `s_acd_registered` after the calls of a log (most recent first):
a successful `acd_add` sets it, and `tcpip_acd_start_retry` clears it together
with its `acd_stop`. -/
def registered_after : List Op → Bool
  | [] => false
  | o :: t =>
    match o with
    | .acd_add _ ok => ok || registered_after t
    | .acd_stop .engine_callback => false
    | _ => registered_after t

/-- The most recent call of the log is the forced transition to `ACD_STATE_ONGOING`
of `tcpip_acd_start_cb`. -/
def after_set_ongoing : List Op → Bool
  | .acd_set_ongoing _ :: _ => true
  | _ => false

/-- The call `o`, made after the calls of `t`, is not an `acd_add`, or it was made
while `s_acd_registered` was false, or it is the re-adding `acd_add` by which
`tcpip_acd_start_cb` ends its forced transition to `ACD_STATE_ONGOING`. -/
def add_allowed (o : Op) (t : List Op) : Bool :=
  match o with
  | .acd_add via _ => !registered_after t || (via == .marshaled && after_set_ongoing t)
  | _ => true

/-- Every `acd_add` of the log was allowed. -/
def adds_guarded : List Op → Bool
  | [] => true
  | o :: t => add_allowed o t && adds_guarded t

/-- Every `acd_stop` of the log was called while `s_acd_registered` was true. -/
def stops_while_registered : List Op → Bool
  | [] => true
  | o :: t => (!is_acd_stop o || registered_after t) && stops_while_registered t

/-- The most recent call of the log is an `acd_stop` made while
`s_acd_registered` was true. -/
def after_registered_stop : List Op → Bool
  | .acd_stop _ :: t => registered_after t
  | _ => false

/-- The call `o`, made after the calls of `t`, is not the `acd_stop` of
`tcpip_acd_start_retry` nor the forced transition of `tcpip_acd_start_cb`, or the
`acd_stop` concerned was made while `s_acd_registered` was true. -/
def stop_allowed (o : Op) (t : List Op) : Bool :=
  match o with
  | .acd_stop .engine_callback => registered_after t
  | .acd_set_ongoing _ => after_registered_stop t
  | _ => true

/-- Every `acd_stop` of `tcpip_acd_start_retry` and of `tcpip_acd_start_cb` in the
log was called while `s_acd_registered` was true. -/
def stops_guarded : List Op → Bool
  | [] => true
  | o :: t => stop_allowed o t && stops_guarded t

/-- The call is a direct `acd_start` (the one `tcpip_perform_acd` makes itself). -/
def is_direct_start : Op → Bool
  | .acd_start .direct _ _ => true
  | _ => false

/-- Every direct `acd_start` of the log was called while `s_acd_registered` was
true. -/
def direct_starts_registered : List Op → Bool
  | [] => true
  | o :: t => (!is_direct_start o || registered_after t) && direct_starts_registered t

/-- A start request of `tcpip_perform_acd`: the direct `acd_start`, or the posting
of `acd_start_probe_cb`. -/
def is_start_request : Op → Bool
  | .acd_start .direct _ _ => true
  | .tcpip_callback_with_block (.acd_start_probe_cb _ _) _ _ => true
  | _ => false

/-- A start request that was accepted: the direct `acd_start` returned `ERR_OK`,
or the posting of `acd_start_probe_cb` did. -/
def start_issued : Op → Bool
  | .acd_start .direct _ ok => ok
  | .tcpip_callback_with_block (.acd_start_probe_cb _ _) _ ok => ok
  | _ => false

/-- The outcome record has been reset after the most recent accepted start
request of the log. -/
def reset_since_start : List Op → Bool
  | [] => false
  | o :: t =>
    if o = .outcome_reset then true
    else if start_issued o then false
    else reset_since_start t

/-- Every start request of the log was made when the outcome record had been
reset after the previous accepted start request. -/
def starts_follow_reset : List Op → Bool
  | [] => true
  | o :: t => (!is_start_request o || reset_since_start t) && starts_follow_reset t

/-- The outcome on record after the calls of a log: the state of the most recent
callback received after the last reset, if any. -/
def outcome_of : List Op → Option acd_callback_enum_t
  | [] => none
  | o :: t =>
    match o with
    | .outcome_reset => none
    | .acd_callback state => some state
    | _ => outcome_of t

/-- Number of start requests in a log. -/
def start_requests (t : List Op) : Nat := t.countP is_start_request

/-- Calls that no reader of the engine calls reacts to. -/
def engine_neutral : Op → Bool
  | .acd_add _ _ => false
  | .acd_stop .engine_callback => false
  | .acd_set_ongoing _ => false
  | .acd_start .direct _ _ => false
  | .tcpip_callback_with_block (.acd_start_probe_cb _ _) _ _ => false
  | .outcome_reset => false
  | .acd_callback _ => false
  | _ => true

/-- What the log tells about the engine calls in every state reached after
start-up: `s_acd_registered` and the outcome record are what the log says, every
`acd_add` was allowed, the guarded `acd_stop` calls and the direct `acd_start`
calls were made while registered, and every start request follows a reset. -/
structure Eng (s : St) : Prop where
  registered : s.s_acd_registered = registered_after s.trace
  outcome : outcome_of s.trace =
    if s.s_acd_callback_received then some s.s_acd_last_state else none
  adds : adds_guarded s.trace = true
  stops : stops_guarded s.trace = true
  starts : direct_starts_registered s.trace = true
  resets : starts_follow_reset s.trace = true

/-- The second state agrees with the first on what `Eng` reads from the state,
and its log extends the first one's by calls no reader reacts to. -/
structure EngExt (s t : St) : Prop where
  registered : t.s_acd_registered = s.s_acd_registered
  received : t.s_acd_callback_received = s.s_acd_callback_received
  last : t.s_acd_last_state = s.s_acd_last_state
  ext : ∃ l : List Op, t.trace = l ++ s.trace ∧ ∀ o ∈ l, engine_neutral o = true

/-- Number of `acd_stop` calls in a log. -/
def acd_stops (t : List Op) : Nat := t.countP is_acd_stop

/-- Platform decisions under which the direct `acd_start` fails and the posted
`acd_start_probe_cb` stays queued. -/
def env_probe_cb_queued : Env :=
  { env_nominal with acd_start_ok := false, marshal_probe_cb := .queued }

/-- Start-up followed by a late `ACD_DECLINE` callback. -/
def events_late_decline : List Event :=
  [.configure env_nominal, .acd_callback ⟨true, .ACD_DECLINE, callback_env_nominal⟩]

/-- Start-up with an `ACD_DECLINE` callback delivered during the wait. -/
def events_conflict_in_wait : List Event :=
  [.configure { env_nominal with callbacks := [⟨true, .ACD_DECLINE, callback_env_nominal⟩] }]

/-- A state with a pending intent that still holds the outcome of an earlier
attempt: an `ACD_DECLINE` callback has been received. -/
def state_after_conflict : St :=
  { pending_192_0_2_10 with
    s_acd_callback_received := true, s_acd_last_state := .ACD_DECLINE }

/-- Successful allocations of a heap context in a log. -/
def ctx_mallocs (c : Ctx) (t : List Op) : Nat := t.count (.malloc c true)

/-- Calls of `free` on a heap context in a log. -/
def ctx_frees (c : Ctx) (t : List Op) : Nat := t.count (.free c)

/-- The pending state for `192.0.2.10` with the engine client already registered,
as a link-down event leaves it (`s_acd_registered` is not cleared by link-down). -/
def pending_registered : St := { pending_192_0_2_10 with s_acd_registered := true }

/-- Platform decisions under which the direct `acd_add` fails and
`tcpip_acd_start_cb` cannot be posted. -/
def env_post_fails : Env :=
  { env_nominal with acd_add_direct_ok := false, marshal_start_cb := .failed }

/-- Direct engine calls in a log: `acd_add`, `acd_start` or `acd_stop` from the
caller's own context. -/
def direct_engine_calls (t : List Op) : Nat :=
  t.countP (fun o =>
    match o with
    | .acd_add .direct _ => true
    | .acd_start .direct _ _ => true
    | .acd_stop .direct => true
    | _ => false)

/-- Postings through `tcpip_callback_with_block` in a log. -/
def postings (t : List Op) : Nat :=
  t.countP (fun o =>
    match o with
    | .tcpip_callback_with_block _ _ _ => true
    | _ => false)

/-! ## Web API (`components/webui/src/webui_api.c`)

Handlers are embedded by what they hand to the HTTP server: the status line, the
content type and the members of the JSON body.  What the platform decides
(`cJSON_Print` or `malloc` returning NULL, the NVS write succeeding) is an input. -/

/-- A member value of a JSON body built with cJSON. -/
inductive JsonValue where
  | str (s : String)
  | num (n : Int)
  | bool (b : Bool)
  deriving DecidableEq, Repr

/-- The response a handler sends. -/
structure HttpResponse where
  status : String
  content_type : String
  body : List (String × JsonValue)
  deriving DecidableEq, Repr

/-- Source: `httpd_resp_send_500(req)`, the server's own 500 response. -/
def httpd_resp_send_500 : HttpResponse :=
  { status := "500 Internal Server Error", content_type := "text/html", body := [] }

/-- Source: `send_json_response` (webui_api.c 90-106); the Boolean of the result is
`true` for `ESP_OK`. -/
def send_json_response (cJSON_Print_ok : Bool) (json : List (String × JsonValue))
    (status_code_ok : Bool) : HttpResponse × Bool :=
  if !cJSON_Print_ok then (httpd_resp_send_500, false)
  else
    ({ status := if status_code_ok then "200 OK" else "400 Bad Request",
       content_type := "application/json", body := json }, true)

/-- Source: `send_json_error` (webui_api.c 109-135). -/
def send_json_error (cJSON_Print_ok : Bool) (message : String) (http_status : Int) :
    HttpResponse × Bool :=
  let json := [("status", JsonValue.str "error"), ("message", JsonValue.str message)]
  if !cJSON_Print_ok then (httpd_resp_send_500, false)
  else
    let status :=
      if http_status == 400 then "400 Bad Request"
      else if http_status == 500 then "500 Internal Server Error"
      else "400 Bad Request"
    ({ status := status, content_type := "application/json", body := json }, true)

/-- Source: `api_get_logs_handler` (webui_api.c 853-883).  `logs` and `bytes_read`
are what `log_buffer_get` delivers. -/
def api_get_logs_handler (cJSON_Print_ok log_buffer_is_enabled : Bool) (log_size : Nat)
    (malloc_ok : Bool) (logs : String) (bytes_read : Nat) : HttpResponse × Bool :=
  if !log_buffer_is_enabled then send_json_error cJSON_Print_ok "Log buffer not enabled" 503
  else if !malloc_ok then
    send_json_error cJSON_Print_ok "Failed to allocate memory for logs" 500
  else
    send_json_response cJSON_Print_ok
      [("status", .str "ok"), ("logs", .str logs), ("size", .num bytes_read),
       ("total_size", .num log_size), ("truncated", .bool (decide (bytes_read < log_size)))]
      true

/-- The status line that the Web REST API documentation
(`docs/doxygen_topics.h` 158-162) gives for a status code. -/
def documented_status_line (code : Int) : Option String :=
  if code == 200 then some "200 OK"
  else if code == 400 then some "400 Bad Request"
  else if code == 500 then some "500 Internal Server Error"
  else if code == 503 then some "503 Service Unavailable"
  else none

/-- The request methods used by the API. -/
inductive http_method where
  | HTTP_GET
  | HTTP_POST
  deriving DecidableEq, Repr

/-- The handler functions registered by `webui_register_api_handlers`. -/
inductive ApiHandler where
  | api_ota_update_handler
  | api_ota_status_handler
  | api_reboot_handler
  | api_get_modbus_handler
  | api_post_modbus_handler
  | api_get_assemblies_sizes_handler
  | api_get_status_handler
  | api_get_i2c_pullup_handler
  | api_post_i2c_pullup_handler
  | api_get_logs_handler
  | api_get_ipconfig_handler
  | api_post_ipconfig_handler
  | api_get_nau7802_handler
  | api_post_nau7802_handler
  | api_post_nau7802_calibrate_handler
  deriving DecidableEq, Repr

/-- Source: `httpd_uri_t`, without the unused `user_ctx`. -/
structure httpd_uri_t where
  uri : String
  method : http_method
  handler : ApiHandler
  deriving DecidableEq, Repr

/-- Source: `webui_register_api_handlers` (webui_api.c 1598-1754): the records
passed to `httpd_register_uri_handler`, in order; `server` is `false` for NULL. -/
def webui_register_api_handlers (server : Bool) : List httpd_uri_t :=
  if !server then []
  else
    [ { uri := "/api/ota/update", method := .HTTP_POST, handler := .api_ota_update_handler },
      { uri := "/api/ota/status", method := .HTTP_GET, handler := .api_ota_status_handler },
      { uri := "/api/reboot", method := .HTTP_POST, handler := .api_reboot_handler },
      { uri := "/api/modbus", method := .HTTP_GET, handler := .api_get_modbus_handler },
      { uri := "/api/modbus", method := .HTTP_POST, handler := .api_post_modbus_handler },
      { uri := "/api/assemblies/sizes", method := .HTTP_GET,
        handler := .api_get_assemblies_sizes_handler },
      { uri := "/api/status", method := .HTTP_GET, handler := .api_get_status_handler },
      { uri := "/api/i2c/pullup", method := .HTTP_GET, handler := .api_get_i2c_pullup_handler },
      { uri := "/api/i2c/pullup", method := .HTTP_POST, handler := .api_post_i2c_pullup_handler },
      { uri := "/api/logs", method := .HTTP_GET, handler := .api_get_logs_handler },
      { uri := "/api/ipconfig", method := .HTTP_GET, handler := .api_get_ipconfig_handler },
      { uri := "/api/ipconfig", method := .HTTP_POST, handler := .api_post_ipconfig_handler },
      { uri := "/api/nau7802", method := .HTTP_GET, handler := .api_get_nau7802_handler },
      { uri := "/api/nau7802", method := .HTTP_POST, handler := .api_post_nau7802_handler },
      { uri := "/api/nau7802/calibrate", method := .HTTP_POST,
        handler := .api_post_nau7802_calibrate_handler } ]

/-- An endpoint is registered: some record has its method and URI. -/
def endpoint_registered (server : Bool) (e : http_method × String) : Bool :=
  (webui_register_api_handlers server).any (fun r => r.method == e.1 && r.uri == e.2)

/-- The endpoints listed in the Web REST API documentation
(`docs/doxygen_topics.h` 164-188). -/
def documented_endpoints : List (http_method × String) :=
  [ (.HTTP_GET, "/api/ipconfig"), (.HTTP_POST, "/api/ipconfig"), (.HTTP_POST, "/api/reboot"),
    (.HTTP_GET, "/api/logs"), (.HTTP_GET, "/api/assemblies"),
    (.HTTP_GET, "/api/assemblies/input"), (.HTTP_GET, "/api/assemblies/output"),
    (.HTTP_GET, "/api/nau7802"), (.HTTP_POST, "/api/nau7802"),
    (.HTTP_POST, "/api/nau7802/calibrate"), (.HTTP_GET, "/api/modbus/status"),
    (.HTTP_POST, "/api/modbus/enabled") ]

/-- The byte-offset setting of the NAU7802 record: the value in NVS, the cache of
`webui_api.c` and the handler's `config_changed`. -/
structure Nau7802Offset where
  nvs_byte_offset : Nat
  s_cached_nau7802_byte_offset : Nat
  s_nau7802_byte_offset_cached : Bool
  config_changed : Bool
  deriving DecidableEq, Repr

/-- A JSON number as `cJSON_GetNumberValue` returns it: the `double` with the
value `num / den` (`den > 0`). -/
structure JsonNumber where
  num : Int
  den : Nat
  deriving DecidableEq, Repr

/-- The integral part of a number: the fraction is discarded, as the conversion
of a `double` to an integer type does. -/
def JsonNumber.integral_part (x : JsonNumber) : Int := Int.tdiv x.num x.den

/-- The conversion `(uint8_t)x` of a `double`: the integral part when it lies in
`0 .. 255`; for an integral part outside that range, where C leaves the result
open, the low 8 bits, as the target computes it. -/
def uint8_cast (x : JsonNumber) : Nat := (x.integral_part % 256).toNat

/-- The conversion `(int)x` of a `double` whose integral part fits an `int`. -/
def int_cast (x : JsonNumber) : Int := x.integral_part

/-- The `byte_offset` block of `api_post_nau7802_handler` (webui_api.c 1332-1350).
`item` is `none` when the member is absent or not a number, else the value of
`cJSON_GetNumberValue(item)`; `save_ok` is the result of
`system_nau7802_byte_offset_save`.  The response is `some` when the handler
returns from inside the block. -/
def api_post_nau7802_byte_offset (cJSON_Print_ok : Bool) (item : Option JsonNumber)
    (save_ok : Bool) (st : Nau7802Offset) : Nau7802Offset × Option (HttpResponse × Bool) :=
  match item with
  | none => (st, none)
  | some x =>
    let byte_offset := uint8_cast x
    let assembly_size := 32
    let nau7802_data_size := 10
    let max_offset := assembly_size - nau7802_data_size
    if byte_offset > max_offset then
      (st, some (send_json_error cJSON_Print_ok
        "Byte offset too large. Maximum is 22 (assembly size 32 - data size 10)" 400))
    else if save_ok then
      ({ st with nvs_byte_offset := byte_offset, s_cached_nau7802_byte_offset := byte_offset,
                 s_nau7802_byte_offset_cached := true, config_changed := true }, none)
    else (st, none)

/-- The `unit` block of `api_post_nau7802_handler` (webui_api.c 1352-1364), the
neighbouring block, which checks the range on the `int` before narrowing.  The
result is the unit saved, if any. -/
def api_post_nau7802_unit (item : Option JsonNumber) (save_ok : Bool) : Option Nat :=
  match item with
  | none => none
  | some x =>
    let unit_int := int_cast x
    if unit_int ≥ 0 && unit_int ≤ 2 then
      if save_ok then some (unit_int % 256).toNat else none
    else none

/-! ## The NAU7802 record in Assembly 100

Bytes are numbers below 256, the assembly `g_assembly_data064` is a list of 32
bytes, and `memcpy` of an `int32_t` stores its two's-complement value with the
least significant byte first, as the little-endian target does. -/

/-- The four bytes of an `int32_t` in memory, least significant first. -/
def int32_to_bytes (x : Int) : List Nat :=
  let u := (x % 4294967296).toNat
  [u % 256, u / 256 % 256, u / 65536 % 256, u / 16777216 % 256]

/-- The `int32_t` stored in four bytes, least significant first. -/
def int32_of_bytes (b0 b1 b2 b3 : Nat) : Int :=
  let u : Int := b0 + 256 * b1 + 65536 * b2 + 16777216 * b3
  if u ≥ 2147483648 then u - 4294967296 else u

/-- Source: `memcpy(&a[off], src, n)` for the bytes `src`. -/
def memcpy_bytes (a : List Nat) (off : Nat) : List Nat → List Nat
  | [] => a
  | b :: bs => memcpy_bytes (a.set off b) (off + 1) bs

/-- The status byte packed by `nau7802_scale_task` (main.c 1616-1631). -/
def nau7802_status_byte (available connected is_initialized : Bool) : Nat :=
  let status_byte := 0
  let status_byte := if available then status_byte ||| 1 else status_byte
  let status_byte := if connected then status_byte ||| 2 else status_byte
  if is_initialized then status_byte ||| 4 else status_byte

/-- The four stores of `nau7802_scale_task` into Assembly 100 (main.c 1638-1641);
`unit` and `status_byte` are `uint8_t` values. -/
def nau7802_store_record (byte_offset : Nat) (weight_scaled raw_reading : Int)
    (unit status_byte : Nat) (g_assembly_data064 : List Nat) : List Nat :=
  let a := memcpy_bytes g_assembly_data064 byte_offset (int32_to_bytes weight_scaled)
  let a := memcpy_bytes a (byte_offset + 4) (int32_to_bytes raw_reading)
  let a := a.set (byte_offset + 8) unit
  a.set (byte_offset + 9) status_byte

/-- One pass of the loop of `nau7802_scale_task` over Assembly 100
(main.c 1540-1649).  `s_nau7802_initialized` is the flag of that name, which is
set during start-up (main.c 1463, 1466) and never cleared, so both reads of a
pass see the same value; `connection_mutex_taken`, `assembly_mutex_taken` and
`device_mutex_taken` say whether the three `xSemaphoreTake` calls returned
`pdTRUE`; `nau7802_is_connected` and `nau7802_available` are the results of the
driver calls of those names; `reading` is the `int32_t` returned by
`nau7802_get_reading` or `nau7802_get_average`; `weight_scaled` is the `int32_t`
that the floating-point conversion of lines 1591-1613 produces;
`system_nau7802_unit_load` is the value returned by that function, held in a
`uint8_t`. -/
def nau7802_scale_task_pass (s_nau7802_initialized : Bool)
    (connection_mutex_taken nau7802_is_connected assembly_mutex_taken : Bool)
    (byte_offset : Nat) (device_mutex_taken nau7802_available : Bool) (reading : Int)
    (weight_scaled : Int) (system_nau7802_unit_load : Nat) (g_assembly_data064 : List Nat) :
    List Nat :=
  let initialized := s_nau7802_initialized
  if initialized then
    let connected := connection_mutex_taken && nau7802_is_connected
    if connected then
      if assembly_mutex_taken then
        if byte_offset ≤ 22 then
          let available := device_mutex_taken && nau7802_available
          let raw_reading := if available then reading else 0
          let unit := system_nau7802_unit_load % 256
          let is_initialized := s_nau7802_initialized
          let status_byte := nau7802_status_byte available connected is_initialized
          nau7802_store_record byte_offset weight_scaled raw_reading unit status_byte
            g_assembly_data064
        else g_assembly_data064
      else g_assembly_data064
    else g_assembly_data064
  else g_assembly_data064

/-- The members of the `nau7802` object built by `api_get_status_handler`, without
the floating-point `weight`. -/
structure Nau7802Data where
  weight_scaled : Int
  unit : String
  unit_code : Nat
  raw_reading : Int
  byte_offset : Nat
  available : Bool
  connected : Bool
  initialized : Bool
  status_byte : Nat
  deriving DecidableEq, Repr

/-- The byte offset that `api_get_status_handler` uses: the cached value, loaded
from NVS when the cache is empty (webui_api.c 732-736). -/
def cached_byte_offset (c : Nau7802Offset) : Nat :=
  if !c.s_nau7802_byte_offset_cached then c.nvs_byte_offset else c.s_cached_nau7802_byte_offset

/-- The decoding of the record by `api_get_status_handler` (webui_api.c 729-775);
`none` when the handler adds no `nau7802` object.  `s_nau7802_initialized` is what
`scale_application_is_nau7802_initialized()` returns. -/
def api_get_status_nau7802 (s_nau7802_initialized : Bool) (c : Nau7802Offset)
    (g_assembly_data064 : List Nat) : Option Nau7802Data × Nau7802Offset :=
  if s_nau7802_initialized then
    let c :=
      if !c.s_nau7802_byte_offset_cached then
        { c with s_cached_nau7802_byte_offset := c.nvs_byte_offset,
                 s_nau7802_byte_offset_cached := true }
      else c
    let byte_offset := c.s_cached_nau7802_byte_offset
    if byte_offset ≤ 22 then
      let b := fun i => g_assembly_data064.getD (byte_offset + i) 0
      let weight_scaled := int32_of_bytes (b 0) (b 1) (b 2) (b 3)
      let raw_reading := int32_of_bytes (b 4) (b 5) (b 6) (b 7)
      let unit_code := b 8
      let unit_str := if unit_code == 0 then "g" else if unit_code == 1 then "lbs" else "kg"
      let status_byte := b 9
      (some { weight_scaled := weight_scaled, unit := unit_str, unit_code := unit_code,
              raw_reading := raw_reading, byte_offset := byte_offset,
              available := (status_byte &&& 1) != 0, connected := (status_byte &&& 2) != 0,
              initialized := (status_byte &&& 4) != 0, status_byte := status_byte }, c)
    else (none, c)
  else (none, c)

/-- The byte-offset setting with an empty cache and the given value in NVS. -/
def offset_not_cached (byte_offset : Nat) : Nau7802Offset :=
  { nvs_byte_offset := byte_offset, s_cached_nau7802_byte_offset := 0,
    s_nau7802_byte_offset_cached := false, config_changed := false }

/-- An assembly of 32 zero bytes. -/
def assembly_zero : List Nat := List.replicate 32 0

/-! ## Multipart upload of `api_ota_update_handler`

A buffer is the list of its bytes; the C string functions read it up to the
first NUL byte.  `strstr` returns the offset of the match instead of a pointer. -/

/-- The bytes `needle` stand at the head of `hay`. -/
def bytes_at_head : List Nat → List Nat → Bool
  | [], _ => true
  | _ :: _, [] => false
  | n :: ns, h :: hs => n == h && bytes_at_head ns hs

/-- Source: `strstr(hay, needle)` for a non-empty `needle` without NUL, as the
offset of the first match from the start of `hay`, counted from `pos`. -/
def strstr_from (needle : List Nat) : List Nat → Nat → Option Nat
  | [], _ => none
  | h :: hs, pos =>
    if h == 0 then none
    else if bytes_at_head needle (h :: hs) then some pos
    else strstr_from needle hs (pos + 1)

/-- Source: `strstr(buf + start, needle)`, as an offset into `buf`. -/
def strstr (buf : List Nat) (start : Nat) (needle : List Nat) : Option Nat :=
  strstr_from needle (buf.drop start) start

/-- The test of the chunk loop that a match is a boundary (webui_api.c 433-435,
448-450): it stands at the start of the buffer or after a line end. -/
def after_line_end (buf : List Nat) (pos : Nat) : Bool :=
  pos == 0 ||
    (decide (pos > 0) &&
      (buf.getD (pos - 1) 0 == 10 ||
        (buf.getD (pos - 1) 0 == 13 && decide (pos > 1) && buf.getD (pos - 2) 0 == 10)))

/-- The search loops of the chunk loop (webui_api.c 431-441, 446-459): the first
match of `needle` from `start` on that passes `accept`; `fuel` bounds the number
of matches tried. -/
def find_boundary (buf needle : List Nat) (accept : Nat → Bool) : Nat → Nat → Option Nat
  | 0, _ => none
  | fuel + 1, start =>
    match strstr buf start needle with
    | none => none
    | some pos => if accept pos then some pos else find_boundary buf needle accept fuel (pos + 1)

/-- The loop `while (n > 0 && (buf[n - 1] == '\r' || buf[n - 1] == '\n')) n--;`
(webui_api.c 310-314, 467-469). -/
def strip_line_ends (buf : List Nat) : Nat → Nat
  | 0 => 0
  | n + 1 => if buf.getD n 0 == 13 || buf.getD n 0 == 10 then strip_line_ends buf n else n + 1

/-- One pass of the chunk loop over a received chunk (webui_api.c 423-493).
`chunk_buffer` is the content of the buffer, of which the first `ret` bytes were
received by this `httpd_req_recv`.  The result is the number of bytes handed to
`ota_manager_write_streaming_chunk` (none when 0) and the value of `done`. -/
def ota_chunk_to_write (chunk_buffer : List Nat) (ret : Nat)
    (start_boundary end_boundary : List Nat) : Nat × Bool :=
  let fuel := chunk_buffer.length + 1
  let end_pos := find_boundary chunk_buffer end_boundary (after_line_end chunk_buffer) fuel 0
  let found_end := end_pos.isSome
  let boundary_pos :=
    match end_pos with
    | some pos => some pos
    | none =>
      find_boundary chunk_buffer start_boundary
        (fun pos => after_line_end chunk_buffer pos &&
          !bytes_at_head end_boundary ((chunk_buffer.drop pos).takeWhile (fun b => b != 0)))
        fuel 0
  match boundary_pos with
  | some pos =>
    let to_write := strip_line_ends chunk_buffer pos
    let to_write :=
      if to_write ≥ 2 && chunk_buffer.getD (to_write - 2) 0 == 13 &&
          chunk_buffer.getD (to_write - 1) 0 == 10 then to_write - 2
      else if to_write ≥ 1 && chunk_buffer.getD (to_write - 1) 0 == 10 then to_write - 1
      else to_write
    (to_write, true)
  | none => (ret, found_end)

/-- The bytes handed to `ota_manager_write_streaming_chunk` by one pass of the
chunk loop. -/
def ota_chunk_written (chunk_buffer : List Nat) (ret : Nat)
    (start_boundary end_boundary : List Nat) : List Nat :=
  chunk_buffer.take (ota_chunk_to_write chunk_buffer ret start_boundary end_boundary).1

/-- The handling of the data that follows the part headers in the first buffer
(webui_api.c 301-334): `data` is the buffer from `header_buffer + header_len` on,
`data_in_buffer` the number of bytes received there.  The result is the bytes
written and the value of `done`. -/
def ota_initial_written (data : List Nat) (data_in_buffer : Nat) (start_boundary : List Nat) :
    List Nat × Bool :=
  if data_in_buffer > 0 then
    match strstr data 0 start_boundary with
    | some pos => (data.take (strip_line_ends data pos), true)
    | none => (data.take data_in_buffer, false)
  else ([], false)

/-- A chunk as the client sends it: the payload, CRLF, the closing boundary line. -/
def chunk_of_payload (payload end_boundary : List Nat) : List Nat :=
  payload ++ [13, 10] ++ end_boundary ++ [13, 10]

/-- The boundary lines `--XyZ` and `--XyZ--`. -/
def boundary_XyZ : List Nat := [45, 45, 88, 121, 90]

/-- The closing boundary line `--XyZ--`. -/
def end_boundary_XyZ : List Nat := [45, 45, 88, 121, 90, 45, 45]

/-! ## Start-up (`app_main`) -/

/-- Source: `g_tcpip.interface_configuration`, the argument of
`CipTcpIpIsValidNetworkConfig`. -/
structure CipTcpipInterfaceConfiguration where
  ip_address : Nat
  network_mask : Nat
  gateway : Nat
  name_server : Nat
  name_server_2 : Nat
  deriving DecidableEq, Repr

/-- The interface configuration held in `g_tcpip`. -/
def St.interface_configuration (s : St) : CipTcpipInterfaceConfiguration :=
  { ip_address := s.ip_address, network_mask := s.network_mask, gateway := s.gateway,
    name_server := s.name_server, name_server_2 := s.name_server_2 }

/-- The method field `g_tcpip.config_control & kTcpipCfgCtrlMethodMask`. -/
def config_method (P : Config) (s : St) : Nat := s.config_control &&& P.kTcpipCfgCtrlMethodMask

/-- Source: `tcpip_static_config_valid` (main.c 205-210); the validity check
`CipTcpIpIsValidNetworkConfig` belongs to the OpENer sources and is a parameter. -/
def tcpip_static_config_valid (P : Config)
    (CipTcpIpIsValidNetworkConfig : CipTcpipInterfaceConfiguration → Bool) (s : St) : Bool :=
  if (s.config_control &&& P.kTcpipCfgCtrlMethodMask) != P.kTcpipCfgCtrlStaticIp then true
  else CipTcpIpIsValidNetworkConfig s.interface_configuration

/-- The normalisation of the loaded configuration in `app_main` (main.c 1285-1326);
the argument state holds `g_tcpip` as `NvTcpipLoad` left it. -/
def app_main_normalise (P : Config)
    (CipTcpIpIsValidNetworkConfig : CipTcpipInterfaceConfiguration → Bool) (s : St) : St :=
  let s :=
    if !tcpip_config_uses_dhcp P s && !s.select_acd then
      let s := { s with select_acd := true }
      s.log .NvTcpipStore
    else s
  let s :=
    if (s.config_control &&& P.kTcpipCfgCtrlMethodMask) != P.kTcpipCfgCtrlStaticIp &&
        (s.config_control &&& P.kTcpipCfgCtrlMethodMask) != P.kTcpipCfgCtrlDhcp then
      let s := { s with config_control := clear_bits s.config_control P.kTcpipCfgCtrlMethodMask }
      { s with config_control := s.config_control ||| P.kTcpipCfgCtrlDhcp }
    else s
  let s :=
    if !tcpip_static_config_valid P CipTcpIpIsValidNetworkConfig s then
      let s := { s with config_control := clear_bits s.config_control P.kTcpipCfgCtrlMethodMask }
      let s := { s with config_control := s.config_control ||| P.kTcpipCfgCtrlDhcp }
      let s := { s with ip_address := 0, network_mask := 0, gateway := 0,
                        name_server := 0, name_server_2 := 0 }
      let cleared := clear_bits s.status (P.kTcpipStatusAcdStatus ||| P.kTcpipStatusAcdFault)
      let s := { s with status := cleared }
      s.log .NvTcpipStore
    else s
  let s :=
    if tcpip_config_uses_dhcp P s then
      { s with ip_address := 0, network_mask := 0, gateway := 0,
               name_server := 0, name_server_2 := 0 }
    else s
  let s := { s with status := s.status ||| 1 }
  { s with status := clear_bits s.status P.kTcpipStatusIfaceCfgPend }

/-- A validity check that accepts a configuration with a non-zero address and
mask, for the concrete runs. -/
def valid_if_address_and_mask (c : CipTcpipInterfaceConfiguration) : Bool :=
  c.ip_address != 0 && c.network_mask != 0

/-- A loaded `g_tcpip` with an unknown method value, ACD not selected and stale
addresses. -/
def loaded_unknown_method : St :=
  { boot 7 3221225994 4294967040 3221225985 with
    select_acd := false, name_server := 134744072, status := 16 }

/-! ## A callback that preempts `tcpip_perform_acd`

The functions above run to completion once entered: an engine callback runs
either inside the bounded wait of `tcpip_perform_acd` or between two handlers.
In the program the callback runs on the tcpip thread, while `tcpip_perform_acd`
is called from `app_main`, from the event task and from the timer task, so a
callback can also run between two statements of the caller.  This section embeds the same source with
one such point made explicit: the callbacks `pre` run between the stores
`s_acd_callback_received = false` (main.c 615) and
`s_acd_last_state = ACD_IP_OK` (main.c 616). -/

/-- Source: `tcpip_perform_acd` (main.c 579-805), with the callbacks `pre` run by
the tcpip thread between the stores of lines 615 and 616. -/
def tcpip_perform_acd_preempted (P : Config) (env : Env) (pre : List CallbackEvent)
    (netif : Bool) (ip : Nat) (s : St) : St × Bool :=
  if !s.select_acd then
    let cleared := clear_bits s.status (P.kTcpipStatusAcdStatus ||| P.kTcpipStatusAcdFault)
    (CipTcpIpSetLastAcdActivity 0 { s with status := cleared }, true)
  else if !netif then (acd_fault P s, false)
  else if !s.s_acd_sem && !env.sem_create_ok then
    (acd_fault P (s.log (.xSemaphoreCreateBinary false)), false)
  else
    let s :=
      if !s.s_acd_sem then
        let s := s.log (.xSemaphoreCreateBinary true)
        { s with s_acd_sem := true, acd_sem_given := false }
      else s
    let s := { s with acd_sem_given := false }
    if !s.s_acd_probe_pending then (s, true)
    else
      let s := s.log .outcome_reset
      let s := { s with s_acd_callback_received := false }
      let s := pre.foldl (deliver P) s
      let s := { s with s_acd_last_state := .ACD_IP_OK }
      let s := CipTcpIpSetLastAcdActivity 2 s
      let s := s.log (.malloc .AcdStartContext env.malloc_start_ctx_ok)
      if !env.malloc_start_ctx_ok then (acd_fault P s, false)
      else if !s.s_acd_registration_sem && !env.registration_sem_create_ok then
        let s := s.log (.xSemaphoreCreateBinary false)
        let s := s.log (.free .AcdStartContext)
        (acd_fault P s, false)
      else
        let s :=
          if !s.s_acd_registration_sem then
            let s := s.log (.xSemaphoreCreateBinary true)
            { s with s_acd_registration_sem := true, acd_registration_sem_given := false }
          else s
        let s := { s with acd_registration_sem_given := false }
        perform_acd_attempt P env netif ip s

/-- Source: `tcpip_try_pending_acd` (main.c 807-874), with its call of
`tcpip_perform_acd` preempted by the callbacks `pre`. -/
def tcpip_try_pending_acd_preempted (P : Config) (env : Env) (pre : List CallbackEvent)
    (netif lwip_netif : Bool) (s : St) : St :=
  if !s.s_acd_probe_pending || !netif || !lwip_netif then s
  else if !netif_has_valid_hwaddr lwip_netif s.lwip then s
  else if !s.lwip.link_up then s.log (.sys_timeout 100)
  else
    let desired_ip := s.s_pending_static_ip_cfg.ip
    let s := CipTcpIpSetLastAcdActivity 2 s
    let s := (tcpip_perform_acd_preempted P env pre lwip_netif desired_ip s).1
    if s.s_acd_callback_received &&
        (s.s_acd_last_state == .ACD_DECLINE || s.s_acd_last_state == .ACD_RESTART_CLIENT) then
      let s := acd_fault P s
      let s := { s with s_acd_probe_pending := false }
      (tcpip_callback_with_block env.marshal_stop_cb .tcpip_acd_stop_cb 1 tcpip_acd_stop_cb s).1
    else
      let s :=
        if s.s_acd_callback_received && s.s_acd_last_state == .ACD_IP_OK then
          let s := esp_netif_set_ip_info s.s_pending_static_ip_cfg s
          let s := opener_configure_dns s
          { s with s_acd_probe_pending := false }
        else s
      CipTcpIpSetLastAcdActivity 1 s

/-- Source: the `ETHERNET_EVENT_CONNECTED` arm of `ethernet_event_handler`
(main.c 1100-1115), with its call of `tcpip_try_pending_acd` preempted by the
callbacks `pre`. -/
def link_up_preempted (P : Config) (env : Env) (pre : List CallbackEvent) (eth_netif : Bool)
    (s : St) : St :=
  let s := s.log .esp_netif_set_mac
  let s :=
    if !tcpip_config_uses_dhcp P s then
      tcpip_try_pending_acd_preempted P env pre eth_netif env.lwip_netif_found s
    else s
  s.log .ScaleApplicationNotifyLinkUp

/-- The state after start-up for `192.0.2.10` with the probe in flight: the
client is registered, `acd_start` has been called and the wait has timed out. -/
def state_probe_in_flight : St :=
  run (config_with_retry 5) (boot 0 3221225994 4294967040 3221225985) [.configure env_nominal]

/-- The state after a second link-up event, in which an `ACD_DECLINE` callback of
the probe in flight ran between the two stores of `tcpip_perform_acd`. -/
def state_after_preempted_link_up : St :=
  link_up_preempted (config_with_retry 5) env_nominal
    [⟨true, .ACD_DECLINE, callback_env_nominal⟩] true state_probe_in_flight

/-- Number of engine callbacks in a log that are more recent than the most recent
start request. -/
def callbacks_since_start : List Op → Nat
  | [] => 0
  | o :: t =>
    if is_start_request o then 0
    else
      (match o with
        | .acd_callback _ => 1
        | _ => 0) + callbacks_since_start t

/-- The phase of the ACD engine, as far as the orchestration can tell. -/
inductive EnginePhase where
  | off
  | probing
  | ongoing
  deriving DecidableEq, Repr

/-- The phase of the engine after the calls of a log: probing after an
`acd_start` that returned `ERR_OK`, defending after an `ACD_IP_OK` callback or the
forced transition of `tcpip_acd_start_cb`, off after `acd_stop`, after the
client record has been cleared for a registration and after a conflict
callback. -/
def engine_phase : List Op → EnginePhase
  | [] => .off
  | o :: t =>
    match o with
    | .acd_start _ _ true => .probing
    | .acd_stop _ => .off
    | .acd_list_reset => .off
    | .acd_set_ongoing _ => .ongoing
    | .acd_callback .ACD_IP_OK => .ongoing
    | .acd_callback _ => .off
    | _ => engine_phase t

/-- A callback comes from a running engine: `ACD_IP_OK` while it probes, a
conflict while it probes or defends. -/
def callback_expected (o : Op) (t : List Op) : Bool :=
  match o with
  | .acd_callback .ACD_IP_OK => engine_phase t == .probing
  | .acd_callback _ => engine_phase t != .off
  | _ => true

/-- Every callback of a log came from a running engine. -/
def callbacks_expected : List Op → Bool
  | [] => true
  | o :: t => callback_expected o t && callbacks_expected t

/-- Start-up; a second link-up event whose direct `acd_start` fails, whose
`acd_start_probe_cb` stays queued and in whose wait the `ACD_IP_OK` callback of
the first probe binds the address; a conflict during the defence; the queued
`acd_start_probe_cb`, which starts a probe with no intent pending; the `ACD_IP_OK`
callback of that probe, which resets the count and binds nothing; a second
conflict. -/
def events_reset_without_bind : List Event :=
  [.configure env_nominal,
   .ethernet .ETHERNET_EVENT_CONNECTED
     { env_probe_cb_queued with callbacks := [⟨true, .ACD_IP_OK, callback_env_nominal⟩] },
   .acd_callback ⟨true, .ACD_DECLINE, callback_env_nominal⟩,
   .tcpip_run env_nominal,
   .acd_callback ⟨true, .ACD_IP_OK, callback_env_nominal⟩,
   .acd_callback ⟨true, .ACD_DECLINE, callback_env_nominal⟩]

/-- The events of `events_reset_without_bind`, then the expiry of the retry timer
with the `ACD_IP_OK` callback of the new probe in the wait. -/
def events_reset_without_bind_then_bind : List Event :=
  events_reset_without_bind ++
    [.retry_timer { env_nominal with callbacks := [⟨true, .ACD_IP_OK, callback_env_nominal⟩] }]

/-! # Part II: lemmas and claims -/

/-! ## Bit lemmas -/

theorem clear_bits_and_left (a m n : Nat) : clear_bits a (m ||| n) &&& m = 0 := by
  apply Nat.eq_of_testBit_eq
  intro i
  simp only [clear_bits, Nat.testBit_and, Nat.testBit_ldiff, Nat.testBit_or, Nat.zero_testBit]
  cases a.testBit i <;> cases m.testBit i <;> cases n.testBit i <;> rfl

theorem clear_bits_and_right (a m n : Nat) : clear_bits a (m ||| n) &&& n = 0 := by
  apply Nat.eq_of_testBit_eq
  intro i
  simp only [clear_bits, Nat.testBit_and, Nat.testBit_ldiff, Nat.testBit_or, Nat.zero_testBit]
  cases a.testBit i <;> cases m.testBit i <;> cases n.testBit i <;> rfl

/-! ## Leaf functions as record updates

The status-indicator functions, the DNS setter and the semaphore gives branch on
state that the claims leave open.  Each is rewritten once as a single update of
the state record, so that the other fields can be read off without a case split. -/

theorem user_led_set_eq (level : Bool) (s : St) :
    user_led_set level s = { s with trace := user_led_set_ops level s ++ s.trace } := by
  unfold user_led_set user_led_set_ops St.log
  split_ifs <;> simp_all

theorem user_led_start_flash_eq (ok : Bool) (s : St) :
    user_led_start_flash ok s =
      { s with trace := user_led_start_flash_ops ok s ++ s.trace,
               s_user_led_flash_enabled := user_led_start_flash_enabled ok s,
               s_user_led_task_handle := user_led_start_flash_handle ok s } := by
  unfold user_led_start_flash user_led_start_flash_ops user_led_start_flash_enabled
    user_led_start_flash_handle St.log
  cases ok <;> cases h1 : s.s_user_led_initialized <;> cases h2 : s.s_user_led_task_handle <;>
    simp_all

theorem user_led_stop_flash_eq (s : St) :
    user_led_stop_flash s =
      { s with trace := .user_led_stop_flash :: s.trace,
               s_user_led_flash_enabled := !s.s_user_led_task_handle && s.s_user_led_flash_enabled,
               s_user_led_task_handle := false } := by
  unfold user_led_stop_flash St.log
  cases h2 : s.s_user_led_task_handle <;> simp_all

theorem opener_configure_dns_eq (s : St) :
    opener_configure_dns s = { s with trace := opener_configure_dns_ops s ++ s.trace } := by
  cases s
  simp only [opener_configure_dns, opener_configure_dns_ops, St.log]
  split_ifs <;> simp_all

theorem give_acd_sem_eq (s : St) :
    give_acd_sem s = { s with acd_sem_given := s.s_acd_sem || s.acd_sem_given } := by
  cases s
  simp only [give_acd_sem]
  split_ifs <;> simp_all

theorem give_registration_sem_eq (s : St) :
    give_registration_sem s =
      { s with acd_registration_sem_given :=
                 s.s_acd_registration_sem || s.acd_registration_sem_given } := by
  cases s
  simp only [give_registration_sem]
  split_ifs <;> simp_all

/-! ## Logs extended by quiet calls -/

theorem timer_starts_cons (o : Op) (t : List Op) :
    timer_starts (o :: t) = timer_starts t + (if o = .xTimerStart then 1 else 0) := by
  by_cases h : o = .xTimerStart
  · subst h; simp [timer_starts]
  · have h2 : ¬ (Op.xTimerStart = o) := fun e => h e.symm
    simp [timer_starts, List.count_cons, h, h2]

theorem normal_signals_cons (o : Op) (t : List Op) :
    normal_signals (o :: t) = normal_signals t + (if o = .user_led_start_flash then 1 else 0) := by
  by_cases h : o = .user_led_start_flash
  · subst h; simp [normal_signals]
  · have h2 : ¬ (Op.user_led_start_flash = o) := fun e => h e.symm
    simp [normal_signals, List.count_cons, h, h2]

theorem led_ops_cons (o : Op) (t : List Op) :
    led_ops (o :: t) = led_ops t + (if is_led_op o then 1 else 0) := by
  simp [led_ops, List.countP_cons]

theorem ip_ok_since_reset_quiet (l t : List Op) (h : ∀ o ∈ l, quiet_op o = true) :
    ip_ok_since_reset (l ++ t) = ip_ok_since_reset t := by
  induction l with
  | nil => rfl
  | cons o l ih =>
    have ho : quiet_op o = true := h o (List.mem_cons_self _ _)
    have hl : ∀ x ∈ l, quiet_op x = true := fun x hx => h x (List.mem_cons_of_mem _ hx)
    have h1 : o ≠ .outcome_reset := by rintro rfl; simp [quiet_op] at ho
    have h2 : o ≠ .acd_callback .ACD_IP_OK := by rintro rfl; simp [quiet_op] at ho
    simp [ip_ok_since_reset, h1, h2, ih hl]

theorem probe_before_bind_quiet (l t : List Op) (h : ∀ o ∈ l, quiet_op o = true) :
    probe_before_bind (l ++ t) = probe_before_bind t := by
  induction l with
  | nil => rfl
  | cons o l ih =>
    have ho : quiet_op o = true := h o (List.mem_cons_self _ _)
    have hl : ∀ x ∈ l, quiet_op x = true := fun x hx => h x (List.mem_cons_of_mem _ hx)
    have hg : bind_allowed o (l ++ t) = true := by
      clear h hl ih
      cases o <;> first | rfl | simp [quiet_op] at ho
    simp [probe_before_bind, hg, ih hl]

theorem arms_since_ip_ok_quiet (l t : List Op) (h : ∀ o ∈ l, quiet_op o = true) :
    arms_since_ip_ok (l ++ t) = arms_since_ip_ok t := by
  induction l with
  | nil => rfl
  | cons o l ih =>
    have ho : quiet_op o = true := h o (List.mem_cons_self _ _)
    have hl : ∀ x ∈ l, quiet_op x = true := fun x hx => h x (List.mem_cons_of_mem _ hx)
    have h1 : o ≠ .xTimerStart := by rintro rfl; simp [quiet_op] at ho
    have h2 : o ≠ .acd_callback .ACD_IP_OK := by rintro rfl; simp [quiet_op] at ho
    simp [arms_since_ip_ok, h1, h2, ih hl]

theorem timer_starts_quiet (l t : List Op) (h : ∀ o ∈ l, quiet_op o = true) :
    timer_starts (l ++ t) = timer_starts t := by
  induction l with
  | nil => rfl
  | cons o l ih =>
    have ho : quiet_op o = true := h o (List.mem_cons_self _ _)
    have hl : ∀ x ∈ l, quiet_op x = true := fun x hx => h x (List.mem_cons_of_mem _ hx)
    have h1 : o ≠ .xTimerStart := by rintro rfl; simp [quiet_op] at ho
    have ih2 := ih hl
    simp [timer_starts_cons, h1, ih2]

theorem user_led_set_ops_quiet (level : Bool) (s : St) :
    ∀ o ∈ user_led_set_ops level s, quiet_op o = true := by
  unfold user_led_set_ops
  split_ifs <;> simp [quiet_op]

theorem user_led_start_flash_ops_quiet (ok : Bool) (s : St) :
    ∀ o ∈ user_led_start_flash_ops ok s, quiet_op o = true := by
  unfold user_led_start_flash_ops
  split_ifs <;> simp [quiet_op]

theorem opener_configure_dns_ops_quiet (s : St) :
    ∀ o ∈ opener_configure_dns_ops s, quiet_op o = true := by
  unfold opener_configure_dns_ops
  split_ifs <;> simp [quiet_op]

theorem normal_signals_start_flash_ops (ok : Bool) (s : St) (t : List Op) :
    normal_signals (user_led_start_flash_ops ok s ++ t) = normal_signals t + 1 := by
  unfold user_led_start_flash_ops
  split_ifs <;> simp [normal_signals_cons]

theorem normal_signals_dns_ops (s : St) (t : List Op) :
    normal_signals (opener_configure_dns_ops s ++ t) = normal_signals t := by
  unfold opener_configure_dns_ops
  split_ifs <;> simp [normal_signals_cons]

@[simp] theorem ip_ok_since_reset_user_led_set_ops (level : Bool) (s : St) (t : List Op) :
    ip_ok_since_reset (user_led_set_ops level s ++ t) = ip_ok_since_reset t :=
  ip_ok_since_reset_quiet _ _ (user_led_set_ops_quiet level s)

@[simp] theorem probe_before_bind_user_led_set_ops (level : Bool) (s : St) (t : List Op) :
    probe_before_bind (user_led_set_ops level s ++ t) = probe_before_bind t :=
  probe_before_bind_quiet _ _ (user_led_set_ops_quiet level s)

@[simp] theorem arms_since_ip_ok_user_led_set_ops (level : Bool) (s : St) (t : List Op) :
    arms_since_ip_ok (user_led_set_ops level s ++ t) = arms_since_ip_ok t :=
  arms_since_ip_ok_quiet _ _ (user_led_set_ops_quiet level s)

@[simp] theorem timer_starts_user_led_set_ops (level : Bool) (s : St) (t : List Op) :
    timer_starts (user_led_set_ops level s ++ t) = timer_starts t :=
  timer_starts_quiet _ _ (user_led_set_ops_quiet level s)

@[simp] theorem ip_ok_since_reset_user_led_start_flash_ops (ok : Bool) (s : St) (t : List Op) :
    ip_ok_since_reset (user_led_start_flash_ops ok s ++ t) = ip_ok_since_reset t :=
  ip_ok_since_reset_quiet _ _ (user_led_start_flash_ops_quiet ok s)

@[simp] theorem probe_before_bind_user_led_start_flash_ops (ok : Bool) (s : St) (t : List Op) :
    probe_before_bind (user_led_start_flash_ops ok s ++ t) = probe_before_bind t :=
  probe_before_bind_quiet _ _ (user_led_start_flash_ops_quiet ok s)

@[simp] theorem arms_since_ip_ok_user_led_start_flash_ops (ok : Bool) (s : St) (t : List Op) :
    arms_since_ip_ok (user_led_start_flash_ops ok s ++ t) = arms_since_ip_ok t :=
  arms_since_ip_ok_quiet _ _ (user_led_start_flash_ops_quiet ok s)

@[simp] theorem timer_starts_user_led_start_flash_ops (ok : Bool) (s : St) (t : List Op) :
    timer_starts (user_led_start_flash_ops ok s ++ t) = timer_starts t :=
  timer_starts_quiet _ _ (user_led_start_flash_ops_quiet ok s)

@[simp] theorem ip_ok_since_reset_opener_configure_dns_ops (s : St) (t : List Op) :
    ip_ok_since_reset (opener_configure_dns_ops s ++ t) = ip_ok_since_reset t :=
  ip_ok_since_reset_quiet _ _ (opener_configure_dns_ops_quiet s)

@[simp] theorem probe_before_bind_opener_configure_dns_ops (s : St) (t : List Op) :
    probe_before_bind (opener_configure_dns_ops s ++ t) = probe_before_bind t :=
  probe_before_bind_quiet _ _ (opener_configure_dns_ops_quiet s)

@[simp] theorem arms_since_ip_ok_opener_configure_dns_ops (s : St) (t : List Op) :
    arms_since_ip_ok (opener_configure_dns_ops s ++ t) = arms_since_ip_ok t :=
  arms_since_ip_ok_quiet _ _ (opener_configure_dns_ops_quiet s)

@[simp] theorem timer_starts_opener_configure_dns_ops (s : St) (t : List Op) :
    timer_starts (opener_configure_dns_ops s ++ t) = timer_starts t :=
  timer_starts_quiet _ _ (opener_configure_dns_ops_quiet s)

@[simp] theorem normal_signals_user_led_set_ops (level : Bool) (s : St) (t : List Op) :
    normal_signals (user_led_set_ops level s ++ t) = normal_signals t := by
  unfold user_led_set_ops
  split_ifs <;> simp [normal_signals_cons]

attribute [simp] normal_signals_start_flash_ops normal_signals_dns_ops

@[simp] theorem led_ops_dns_ops (s : St) (t : List Op) :
    led_ops (opener_configure_dns_ops s ++ t) = led_ops t := by
  unfold opener_configure_dns_ops
  split_ifs <;> simp [led_ops_cons, is_led_op]

/-! ## What the callback-free code leaves alone

Outside `tcpip_acd_conflict_callback` the orchestration never touches the bound
address, the retry counter, the retry timer or the status indicator.  One lemma
per function lists the state components and log readings it preserves. -/

@[simp] theorem CipTcpIpSetLastAcdActivity_frame (code : Nat) (s : St) :
    (CipTcpIpSetLastAcdActivity code s).select_acd = s.select_acd ∧
    (CipTcpIpSetLastAcdActivity code s).ip_info = s.ip_info ∧
    (CipTcpIpSetLastAcdActivity code s).s_acd_retry_count = s.s_acd_retry_count ∧
    (CipTcpIpSetLastAcdActivity code s).s_acd_callback_received = s.s_acd_callback_received ∧
    (CipTcpIpSetLastAcdActivity code s).s_acd_last_state = s.s_acd_last_state ∧
    (CipTcpIpSetLastAcdActivity code s).s_acd_probe_pending = s.s_acd_probe_pending ∧
    (CipTcpIpSetLastAcdActivity code s).s_pending_static_ip_cfg = s.s_pending_static_ip_cfg ∧
    (CipTcpIpSetLastAcdActivity code s).s_acd_retry_timer = s.s_acd_retry_timer ∧
    (CipTcpIpSetLastAcdActivity code s).retry_timer_active = s.retry_timer_active ∧
    (CipTcpIpSetLastAcdActivity code s).s_acd_retry_netif = s.s_acd_retry_netif ∧
    (CipTcpIpSetLastAcdActivity code s).s_acd_retry_lwip_netif = s.s_acd_retry_lwip_netif ∧
    (CipTcpIpSetLastAcdActivity code s).s_user_led_initialized = s.s_user_led_initialized ∧
    (CipTcpIpSetLastAcdActivity code s).s_user_led_flash_enabled = s.s_user_led_flash_enabled ∧
    (CipTcpIpSetLastAcdActivity code s).s_user_led_task_handle = s.s_user_led_task_handle ∧
    (CipTcpIpSetLastAcdActivity code s).lwip = s.lwip ∧
    (CipTcpIpSetLastAcdActivity code s).name_server = s.name_server ∧
    (CipTcpIpSetLastAcdActivity code s).name_server_2 = s.name_server_2 ∧
    (CipTcpIpSetLastAcdActivity code s).config_control = s.config_control ∧
    (CipTcpIpSetLastAcdActivity code s).s_acd_sem = s.s_acd_sem ∧
    (CipTcpIpSetLastAcdActivity code s).acd_sem_given = s.acd_sem_given ∧
    ip_ok_since_reset (CipTcpIpSetLastAcdActivity code s).trace = ip_ok_since_reset s.trace ∧
    probe_before_bind (CipTcpIpSetLastAcdActivity code s).trace = probe_before_bind s.trace ∧
    arms_since_ip_ok (CipTcpIpSetLastAcdActivity code s).trace = arms_since_ip_ok s.trace ∧
    timer_starts (CipTcpIpSetLastAcdActivity code s).trace = timer_starts s.trace ∧
    led_ops (CipTcpIpSetLastAcdActivity code s).trace = led_ops s.trace ∧
    normal_signals (CipTcpIpSetLastAcdActivity code s).trace = normal_signals s.trace ∧
    (CipTcpIpSetLastAcdActivity code s).status = s.status ∧
    (CipTcpIpSetLastAcdActivity code s).s_acd_registered = s.s_acd_registered ∧
    (CipTcpIpSetLastAcdActivity code s).s_acd_registration_sem = s.s_acd_registration_sem ∧
    (CipTcpIpSetLastAcdActivity code s).acd_registration_sem_given = s.acd_registration_sem_given := by
  simp [CipTcpIpSetLastAcdActivity]

@[simp] theorem tcpip_acd_stop_cb_frame (s : St) :
    (tcpip_acd_stop_cb s).select_acd = s.select_acd ∧ (tcpip_acd_stop_cb s).ip_info = s.ip_info ∧
    (tcpip_acd_stop_cb s).s_acd_retry_count = s.s_acd_retry_count ∧
    (tcpip_acd_stop_cb s).s_acd_callback_received = s.s_acd_callback_received ∧
    (tcpip_acd_stop_cb s).s_acd_last_state = s.s_acd_last_state ∧
    (tcpip_acd_stop_cb s).s_acd_probe_pending = s.s_acd_probe_pending ∧
    (tcpip_acd_stop_cb s).s_pending_static_ip_cfg = s.s_pending_static_ip_cfg ∧
    (tcpip_acd_stop_cb s).s_acd_retry_timer = s.s_acd_retry_timer ∧
    (tcpip_acd_stop_cb s).retry_timer_active = s.retry_timer_active ∧
    (tcpip_acd_stop_cb s).s_acd_retry_netif = s.s_acd_retry_netif ∧
    (tcpip_acd_stop_cb s).s_acd_retry_lwip_netif = s.s_acd_retry_lwip_netif ∧
    (tcpip_acd_stop_cb s).s_user_led_initialized = s.s_user_led_initialized ∧
    (tcpip_acd_stop_cb s).s_user_led_flash_enabled = s.s_user_led_flash_enabled ∧
    (tcpip_acd_stop_cb s).s_user_led_task_handle = s.s_user_led_task_handle ∧
    (tcpip_acd_stop_cb s).lwip = s.lwip ∧ (tcpip_acd_stop_cb s).name_server = s.name_server ∧
    (tcpip_acd_stop_cb s).name_server_2 = s.name_server_2 ∧
    (tcpip_acd_stop_cb s).config_control = s.config_control ∧
    (tcpip_acd_stop_cb s).s_acd_sem = s.s_acd_sem ∧
    (tcpip_acd_stop_cb s).acd_sem_given = s.acd_sem_given ∧
    ip_ok_since_reset (tcpip_acd_stop_cb s).trace = ip_ok_since_reset s.trace ∧
    probe_before_bind (tcpip_acd_stop_cb s).trace = probe_before_bind s.trace ∧
    arms_since_ip_ok (tcpip_acd_stop_cb s).trace = arms_since_ip_ok s.trace ∧
    timer_starts (tcpip_acd_stop_cb s).trace = timer_starts s.trace ∧
    led_ops (tcpip_acd_stop_cb s).trace = led_ops s.trace ∧
    normal_signals (tcpip_acd_stop_cb s).trace = normal_signals s.trace ∧
    (tcpip_acd_stop_cb s).status = s.status := by
  simp [tcpip_acd_stop_cb, ip_ok_since_reset, probe_before_bind, bind_allowed, arms_since_ip_ok, timer_starts_cons, led_ops_cons, normal_signals_cons, is_led_op, St.log]

@[simp] theorem acd_start_probe_cb_frame (ok : Bool) (ctx : Option (Bool × Nat)) (s : St) :
    (acd_start_probe_cb ok ctx s).select_acd = s.select_acd ∧
    (acd_start_probe_cb ok ctx s).ip_info = s.ip_info ∧
    (acd_start_probe_cb ok ctx s).s_acd_retry_count = s.s_acd_retry_count ∧
    (acd_start_probe_cb ok ctx s).s_acd_callback_received = s.s_acd_callback_received ∧
    (acd_start_probe_cb ok ctx s).s_acd_last_state = s.s_acd_last_state ∧
    (acd_start_probe_cb ok ctx s).s_acd_probe_pending = s.s_acd_probe_pending ∧
    (acd_start_probe_cb ok ctx s).s_pending_static_ip_cfg = s.s_pending_static_ip_cfg ∧
    (acd_start_probe_cb ok ctx s).s_acd_retry_timer = s.s_acd_retry_timer ∧
    (acd_start_probe_cb ok ctx s).retry_timer_active = s.retry_timer_active ∧
    (acd_start_probe_cb ok ctx s).s_acd_retry_netif = s.s_acd_retry_netif ∧
    (acd_start_probe_cb ok ctx s).s_acd_retry_lwip_netif = s.s_acd_retry_lwip_netif ∧
    (acd_start_probe_cb ok ctx s).s_user_led_initialized = s.s_user_led_initialized ∧
    (acd_start_probe_cb ok ctx s).s_user_led_flash_enabled = s.s_user_led_flash_enabled ∧
    (acd_start_probe_cb ok ctx s).s_user_led_task_handle = s.s_user_led_task_handle ∧
    (acd_start_probe_cb ok ctx s).lwip = s.lwip ∧
    (acd_start_probe_cb ok ctx s).name_server = s.name_server ∧
    (acd_start_probe_cb ok ctx s).name_server_2 = s.name_server_2 ∧
    (acd_start_probe_cb ok ctx s).config_control = s.config_control ∧
    (acd_start_probe_cb ok ctx s).s_acd_sem = s.s_acd_sem ∧
    (acd_start_probe_cb ok ctx s).acd_sem_given = s.acd_sem_given ∧
    ip_ok_since_reset (acd_start_probe_cb ok ctx s).trace = ip_ok_since_reset s.trace ∧
    probe_before_bind (acd_start_probe_cb ok ctx s).trace = probe_before_bind s.trace ∧
    arms_since_ip_ok (acd_start_probe_cb ok ctx s).trace = arms_since_ip_ok s.trace ∧
    timer_starts (acd_start_probe_cb ok ctx s).trace = timer_starts s.trace ∧
    led_ops (acd_start_probe_cb ok ctx s).trace = led_ops s.trace ∧
    normal_signals (acd_start_probe_cb ok ctx s).trace = normal_signals s.trace ∧
    (acd_start_probe_cb ok ctx s).status = s.status := by
  unfold acd_start_probe_cb
  rcases ctx with _ | ⟨n, ip⟩
  · simp
  · cases n <;> simp [ip_ok_since_reset, probe_before_bind, bind_allowed, arms_since_ip_ok, timer_starts_cons, led_ops_cons, normal_signals_cons, is_led_op, St.log]

@[simp] theorem tcpip_acd_start_cb_frame (ok ok2 : Bool) (ctx : Option (Bool × Nat)) (s : St) :
    (tcpip_acd_start_cb ok ok2 ctx s).select_acd = s.select_acd ∧
    (tcpip_acd_start_cb ok ok2 ctx s).ip_info = s.ip_info ∧
    (tcpip_acd_start_cb ok ok2 ctx s).s_acd_retry_count = s.s_acd_retry_count ∧
    (tcpip_acd_start_cb ok ok2 ctx s).s_acd_callback_received = s.s_acd_callback_received ∧
    (tcpip_acd_start_cb ok ok2 ctx s).s_acd_last_state = s.s_acd_last_state ∧
    (tcpip_acd_start_cb ok ok2 ctx s).s_acd_probe_pending = s.s_acd_probe_pending ∧
    (tcpip_acd_start_cb ok ok2 ctx s).s_pending_static_ip_cfg = s.s_pending_static_ip_cfg ∧
    (tcpip_acd_start_cb ok ok2 ctx s).s_acd_retry_timer = s.s_acd_retry_timer ∧
    (tcpip_acd_start_cb ok ok2 ctx s).retry_timer_active = s.retry_timer_active ∧
    (tcpip_acd_start_cb ok ok2 ctx s).s_acd_retry_netif = s.s_acd_retry_netif ∧
    (tcpip_acd_start_cb ok ok2 ctx s).s_acd_retry_lwip_netif = s.s_acd_retry_lwip_netif ∧
    (tcpip_acd_start_cb ok ok2 ctx s).s_user_led_initialized = s.s_user_led_initialized ∧
    (tcpip_acd_start_cb ok ok2 ctx s).s_user_led_flash_enabled = s.s_user_led_flash_enabled ∧
    (tcpip_acd_start_cb ok ok2 ctx s).s_user_led_task_handle = s.s_user_led_task_handle ∧
    (tcpip_acd_start_cb ok ok2 ctx s).lwip = s.lwip ∧
    (tcpip_acd_start_cb ok ok2 ctx s).name_server = s.name_server ∧
    (tcpip_acd_start_cb ok ok2 ctx s).name_server_2 = s.name_server_2 ∧
    (tcpip_acd_start_cb ok ok2 ctx s).config_control = s.config_control ∧
    (tcpip_acd_start_cb ok ok2 ctx s).s_acd_sem = s.s_acd_sem ∧
    (tcpip_acd_start_cb ok ok2 ctx s).acd_sem_given = s.acd_sem_given ∧
    ip_ok_since_reset (tcpip_acd_start_cb ok ok2 ctx s).trace = ip_ok_since_reset s.trace ∧
    probe_before_bind (tcpip_acd_start_cb ok ok2 ctx s).trace = probe_before_bind s.trace ∧
    arms_since_ip_ok (tcpip_acd_start_cb ok ok2 ctx s).trace = arms_since_ip_ok s.trace ∧
    timer_starts (tcpip_acd_start_cb ok ok2 ctx s).trace = timer_starts s.trace ∧
    led_ops (tcpip_acd_start_cb ok ok2 ctx s).trace = led_ops s.trace ∧
    normal_signals (tcpip_acd_start_cb ok ok2 ctx s).trace = normal_signals s.trace ∧
    (tcpip_acd_start_cb ok ok2 ctx s).status = s.status := by
  unfold tcpip_acd_start_cb
  rcases ctx with _ | ⟨n, ip⟩
  · simp [give_registration_sem_eq]
  · cases n <;> cases ok <;> cases hr : s.s_acd_registered <;> cases hp : s.s_acd_probe_pending <;>
      simp [give_registration_sem_eq, CipTcpIpSetLastAcdActivity, hr, hp, ip_ok_since_reset, probe_before_bind, bind_allowed, arms_since_ip_ok, timer_starts_cons, led_ops_cons, normal_signals_cons, is_led_op, St.log]

@[simp] theorem acd_fault_frame (P : Config) (s : St) :
    (acd_fault P s).select_acd = s.select_acd ∧ (acd_fault P s).ip_info = s.ip_info ∧
    (acd_fault P s).s_acd_retry_count = s.s_acd_retry_count ∧
    (acd_fault P s).s_acd_callback_received = s.s_acd_callback_received ∧
    (acd_fault P s).s_acd_last_state = s.s_acd_last_state ∧
    (acd_fault P s).s_acd_probe_pending = s.s_acd_probe_pending ∧
    (acd_fault P s).s_pending_static_ip_cfg = s.s_pending_static_ip_cfg ∧
    (acd_fault P s).s_acd_retry_timer = s.s_acd_retry_timer ∧
    (acd_fault P s).retry_timer_active = s.retry_timer_active ∧
    (acd_fault P s).s_acd_retry_netif = s.s_acd_retry_netif ∧
    (acd_fault P s).s_acd_retry_lwip_netif = s.s_acd_retry_lwip_netif ∧
    (acd_fault P s).s_user_led_initialized = s.s_user_led_initialized ∧
    (acd_fault P s).s_user_led_flash_enabled = s.s_user_led_flash_enabled ∧
    (acd_fault P s).s_user_led_task_handle = s.s_user_led_task_handle ∧
    (acd_fault P s).lwip = s.lwip ∧ (acd_fault P s).name_server = s.name_server ∧
    (acd_fault P s).name_server_2 = s.name_server_2 ∧
    (acd_fault P s).config_control = s.config_control ∧ (acd_fault P s).s_acd_sem = s.s_acd_sem ∧
    (acd_fault P s).acd_sem_given = s.acd_sem_given ∧
    ip_ok_since_reset (acd_fault P s).trace = ip_ok_since_reset s.trace ∧
    probe_before_bind (acd_fault P s).trace = probe_before_bind s.trace ∧
    arms_since_ip_ok (acd_fault P s).trace = arms_since_ip_ok s.trace ∧
    timer_starts (acd_fault P s).trace = timer_starts s.trace ∧
    led_ops (acd_fault P s).trace = led_ops s.trace ∧
    normal_signals (acd_fault P s).trace = normal_signals s.trace ∧
    (acd_fault P s).s_acd_registered = s.s_acd_registered := by
  simp [acd_fault, CipTcpIpSetLastAcdActivity]

@[simp] theorem direct_acd_add_frame (ok : Bool) (s : St) :
    (direct_acd_add ok s).select_acd = s.select_acd ∧ (direct_acd_add ok s).ip_info = s.ip_info ∧
    (direct_acd_add ok s).s_acd_retry_count = s.s_acd_retry_count ∧
    (direct_acd_add ok s).s_acd_callback_received = s.s_acd_callback_received ∧
    (direct_acd_add ok s).s_acd_last_state = s.s_acd_last_state ∧
    (direct_acd_add ok s).s_acd_probe_pending = s.s_acd_probe_pending ∧
    (direct_acd_add ok s).s_pending_static_ip_cfg = s.s_pending_static_ip_cfg ∧
    (direct_acd_add ok s).s_acd_retry_timer = s.s_acd_retry_timer ∧
    (direct_acd_add ok s).retry_timer_active = s.retry_timer_active ∧
    (direct_acd_add ok s).s_acd_retry_netif = s.s_acd_retry_netif ∧
    (direct_acd_add ok s).s_acd_retry_lwip_netif = s.s_acd_retry_lwip_netif ∧
    (direct_acd_add ok s).s_user_led_initialized = s.s_user_led_initialized ∧
    (direct_acd_add ok s).s_user_led_flash_enabled = s.s_user_led_flash_enabled ∧
    (direct_acd_add ok s).s_user_led_task_handle = s.s_user_led_task_handle ∧
    (direct_acd_add ok s).lwip = s.lwip ∧ (direct_acd_add ok s).name_server = s.name_server ∧
    (direct_acd_add ok s).name_server_2 = s.name_server_2 ∧
    (direct_acd_add ok s).config_control = s.config_control ∧
    (direct_acd_add ok s).s_acd_sem = s.s_acd_sem ∧
    (direct_acd_add ok s).acd_sem_given = s.acd_sem_given ∧
    ip_ok_since_reset (direct_acd_add ok s).trace = ip_ok_since_reset s.trace ∧
    probe_before_bind (direct_acd_add ok s).trace = probe_before_bind s.trace ∧
    arms_since_ip_ok (direct_acd_add ok s).trace = arms_since_ip_ok s.trace ∧
    timer_starts (direct_acd_add ok s).trace = timer_starts s.trace ∧
    led_ops (direct_acd_add ok s).trace = led_ops s.trace ∧
    normal_signals (direct_acd_add ok s).trace = normal_signals s.trace ∧
    (direct_acd_add ok s).status = s.status := by
  cases ok <;> simp [direct_acd_add, ip_ok_since_reset, probe_before_bind, bind_allowed, arms_since_ip_ok, timer_starts_cons, led_ops_cons, normal_signals_cons, is_led_op, St.log]

@[simp] theorem perform_acd_register_frame (P : Config) (env : Env) (netif : Bool) (ip : Nat)
    (s : St) :
    ((perform_acd_register P env netif ip s).1).select_acd = s.select_acd ∧
    ((perform_acd_register P env netif ip s).1).ip_info = s.ip_info ∧
    ((perform_acd_register P env netif ip s).1).s_acd_retry_count = s.s_acd_retry_count ∧
    ((perform_acd_register P env netif ip s).1).s_acd_callback_received = s.s_acd_callback_received ∧
    ((perform_acd_register P env netif ip s).1).s_acd_last_state = s.s_acd_last_state ∧
    ((perform_acd_register P env netif ip s).1).s_acd_probe_pending = s.s_acd_probe_pending ∧
    ((perform_acd_register P env netif ip s).1).s_pending_static_ip_cfg = s.s_pending_static_ip_cfg ∧
    ((perform_acd_register P env netif ip s).1).s_acd_retry_timer = s.s_acd_retry_timer ∧
    ((perform_acd_register P env netif ip s).1).retry_timer_active = s.retry_timer_active ∧
    ((perform_acd_register P env netif ip s).1).s_acd_retry_netif = s.s_acd_retry_netif ∧
    ((perform_acd_register P env netif ip s).1).s_acd_retry_lwip_netif = s.s_acd_retry_lwip_netif ∧
    ((perform_acd_register P env netif ip s).1).s_user_led_initialized = s.s_user_led_initialized ∧
    ((perform_acd_register P env netif ip s).1).s_user_led_flash_enabled = s.s_user_led_flash_enabled ∧
    ((perform_acd_register P env netif ip s).1).s_user_led_task_handle = s.s_user_led_task_handle ∧
    ((perform_acd_register P env netif ip s).1).lwip = s.lwip ∧
    ((perform_acd_register P env netif ip s).1).name_server = s.name_server ∧
    ((perform_acd_register P env netif ip s).1).name_server_2 = s.name_server_2 ∧
    ((perform_acd_register P env netif ip s).1).config_control = s.config_control ∧
    ((perform_acd_register P env netif ip s).1).s_acd_sem = s.s_acd_sem ∧
    ((perform_acd_register P env netif ip s).1).acd_sem_given = s.acd_sem_given ∧
    ip_ok_since_reset ((perform_acd_register P env netif ip s).1).trace = ip_ok_since_reset s.trace ∧
    probe_before_bind ((perform_acd_register P env netif ip s).1).trace = probe_before_bind s.trace ∧
    arms_since_ip_ok ((perform_acd_register P env netif ip s).1).trace = arms_since_ip_ok s.trace ∧
    timer_starts ((perform_acd_register P env netif ip s).1).trace = timer_starts s.trace ∧
    led_ops ((perform_acd_register P env netif ip s).1).trace = led_ops s.trace ∧
    normal_signals ((perform_acd_register P env netif ip s).1).trace = normal_signals s.trace := by
  unfold perform_acd_register tcpip_callback_with_block
  cases env.marshal_start_cb <;> cases env.acd_add_direct_ok <;> cases env.acd_add_fallback_ok <;>
    cases hr : s.s_acd_registered <;>
    simp [hr, ip_ok_since_reset, probe_before_bind, bind_allowed, arms_since_ip_ok, timer_starts_cons, led_ops_cons, normal_signals_cons, is_led_op, St.log] <;>
    split_ifs <;> simp [ip_ok_since_reset, probe_before_bind, bind_allowed, arms_since_ip_ok, timer_starts_cons, led_ops_cons, normal_signals_cons, is_led_op, St.log]

@[simp] theorem perform_acd_start_frame (P : Config) (env : Env) (netif : Bool) (ip : Nat)
    (s : St) :
    ((perform_acd_start P env netif ip s).1).select_acd = s.select_acd ∧
    ((perform_acd_start P env netif ip s).1).ip_info = s.ip_info ∧
    ((perform_acd_start P env netif ip s).1).s_acd_retry_count = s.s_acd_retry_count ∧
    ((perform_acd_start P env netif ip s).1).s_acd_callback_received = s.s_acd_callback_received ∧
    ((perform_acd_start P env netif ip s).1).s_acd_last_state = s.s_acd_last_state ∧
    ((perform_acd_start P env netif ip s).1).s_acd_probe_pending = s.s_acd_probe_pending ∧
    ((perform_acd_start P env netif ip s).1).s_pending_static_ip_cfg = s.s_pending_static_ip_cfg ∧
    ((perform_acd_start P env netif ip s).1).s_acd_retry_timer = s.s_acd_retry_timer ∧
    ((perform_acd_start P env netif ip s).1).retry_timer_active = s.retry_timer_active ∧
    ((perform_acd_start P env netif ip s).1).s_acd_retry_netif = s.s_acd_retry_netif ∧
    ((perform_acd_start P env netif ip s).1).s_acd_retry_lwip_netif = s.s_acd_retry_lwip_netif ∧
    ((perform_acd_start P env netif ip s).1).s_user_led_initialized = s.s_user_led_initialized ∧
    ((perform_acd_start P env netif ip s).1).s_user_led_flash_enabled = s.s_user_led_flash_enabled ∧
    ((perform_acd_start P env netif ip s).1).s_user_led_task_handle = s.s_user_led_task_handle ∧
    ((perform_acd_start P env netif ip s).1).lwip = s.lwip ∧
    ((perform_acd_start P env netif ip s).1).name_server = s.name_server ∧
    ((perform_acd_start P env netif ip s).1).name_server_2 = s.name_server_2 ∧
    ((perform_acd_start P env netif ip s).1).config_control = s.config_control ∧
    ((perform_acd_start P env netif ip s).1).s_acd_sem = s.s_acd_sem ∧
    ((perform_acd_start P env netif ip s).1).acd_sem_given = s.acd_sem_given ∧
    ip_ok_since_reset ((perform_acd_start P env netif ip s).1).trace = ip_ok_since_reset s.trace ∧
    probe_before_bind ((perform_acd_start P env netif ip s).1).trace = probe_before_bind s.trace ∧
    arms_since_ip_ok ((perform_acd_start P env netif ip s).1).trace = arms_since_ip_ok s.trace ∧
    timer_starts ((perform_acd_start P env netif ip s).1).trace = timer_starts s.trace ∧
    led_ops ((perform_acd_start P env netif ip s).1).trace = led_ops s.trace ∧
    normal_signals ((perform_acd_start P env netif ip s).1).trace = normal_signals s.trace := by
  unfold perform_acd_start tcpip_callback_with_block
  cases env.marshal_probe_cb <;> cases env.acd_start_ok <;> cases env.malloc_probe_ctx_ok <;>
    cases hr : s.s_acd_registered <;> cases hp : s.s_acd_probe_pending <;>
    simp [hr, hp, ip_ok_since_reset, probe_before_bind, bind_allowed, arms_since_ip_ok, timer_starts_cons, led_ops_cons, normal_signals_cons, is_led_op, St.log]

@[simp] theorem perform_acd_after_wait_frame (env : Env) (s : St) :
    ((perform_acd_after_wait env s).1).select_acd = s.select_acd ∧
    ((perform_acd_after_wait env s).1).ip_info = s.ip_info ∧
    ((perform_acd_after_wait env s).1).s_acd_retry_count = s.s_acd_retry_count ∧
    ((perform_acd_after_wait env s).1).s_acd_callback_received = s.s_acd_callback_received ∧
    ((perform_acd_after_wait env s).1).s_acd_last_state = s.s_acd_last_state ∧
    ((perform_acd_after_wait env s).1).s_acd_probe_pending = s.s_acd_probe_pending ∧
    ((perform_acd_after_wait env s).1).s_pending_static_ip_cfg = s.s_pending_static_ip_cfg ∧
    ((perform_acd_after_wait env s).1).s_acd_retry_timer = s.s_acd_retry_timer ∧
    ((perform_acd_after_wait env s).1).retry_timer_active = s.retry_timer_active ∧
    ((perform_acd_after_wait env s).1).s_acd_retry_netif = s.s_acd_retry_netif ∧
    ((perform_acd_after_wait env s).1).s_acd_retry_lwip_netif = s.s_acd_retry_lwip_netif ∧
    ((perform_acd_after_wait env s).1).s_user_led_initialized = s.s_user_led_initialized ∧
    ((perform_acd_after_wait env s).1).s_user_led_flash_enabled = s.s_user_led_flash_enabled ∧
    ((perform_acd_after_wait env s).1).s_user_led_task_handle = s.s_user_led_task_handle ∧
    ((perform_acd_after_wait env s).1).lwip = s.lwip ∧
    ((perform_acd_after_wait env s).1).name_server = s.name_server ∧
    ((perform_acd_after_wait env s).1).name_server_2 = s.name_server_2 ∧
    ((perform_acd_after_wait env s).1).config_control = s.config_control ∧
    ((perform_acd_after_wait env s).1).s_acd_sem = s.s_acd_sem ∧
    ((perform_acd_after_wait env s).1).acd_sem_given = s.acd_sem_given ∧
    ip_ok_since_reset ((perform_acd_after_wait env s).1).trace = ip_ok_since_reset s.trace ∧
    probe_before_bind ((perform_acd_after_wait env s).1).trace = probe_before_bind s.trace ∧
    arms_since_ip_ok ((perform_acd_after_wait env s).1).trace = arms_since_ip_ok s.trace ∧
    timer_starts ((perform_acd_after_wait env s).1).trace = timer_starts s.trace ∧
    led_ops ((perform_acd_after_wait env s).1).trace = led_ops s.trace ∧
    normal_signals ((perform_acd_after_wait env s).1).trace = normal_signals s.trace ∧
    (perform_acd_after_wait env s).1.status = s.status := by
  unfold perform_acd_after_wait tcpip_callback_with_block
  cases env.marshal_stop_cb <;> split_ifs <;>
    simp [CipTcpIpSetLastAcdActivity, ip_ok_since_reset, probe_before_bind, bind_allowed, arms_since_ip_ok, timer_starts_cons, led_ops_cons, normal_signals_cons, is_led_op, St.log]

/-! ## An attempt that reaches the bounded wait -/

theorem perform_acd_after_wait_snd (env : Env) (s : St) :
    (perform_acd_after_wait env s).2 =
      !(s.s_acd_last_state == .ACD_RESTART_CLIENT || s.s_acd_last_state == .ACD_DECLINE) := by
  unfold perform_acd_after_wait
  cases hl : s.s_acd_last_state <;> simp

theorem perform_acd_register_ok (P : Config) (env : Env) (ip : Nat) (s : St)
    (hreg : registration_succeeds env s = true)
    (hsem : s.s_acd_registration_sem = true)
    (hgiven : s.acd_registration_sem_given = false) :
    (perform_acd_register P env true ip s).2 = true ∧
    (perform_acd_register P env true ip s).1.s_acd_registered = true ∧
    (perform_acd_register P env true ip s).1.status = s.status := by
  unfold registration_succeeds at hreg
  unfold perform_acd_register tcpip_callback_with_block
  cases hr : s.s_acd_registered <;> cases h1 : env.acd_add_direct_ok <;>
    cases h2 : env.marshal_start_cb <;> cases h3 : env.acd_add_cb_ok <;>
    cases h4 : env.acd_add_fallback_ok <;> cases hp : s.s_acd_probe_pending <;>
    simp_all [direct_acd_add, tcpip_acd_start_cb, give_registration_sem_eq, St.log,
      CipTcpIpSetLastAcdActivity]

theorem perform_acd_start_ok (P : Config) (env : Env) (netif : Bool) (ip : Nat) (s : St)
    (hstart : start_succeeds env = true) :
    (perform_acd_start P env netif ip s).2 = true ∧
    (perform_acd_start P env netif ip s).1.status = s.status := by
  unfold start_succeeds at hstart
  unfold perform_acd_start tcpip_callback_with_block
  cases hr : s.s_acd_registered <;> cases hp : s.s_acd_probe_pending <;>
    cases h1 : env.acd_start_ok <;> cases h2 : env.malloc_probe_ctx_ok <;>
    cases h3 : env.marshal_probe_cb <;>
    simp_all [St.log]

theorem perform_acd_wait_no_callback (P : Config) (env : Env) (s : St)
    (hcb : env.callbacks = []) (hgiven : s.acd_sem_given = false) :
    ((perform_acd_wait P env s).1).select_acd = s.select_acd ∧
    ((perform_acd_wait P env s).1).ip_info = s.ip_info ∧
    ((perform_acd_wait P env s).1).s_acd_retry_count = s.s_acd_retry_count ∧
    ((perform_acd_wait P env s).1).s_acd_callback_received = s.s_acd_callback_received ∧
    ((perform_acd_wait P env s).1).s_acd_last_state = s.s_acd_last_state ∧
    ((perform_acd_wait P env s).1).s_acd_probe_pending = s.s_acd_probe_pending ∧
    ((perform_acd_wait P env s).1).s_pending_static_ip_cfg = s.s_pending_static_ip_cfg ∧
    ((perform_acd_wait P env s).1).s_acd_retry_timer = s.s_acd_retry_timer ∧
    ((perform_acd_wait P env s).1).retry_timer_active = s.retry_timer_active ∧
    ((perform_acd_wait P env s).1).s_acd_retry_netif = s.s_acd_retry_netif ∧
    ((perform_acd_wait P env s).1).s_acd_retry_lwip_netif = s.s_acd_retry_lwip_netif ∧
    ((perform_acd_wait P env s).1).s_user_led_initialized = s.s_user_led_initialized ∧
    ((perform_acd_wait P env s).1).s_user_led_flash_enabled = s.s_user_led_flash_enabled ∧
    ((perform_acd_wait P env s).1).s_user_led_task_handle = s.s_user_led_task_handle ∧
    ((perform_acd_wait P env s).1).lwip = s.lwip ∧
    ((perform_acd_wait P env s).1).name_server = s.name_server ∧
    ((perform_acd_wait P env s).1).name_server_2 = s.name_server_2 ∧
    ((perform_acd_wait P env s).1).config_control = s.config_control ∧
    ((perform_acd_wait P env s).1).s_acd_sem = s.s_acd_sem ∧
    ((perform_acd_wait P env s).1).acd_sem_given = s.acd_sem_given ∧
    ip_ok_since_reset ((perform_acd_wait P env s).1).trace = ip_ok_since_reset s.trace ∧
    probe_before_bind ((perform_acd_wait P env s).1).trace = probe_before_bind s.trace ∧
    arms_since_ip_ok ((perform_acd_wait P env s).1).trace = arms_since_ip_ok s.trace ∧
    timer_starts ((perform_acd_wait P env s).1).trace = timer_starts s.trace ∧
    led_ops ((perform_acd_wait P env s).1).trace = led_ops s.trace ∧
    normal_signals ((perform_acd_wait P env s).1).trace = normal_signals s.trace ∧
    (perform_acd_wait P env s).1.status = s.status ∧
    (s.s_acd_callback_received = false → s.s_acd_last_state = .ACD_IP_OK → (perform_acd_wait P env s).2 = true) := by
  unfold perform_acd_wait
  simp only [hcb, List.foldl_nil, hgiven]
  cases hr : s.s_acd_callback_received <;> cases hl : s.s_acd_last_state <;>
    simp [CipTcpIpSetLastAcdActivity, perform_acd_after_wait_snd, hl, hr, hgiven]

theorem perform_acd_attempt_no_callback (P : Config) (env : Env) (netif : Bool) (ip : Nat)
    (s : St) (hcb : env.callbacks = []) (hgiven : s.acd_sem_given = false) :
    ((perform_acd_attempt P env netif ip s).1).select_acd = s.select_acd ∧
    ((perform_acd_attempt P env netif ip s).1).ip_info = s.ip_info ∧
    ((perform_acd_attempt P env netif ip s).1).s_acd_retry_count = s.s_acd_retry_count ∧
    ((perform_acd_attempt P env netif ip s).1).s_acd_callback_received = s.s_acd_callback_received ∧
    ((perform_acd_attempt P env netif ip s).1).s_acd_last_state = s.s_acd_last_state ∧
    ((perform_acd_attempt P env netif ip s).1).s_acd_probe_pending = s.s_acd_probe_pending ∧
    ((perform_acd_attempt P env netif ip s).1).s_pending_static_ip_cfg = s.s_pending_static_ip_cfg ∧
    ((perform_acd_attempt P env netif ip s).1).s_acd_retry_timer = s.s_acd_retry_timer ∧
    ((perform_acd_attempt P env netif ip s).1).retry_timer_active = s.retry_timer_active ∧
    ((perform_acd_attempt P env netif ip s).1).s_acd_retry_netif = s.s_acd_retry_netif ∧
    ((perform_acd_attempt P env netif ip s).1).s_acd_retry_lwip_netif = s.s_acd_retry_lwip_netif ∧
    ((perform_acd_attempt P env netif ip s).1).s_user_led_initialized = s.s_user_led_initialized ∧
    ((perform_acd_attempt P env netif ip s).1).s_user_led_flash_enabled = s.s_user_led_flash_enabled ∧
    ((perform_acd_attempt P env netif ip s).1).s_user_led_task_handle = s.s_user_led_task_handle ∧
    ((perform_acd_attempt P env netif ip s).1).lwip = s.lwip ∧
    ((perform_acd_attempt P env netif ip s).1).name_server = s.name_server ∧
    ((perform_acd_attempt P env netif ip s).1).name_server_2 = s.name_server_2 ∧
    ((perform_acd_attempt P env netif ip s).1).config_control = s.config_control ∧
    ((perform_acd_attempt P env netif ip s).1).s_acd_sem = s.s_acd_sem ∧
    ((perform_acd_attempt P env netif ip s).1).acd_sem_given = s.acd_sem_given ∧
    ip_ok_since_reset ((perform_acd_attempt P env netif ip s).1).trace = ip_ok_since_reset s.trace ∧
    probe_before_bind ((perform_acd_attempt P env netif ip s).1).trace = probe_before_bind s.trace ∧
    arms_since_ip_ok ((perform_acd_attempt P env netif ip s).1).trace = arms_since_ip_ok s.trace ∧
    timer_starts ((perform_acd_attempt P env netif ip s).1).trace = timer_starts s.trace ∧
    led_ops ((perform_acd_attempt P env netif ip s).1).trace = led_ops s.trace ∧
    normal_signals ((perform_acd_attempt P env netif ip s).1).trace = normal_signals s.trace := by
  unfold perform_acd_attempt
  have hw := perform_acd_wait_no_callback P env
    (perform_acd_start P env netif ip (perform_acd_register P env netif ip s).1).1 hcb
    (by simp [hgiven])
  simp only [perform_acd_start_frame, perform_acd_register_frame] at hw
  cases h1 : (perform_acd_register P env netif ip s).2 <;>
    cases h2 : (perform_acd_start P env netif ip (perform_acd_register P env netif ip s).1).2 <;>
    simp [h1, h2, hw]

theorem perform_acd_attempt_timeout (P : Config) (env : Env) (ip : Nat) (s : St)
    (hcb : env.callbacks = []) (hgiven : s.acd_sem_given = false)
    (hreg : registration_succeeds env s = true)
    (hsem : s.s_acd_registration_sem = true)
    (hrgiven : s.acd_registration_sem_given = false)
    (hstart : start_succeeds env = true)
    (hrecv : s.s_acd_callback_received = false) (hlast : s.s_acd_last_state = .ACD_IP_OK) :
    (perform_acd_attempt P env true ip s).2 = true ∧
    (perform_acd_attempt P env true ip s).1.status = s.status := by
  have h1 := perform_acd_register_ok P env ip s hreg hsem hrgiven
  have h2 := perform_acd_start_ok P env true ip (perform_acd_register P env true ip s).1 hstart
  have hw := perform_acd_wait_no_callback P env
    (perform_acd_start P env true ip (perform_acd_register P env true ip s).1).1 hcb
    (by simp [hgiven])
  simp only [perform_acd_start_frame, perform_acd_register_frame] at hw
  unfold perform_acd_attempt
  simp [h1, h2, hw, hrecv, hlast]

theorem tcpip_perform_acd_no_callback (P : Config) (env : Env) (netif : Bool) (ip : Nat)
    (s : St) (hcb : env.callbacks = []) :
    ((tcpip_perform_acd P env netif ip s).1).select_acd = s.select_acd ∧
    ((tcpip_perform_acd P env netif ip s).1).ip_info = s.ip_info ∧
    ((tcpip_perform_acd P env netif ip s).1).s_acd_retry_count = s.s_acd_retry_count ∧
    ((tcpip_perform_acd P env netif ip s).1).s_acd_probe_pending = s.s_acd_probe_pending ∧
    ((tcpip_perform_acd P env netif ip s).1).s_pending_static_ip_cfg = s.s_pending_static_ip_cfg ∧
    ((tcpip_perform_acd P env netif ip s).1).s_acd_retry_timer = s.s_acd_retry_timer ∧
    ((tcpip_perform_acd P env netif ip s).1).retry_timer_active = s.retry_timer_active ∧
    ((tcpip_perform_acd P env netif ip s).1).s_acd_retry_netif = s.s_acd_retry_netif ∧
    ((tcpip_perform_acd P env netif ip s).1).s_acd_retry_lwip_netif = s.s_acd_retry_lwip_netif ∧
    ((tcpip_perform_acd P env netif ip s).1).s_user_led_initialized = s.s_user_led_initialized ∧
    ((tcpip_perform_acd P env netif ip s).1).s_user_led_flash_enabled = s.s_user_led_flash_enabled ∧
    ((tcpip_perform_acd P env netif ip s).1).s_user_led_task_handle = s.s_user_led_task_handle ∧
    ((tcpip_perform_acd P env netif ip s).1).lwip = s.lwip ∧
    ((tcpip_perform_acd P env netif ip s).1).name_server = s.name_server ∧
    ((tcpip_perform_acd P env netif ip s).1).name_server_2 = s.name_server_2 ∧
    ((tcpip_perform_acd P env netif ip s).1).config_control = s.config_control ∧
    probe_before_bind ((tcpip_perform_acd P env netif ip s).1).trace = probe_before_bind s.trace ∧
    arms_since_ip_ok ((tcpip_perform_acd P env netif ip s).1).trace = arms_since_ip_ok s.trace ∧
    timer_starts ((tcpip_perform_acd P env netif ip s).1).trace = timer_starts s.trace ∧
    led_ops ((tcpip_perform_acd P env netif ip s).1).trace = led_ops s.trace ∧
    normal_signals ((tcpip_perform_acd P env netif ip s).1).trace = normal_signals s.trace := by
  unfold tcpip_perform_acd
  cases h0 : s.select_acd <;>
    cases netif <;> cases h1 : s.s_acd_sem <;> cases h2 : env.sem_create_ok <;>
    cases h3 : s.s_acd_probe_pending <;> cases h4 : env.malloc_start_ctx_ok <;>
    cases h5 : s.s_acd_registration_sem <;> cases h6 : env.registration_sem_create_ok <;>
    simp [h0, h1, h3, h5, perform_acd_attempt_no_callback P env _ _ _ hcb,
      CipTcpIpSetLastAcdActivity, ip_ok_since_reset, probe_before_bind, bind_allowed, arms_since_ip_ok, timer_starts_cons, led_ops_cons, normal_signals_cons, is_led_op, St.log]

theorem tcpip_perform_acd_timeout (P : Config) (env : Env) (ip : Nat) (s : St)
    (hcb : env.callbacks = []) (hacd : s.select_acd = true)
    (hpend : s.s_acd_probe_pending = true)
    (hres : resources_available env s = true)
    (hreg : registration_succeeds env s = true)
    (hstart : start_succeeds env = true) :
    (tcpip_perform_acd P env true ip s).2 = true ∧
    (tcpip_perform_acd P env true ip s).1.status = s.status ∧
    (tcpip_perform_acd P env true ip s).1.s_acd_callback_received = false ∧
    (tcpip_perform_acd P env true ip s).1.s_acd_last_state = .ACD_IP_OK := by
  unfold resources_available at hres
  unfold tcpip_perform_acd
  cases h1 : s.s_acd_sem <;> cases h2 : env.sem_create_ok <;>
    cases h4 : env.malloc_start_ctx_ok <;>
    cases h5 : s.s_acd_registration_sem <;> cases h6 : env.registration_sem_create_ok <;>
    simp [h1, h2, h4, h5, h6] at hres <;>
    simp only [hacd, hpend, h1, h2, h4, h5, h6, CipTcpIpSetLastAcdActivity, St.log,
      Bool.not_true, Bool.not_false, Bool.false_eq_true, Bool.and_self, Bool.and_true,
      Bool.and_false, if_false, if_true] <;>
    (refine ⟨?_, ?_, ?_, ?_⟩
     · exact (perform_acd_attempt_timeout P env ip _ hcb rfl (by simpa [registration_succeeds] using hreg)
          rfl rfl hstart rfl rfl).1
     · exact (perform_acd_attempt_timeout P env ip _ hcb rfl (by simpa [registration_succeeds] using hreg)
          rfl rfl hstart rfl rfl).2
     · rw [(perform_acd_attempt_no_callback P env true ip _ hcb rfl).2.2.2.1]
     · rw [(perform_acd_attempt_no_callback P env true ip _ hcb rfl).2.2.2.2.1])

theorem perform_acd_attempt_reaches_wait (P : Config) (env : Env) (ip : Nat) (s : St)
    (hreg : registration_succeeds env s = true)
    (hsem : s.s_acd_registration_sem = true)
    (hrgiven : s.acd_registration_sem_given = false)
    (hstart : start_succeeds env = true) :
    perform_acd_attempt P env true ip s =
      perform_acd_wait P env
        (perform_acd_start P env true ip (perform_acd_register P env true ip s).1).1 ∧
    (perform_acd_start P env true ip (perform_acd_register P env true ip s).1).1.status =
      s.status := by
  have h1 := perform_acd_register_ok P env ip s hreg hsem hrgiven
  have h2 := perform_acd_start_ok P env true ip (perform_acd_register P env true ip s).1 hstart
  unfold perform_acd_attempt
  simp [h1, h2]

/-- When the resources are available, the client gets registered and the probe
start is issued, `tcpip_perform_acd` comes down to its bounded wait, entered in a
state `w` that differs from the initial one only in bookkeeping: the outcome
record is reset, the semaphore exists and is not given. -/
theorem tcpip_perform_acd_reaches_wait (P : Config) (env : Env) (ip : Nat) (s : St)
    (hacd : s.select_acd = true)
    (hpend : s.s_acd_probe_pending = true)
    (hres : resources_available env s = true)
    (hreg : registration_succeeds env s = true)
    (hstart : start_succeeds env = true) :
    ∃ w : St, tcpip_perform_acd P env true ip s = perform_acd_wait P env w ∧
      w.s_acd_sem = true ∧ w.acd_sem_given = false ∧ w.s_acd_callback_received = false ∧
      w.s_acd_last_state = .ACD_IP_OK ∧ w.status = s.status ∧
      ip_ok_since_reset w.trace = false ∧
      (w).select_acd = s.select_acd ∧ (w).ip_info = s.ip_info ∧
      (w).s_acd_retry_count = s.s_acd_retry_count ∧
      (w).s_acd_probe_pending = s.s_acd_probe_pending ∧
      (w).s_pending_static_ip_cfg = s.s_pending_static_ip_cfg ∧
      (w).s_acd_retry_timer = s.s_acd_retry_timer ∧
      (w).retry_timer_active = s.retry_timer_active ∧
      (w).s_acd_retry_netif = s.s_acd_retry_netif ∧
      (w).s_acd_retry_lwip_netif = s.s_acd_retry_lwip_netif ∧
      (w).s_user_led_initialized = s.s_user_led_initialized ∧
      (w).s_user_led_flash_enabled = s.s_user_led_flash_enabled ∧
      (w).s_user_led_task_handle = s.s_user_led_task_handle ∧ (w).lwip = s.lwip ∧
      (w).name_server = s.name_server ∧ (w).name_server_2 = s.name_server_2 ∧
      (w).config_control = s.config_control ∧
      probe_before_bind (w).trace = probe_before_bind s.trace ∧
      arms_since_ip_ok (w).trace = arms_since_ip_ok s.trace ∧
      timer_starts (w).trace = timer_starts s.trace ∧ led_ops (w).trace = led_ops s.trace ∧
      normal_signals (w).trace = normal_signals s.trace := by
  unfold resources_available at hres
  unfold tcpip_perform_acd
  cases h1 : s.s_acd_sem <;> cases h2 : env.sem_create_ok <;>
    cases h4 : env.malloc_start_ctx_ok <;>
    cases h5 : s.s_acd_registration_sem <;> cases h6 : env.registration_sem_create_ok <;>
    simp [h1, h2, h4, h5, h6] at hres <;>
    simp only [hacd, hpend, h1, h2, h4, h5, h6, CipTcpIpSetLastAcdActivity, St.log,
      Bool.not_true, Bool.not_false, Bool.false_eq_true, Bool.and_self, Bool.and_true,
      Bool.and_false, if_false, if_true] <;>
    (rw [(perform_acd_attempt_reaches_wait P env ip _ ?_ ?_ ?_ hstart).1]
     · refine ⟨_, rfl, ?_⟩
       rw [(perform_acd_attempt_reaches_wait P env ip _ ?_ ?_ ?_ hstart).2]
       · simp [ip_ok_since_reset, probe_before_bind, bind_allowed, arms_since_ip_ok, timer_starts_cons, led_ops_cons, normal_signals_cons, is_led_op, St.log]
       · simpa [registration_succeeds] using hreg
       · rfl
       · rfl
     · simpa [registration_succeeds] using hreg
     · rfl
     · rfl)

theorem tcpip_try_pending_acd_no_callback (P : Config) (env : Env) (netif lwip_netif : Bool)
    (s : St) (hcb : env.callbacks = []) :
    (tcpip_try_pending_acd P env netif lwip_netif s).select_acd = s.select_acd ∧
    (tcpip_try_pending_acd P env netif lwip_netif s).s_acd_retry_count = s.s_acd_retry_count ∧
    (tcpip_try_pending_acd P env netif lwip_netif s).s_pending_static_ip_cfg = s.s_pending_static_ip_cfg ∧
    (tcpip_try_pending_acd P env netif lwip_netif s).s_acd_retry_timer = s.s_acd_retry_timer ∧
    (tcpip_try_pending_acd P env netif lwip_netif s).retry_timer_active = s.retry_timer_active ∧
    (tcpip_try_pending_acd P env netif lwip_netif s).s_acd_retry_netif = s.s_acd_retry_netif ∧
    (tcpip_try_pending_acd P env netif lwip_netif s).s_acd_retry_lwip_netif = s.s_acd_retry_lwip_netif ∧
    (tcpip_try_pending_acd P env netif lwip_netif s).s_user_led_initialized = s.s_user_led_initialized ∧
    (tcpip_try_pending_acd P env netif lwip_netif s).s_user_led_flash_enabled = s.s_user_led_flash_enabled ∧
    (tcpip_try_pending_acd P env netif lwip_netif s).s_user_led_task_handle = s.s_user_led_task_handle ∧
    (tcpip_try_pending_acd P env netif lwip_netif s).lwip = s.lwip ∧
    (tcpip_try_pending_acd P env netif lwip_netif s).name_server = s.name_server ∧
    (tcpip_try_pending_acd P env netif lwip_netif s).name_server_2 = s.name_server_2 ∧
    (tcpip_try_pending_acd P env netif lwip_netif s).config_control = s.config_control ∧
    arms_since_ip_ok (tcpip_try_pending_acd P env netif lwip_netif s).trace = arms_since_ip_ok s.trace ∧
    timer_starts (tcpip_try_pending_acd P env netif lwip_netif s).trace = timer_starts s.trace ∧
    led_ops (tcpip_try_pending_acd P env netif lwip_netif s).trace = led_ops s.trace ∧
    normal_signals (tcpip_try_pending_acd P env netif lwip_netif s).trace = normal_signals s.trace := by
  have hf := tcpip_perform_acd_no_callback P env lwip_netif s.s_pending_static_ip_cfg.ip
    (CipTcpIpSetLastAcdActivity 2 s) hcb
  simp only [CipTcpIpSetLastAcdActivity_frame] at hf
  simp only [tcpip_try_pending_acd, tcpip_callback_with_block]
  split_ifs <;>
    cases env.marshal_stop_cb <;>
    simp [hf, esp_netif_set_ip_info, opener_configure_dns_eq, ip_ok_since_reset, probe_before_bind, bind_allowed, arms_since_ip_ok, timer_starts_cons, led_ops_cons, normal_signals_cons, is_led_op, St.log]

theorem retry_callback_no_callback (P : Config) (env : Env) (s : St)
    (hcb : env.callbacks = []) :
    (retry_callback P env s).select_acd = s.select_acd ∧
    (retry_callback P env s).s_acd_retry_count = s.s_acd_retry_count ∧
    (retry_callback P env s).s_pending_static_ip_cfg = s.s_pending_static_ip_cfg ∧
    (retry_callback P env s).s_acd_retry_timer = s.s_acd_retry_timer ∧
    (retry_callback P env s).retry_timer_active = s.retry_timer_active ∧
    (retry_callback P env s).s_acd_retry_netif = s.s_acd_retry_netif ∧
    (retry_callback P env s).s_acd_retry_lwip_netif = s.s_acd_retry_lwip_netif ∧
    (retry_callback P env s).s_user_led_initialized = s.s_user_led_initialized ∧
    (retry_callback P env s).s_user_led_flash_enabled = s.s_user_led_flash_enabled ∧
    (retry_callback P env s).s_user_led_task_handle = s.s_user_led_task_handle ∧
    (retry_callback P env s).lwip = s.lwip ∧
    (retry_callback P env s).name_server = s.name_server ∧
    (retry_callback P env s).name_server_2 = s.name_server_2 ∧
    (retry_callback P env s).config_control = s.config_control ∧
    arms_since_ip_ok (retry_callback P env s).trace = arms_since_ip_ok s.trace ∧
    timer_starts (retry_callback P env s).trace = timer_starts s.trace ∧
    led_ops (retry_callback P env s).trace = led_ops s.trace ∧
    normal_signals (retry_callback P env s).trace = normal_signals s.trace := by
  unfold retry_callback
  split_ifs <;> simp [tcpip_try_pending_acd_no_callback P env _ _ _ hcb]

theorem tcpip_acd_retry_timer_callback_no_callback (P : Config) (env : Env) (s : St)
    (hcb : env.callbacks = []) :
    (tcpip_acd_retry_timer_callback P env s).select_acd = s.select_acd ∧
    (tcpip_acd_retry_timer_callback P env s).s_acd_retry_count = s.s_acd_retry_count ∧
    (tcpip_acd_retry_timer_callback P env s).s_pending_static_ip_cfg = s.s_pending_static_ip_cfg ∧
    (tcpip_acd_retry_timer_callback P env s).s_acd_retry_timer = s.s_acd_retry_timer ∧
    (tcpip_acd_retry_timer_callback P env s).retry_timer_active = s.retry_timer_active ∧
    (tcpip_acd_retry_timer_callback P env s).s_acd_retry_netif = s.s_acd_retry_netif ∧
    (tcpip_acd_retry_timer_callback P env s).s_acd_retry_lwip_netif = s.s_acd_retry_lwip_netif ∧
    (tcpip_acd_retry_timer_callback P env s).s_user_led_initialized = s.s_user_led_initialized ∧
    (tcpip_acd_retry_timer_callback P env s).s_user_led_flash_enabled = s.s_user_led_flash_enabled ∧
    (tcpip_acd_retry_timer_callback P env s).s_user_led_task_handle = s.s_user_led_task_handle ∧
    (tcpip_acd_retry_timer_callback P env s).lwip = s.lwip ∧
    (tcpip_acd_retry_timer_callback P env s).name_server = s.name_server ∧
    (tcpip_acd_retry_timer_callback P env s).name_server_2 = s.name_server_2 ∧
    (tcpip_acd_retry_timer_callback P env s).config_control = s.config_control ∧
    arms_since_ip_ok (tcpip_acd_retry_timer_callback P env s).trace = arms_since_ip_ok s.trace ∧
    timer_starts (tcpip_acd_retry_timer_callback P env s).trace = timer_starts s.trace ∧
    led_ops (tcpip_acd_retry_timer_callback P env s).trace = led_ops s.trace ∧
    normal_signals (tcpip_acd_retry_timer_callback P env s).trace = normal_signals s.trace := by
  simp only [tcpip_acd_retry_timer_callback, tcpip_callback_with_block]
  cases env.marshal_retry_callback <;> split_ifs <;>
    simp [tcpip_try_pending_acd_no_callback P env _ _ _ hcb,
      retry_callback_no_callback P env _ hcb, ip_ok_since_reset, probe_before_bind, bind_allowed, arms_since_ip_ok, timer_starts_cons, led_ops_cons, normal_signals_cons, is_led_op, St.log]

/-! ## The engine callback, field by field -/

theorem tcpip_acd_start_retry_spec (P : Config) (ok : Bool) (s : St) :
    (tcpip_acd_start_retry P ok true true s).s_acd_retry_count =
      int32_wrap (s.s_acd_retry_count + 1) ∧
    (tcpip_acd_start_retry P ok true true s).ip_info = zero_ip ∧
    (tcpip_acd_start_retry P ok true true s).s_acd_registered = false ∧
    (tcpip_acd_start_retry P ok true true s).retry_timer_active =
      (s.s_acd_retry_timer || ok || s.retry_timer_active) ∧
    (tcpip_acd_start_retry P ok true true s).s_acd_retry_timer = (s.s_acd_retry_timer || ok) ∧
    (tcpip_acd_start_retry P ok true true s).s_acd_retry_netif = true ∧
    (tcpip_acd_start_retry P ok true true s).s_acd_retry_lwip_netif = true ∧
    timer_starts (tcpip_acd_start_retry P ok true true s).trace =
      timer_starts s.trace + (if s.s_acd_retry_timer || ok then 1 else 0) ∧
    arms_since_ip_ok (tcpip_acd_start_retry P ok true true s).trace =
      arms_since_ip_ok s.trace + (if s.s_acd_retry_timer || ok then 1 else 0) ∧
    ip_ok_since_reset (tcpip_acd_start_retry P ok true true s).trace =
      ip_ok_since_reset s.trace ∧
    probe_before_bind (tcpip_acd_start_retry P ok true true s).trace =
      probe_before_bind s.trace ∧
    normal_signals (tcpip_acd_start_retry P ok true true s).trace = normal_signals s.trace ∧
    (tcpip_acd_start_retry P ok true true s).status = s.status ∧
    (tcpip_acd_start_retry P ok true true s).select_acd = s.select_acd ∧
    (tcpip_acd_start_retry P ok true true s).s_acd_callback_received =
      s.s_acd_callback_received ∧
    (tcpip_acd_start_retry P ok true true s).s_acd_last_state = s.s_acd_last_state ∧
    (tcpip_acd_start_retry P ok true true s).s_acd_probe_pending = s.s_acd_probe_pending ∧
    (tcpip_acd_start_retry P ok true true s).s_pending_static_ip_cfg =
      s.s_pending_static_ip_cfg ∧
    (tcpip_acd_start_retry P ok true true s).s_acd_sem = s.s_acd_sem ∧
    (tcpip_acd_start_retry P ok true true s).acd_sem_given = s.acd_sem_given ∧
    (tcpip_acd_start_retry P ok true true s).last_acd_activity = s.last_acd_activity ∧
    (tcpip_acd_start_retry P ok true true s).lwip = s.lwip := by
  unfold tcpip_acd_start_retry esp_netif_set_ip_info
  cases ok <;> cases h1 : s.s_acd_retry_timer <;> cases h2 : s.s_acd_registered <;>
    simp [h1, h2, zero_ip, Nat.add_comm, ip_ok_since_reset, probe_before_bind, bind_allowed,
      arms_since_ip_ok, timer_starts_cons, normal_signals_cons, St.log]

theorem callback_ip_ok_spec (P : Config) (e : CallbackEnv) (netif : Bool) (s : St) :
    (tcpip_acd_conflict_callback P e netif .ACD_IP_OK s).s_acd_callback_received = true ∧
    (tcpip_acd_conflict_callback P e netif .ACD_IP_OK s).s_acd_last_state = .ACD_IP_OK ∧
    (tcpip_acd_conflict_callback P e netif .ACD_IP_OK s).acd_sem_given =
      (s.s_acd_sem || s.acd_sem_given) ∧
    (tcpip_acd_conflict_callback P e netif .ACD_IP_OK s).s_acd_sem = s.s_acd_sem ∧
    (tcpip_acd_conflict_callback P e netif .ACD_IP_OK s).status =
      clear_bits s.status (P.kTcpipStatusAcdStatus ||| P.kTcpipStatusAcdFault) ∧
    (tcpip_acd_conflict_callback P e netif .ACD_IP_OK s).s_acd_retry_count =
      (if P.CONFIG_OPENER_ACD_RETRY_ENABLED then 0 else s.s_acd_retry_count) ∧
    (tcpip_acd_conflict_callback P e netif .ACD_IP_OK s).ip_info =
      (if callback_binds e netif s then s.s_pending_static_ip_cfg else s.ip_info) ∧
    (tcpip_acd_conflict_callback P e netif .ACD_IP_OK s).s_acd_probe_pending =
      (s.s_acd_probe_pending && !callback_binds e netif s) ∧
    (tcpip_acd_conflict_callback P e netif .ACD_IP_OK s).s_pending_static_ip_cfg =
      s.s_pending_static_ip_cfg ∧
    (tcpip_acd_conflict_callback P e netif .ACD_IP_OK s).select_acd = s.select_acd ∧
    (tcpip_acd_conflict_callback P e netif .ACD_IP_OK s).retry_timer_active =
      (!(P.CONFIG_OPENER_ACD_RETRY_ENABLED && s.s_acd_retry_timer) && s.retry_timer_active) ∧
    (tcpip_acd_conflict_callback P e netif .ACD_IP_OK s).s_acd_retry_timer =
      s.s_acd_retry_timer ∧
    (tcpip_acd_conflict_callback P e netif .ACD_IP_OK s).s_acd_registered =
      s.s_acd_registered ∧
    (tcpip_acd_conflict_callback P e netif .ACD_IP_OK s).last_acd_activity = 1 ∧
    (tcpip_acd_conflict_callback P e netif .ACD_IP_OK s).lwip = s.lwip ∧
    ip_ok_since_reset (tcpip_acd_conflict_callback P e netif .ACD_IP_OK s).trace = true ∧
    probe_before_bind (tcpip_acd_conflict_callback P e netif .ACD_IP_OK s).trace =
      probe_before_bind s.trace ∧
    arms_since_ip_ok (tcpip_acd_conflict_callback P e netif .ACD_IP_OK s).trace = 0 ∧
    timer_starts (tcpip_acd_conflict_callback P e netif .ACD_IP_OK s).trace =
      timer_starts s.trace ∧
    normal_signals (tcpip_acd_conflict_callback P e netif .ACD_IP_OK s).trace =
      normal_signals s.trace + 1 := by
  unfold tcpip_acd_conflict_callback conflict_callback_ip_ok callback_binds
    esp_netif_set_ip_info
  cases hen : P.CONFIG_OPENER_ACD_RETRY_ENABLED <;> cases ht : s.s_acd_retry_timer <;>
    cases hp : s.s_acd_probe_pending <;> cases netif <;> cases hf : e.esp_netif_found <;>
    by_cases hip : s.s_pending_static_ip_cfg.ip = 0 <;>
    simp [hen, ht, hp, hf, hip, give_acd_sem_eq, user_led_start_flash_eq,
      opener_configure_dns_eq, CipTcpIpSetLastAcdActivity, ip_ok_since_reset,
      probe_before_bind, bind_allowed, arms_since_ip_ok, timer_starts_cons,
      normal_signals_cons, St.log]

theorem callback_conflict_spec (P : Config) (e : CallbackEnv) (netif : Bool)
    (state : acd_callback_enum_t) (s : St) (hstate : state ≠ .ACD_IP_OK) :
    (tcpip_acd_conflict_callback P e netif state s).s_acd_callback_received = true ∧
    (tcpip_acd_conflict_callback P e netif state s).s_acd_last_state = state ∧
    (tcpip_acd_conflict_callback P e netif state s).acd_sem_given =
      (s.s_acd_sem || s.acd_sem_given) ∧
    (tcpip_acd_conflict_callback P e netif state s).s_acd_sem = s.s_acd_sem ∧
    (tcpip_acd_conflict_callback P e netif state s).status =
      (s.status ||| P.kTcpipStatusAcdStatus) ||| P.kTcpipStatusAcdFault ∧
    (tcpip_acd_conflict_callback P e netif state s).s_acd_retry_count =
      (if retry_applies P e netif s then int32_wrap (s.s_acd_retry_count + 1)
        else s.s_acd_retry_count) ∧
    (tcpip_acd_conflict_callback P e netif state s).ip_info =
      (if retry_applies P e netif s then zero_ip else s.ip_info) ∧
    (tcpip_acd_conflict_callback P e netif state s).s_acd_probe_pending =
      s.s_acd_probe_pending ∧
    (tcpip_acd_conflict_callback P e netif state s).s_pending_static_ip_cfg =
      s.s_pending_static_ip_cfg ∧
    (tcpip_acd_conflict_callback P e netif state s).select_acd = s.select_acd ∧
    (tcpip_acd_conflict_callback P e netif state s).retry_timer_active =
      ((retry_applies P e netif s && (s.s_acd_retry_timer || e.xTimerCreate_ok)) ||
        s.retry_timer_active) ∧
    (tcpip_acd_conflict_callback P e netif state s).s_acd_registered =
      (s.s_acd_registered && !retry_applies P e netif s) ∧
    (tcpip_acd_conflict_callback P e netif state s).s_acd_retry_timer =
      (s.s_acd_retry_timer || (retry_applies P e netif s && e.xTimerCreate_ok)) ∧
    (tcpip_acd_conflict_callback P e netif state s).last_acd_activity = 3 ∧
    (tcpip_acd_conflict_callback P e netif state s).lwip = s.lwip ∧
    ip_ok_since_reset (tcpip_acd_conflict_callback P e netif state s).trace =
      ip_ok_since_reset s.trace ∧
    probe_before_bind (tcpip_acd_conflict_callback P e netif state s).trace =
      probe_before_bind s.trace ∧
    arms_since_ip_ok (tcpip_acd_conflict_callback P e netif state s).trace =
      arms_since_ip_ok s.trace +
        (if retry_applies P e netif s && (s.s_acd_retry_timer || e.xTimerCreate_ok) then 1
          else 0) ∧
    timer_starts (tcpip_acd_conflict_callback P e netif state s).trace =
      timer_starts s.trace +
        (if retry_applies P e netif s && (s.s_acd_retry_timer || e.xTimerCreate_ok) then 1
          else 0) ∧
    normal_signals (tcpip_acd_conflict_callback P e netif state s).trace =
      normal_signals s.trace := by
  have hcase : tcpip_acd_conflict_callback P e netif state s =
      give_acd_sem (conflict_callback_conflict P e netif
        { (s.log (.acd_callback state)) with
          s_acd_last_state := state, s_acd_callback_received := true }) := by
    cases state <;> first | exact absurd rfl hstate | rfl
  have hop : Op.acd_callback state ≠ Op.acd_callback .ACD_IP_OK := by
    intro h; injection h with h; exact hstate h
  rw [hcase]
  unfold conflict_callback_conflict retry_applies
  by_cases hr : (P.CONFIG_OPENER_ACD_RETRY_ENABLED && netif && e.esp_netif_found &&
      (P.CONFIG_OPENER_ACD_RETRY_MAX_ATTEMPTS == 0 ||
        decide (s.s_acd_retry_count < (P.CONFIG_OPENER_ACD_RETRY_MAX_ATTEMPTS : Int)))) = true
  · have hr2 := hr
    simp only [Bool.and_eq_true] at hr2
    obtain ⟨⟨⟨hen, hn⟩, hf⟩, hm⟩ := hr2
    subst hn
    simp [hen, hf, hm, hr, hop, hstate, give_acd_sem_eq, user_led_stop_flash_eq,
      user_led_set_eq, tcpip_acd_start_retry_spec, CipTcpIpSetLastAcdActivity,
      ip_ok_since_reset, probe_before_bind, bind_allowed, arms_since_ip_ok,
      timer_starts_cons, normal_signals_cons, St.log]
  · simp only [hr]
    have hm : (P.CONFIG_OPENER_ACD_RETRY_ENABLED && netif && e.esp_netif_found) = false ∨
        (¬ P.CONFIG_OPENER_ACD_RETRY_MAX_ATTEMPTS = 0 ∧
          ¬ s.s_acd_retry_count < (P.CONFIG_OPENER_ACD_RETRY_MAX_ATTEMPTS : Int)) := by
      cases hen : P.CONFIG_OPENER_ACD_RETRY_ENABLED <;> cases netif <;>
        cases hf : e.esp_netif_found <;> simp_all
    rcases hm with hm | ⟨hm1, hm2⟩
    · cases hen : P.CONFIG_OPENER_ACD_RETRY_ENABLED <;> cases netif <;>
        cases hf : e.esp_netif_found <;>
        simp [hen, hf] at hm <;>
        simp [hen, hf, hop, hstate, give_acd_sem_eq, user_led_stop_flash_eq,
          user_led_set_eq, CipTcpIpSetLastAcdActivity,
          ip_ok_since_reset, probe_before_bind, bind_allowed, arms_since_ip_ok,
          timer_starts_cons, normal_signals_cons, St.log]
    · simp [hm1, hm2, hop, hstate, give_acd_sem_eq, user_led_stop_flash_eq,
        user_led_set_eq, CipTcpIpSetLastAcdActivity,
        ip_ok_since_reset, probe_before_bind, bind_allowed, arms_since_ip_ok,
        timer_starts_cons, normal_signals_cons, St.log]

theorem deliver_conflict_retry (P : Config) (e : CallbackEnv) (state : acd_callback_enum_t)
    (s : St) (hstate : state ≠ .ACD_IP_OK)
    (happ : retry_applies P e true s = true)
    (htimer : (s.s_acd_retry_timer || e.xTimerCreate_ok) = true) :
    (deliver P s ⟨true, state, e⟩).s_acd_retry_count = int32_wrap (s.s_acd_retry_count + 1) ∧
    (deliver P s ⟨true, state, e⟩).s_acd_retry_timer = true ∧
    (deliver P s ⟨true, state, e⟩).retry_timer_active = true ∧
    timer_starts (deliver P s ⟨true, state, e⟩).trace = timer_starts s.trace + 1 ∧
    (deliver P s ⟨true, state, e⟩).ip_info = zero_ip := by
  have h := callback_conflict_spec P e true state s hstate
  simp only [happ, htimer, if_true, Bool.true_and, Bool.and_true, Bool.true_or] at h
  simp only [deliver]
  simp only [Bool.or_eq_true] at htimer
  rcases htimer with ht | ht <;> simp [h, ht]

theorem deliver_conflict_exhausted (P : Config) (e : CallbackEnv) (netif : Bool)
    (state : acd_callback_enum_t) (s : St) (hstate : state ≠ .ACD_IP_OK)
    (happ : retry_applies P e netif s = false) :
    (deliver P s ⟨netif, state, e⟩).s_acd_retry_count = s.s_acd_retry_count ∧
    (deliver P s ⟨netif, state, e⟩).s_acd_retry_timer = s.s_acd_retry_timer ∧
    (deliver P s ⟨netif, state, e⟩).retry_timer_active = s.retry_timer_active ∧
    timer_starts (deliver P s ⟨netif, state, e⟩).trace = timer_starts s.trace ∧
    (deliver P s ⟨netif, state, e⟩).ip_info = s.ip_info := by
  have h := callback_conflict_spec P e netif state s hstate
  simp only [happ, if_false, Bool.false_and, Bool.false_or, Bool.or_false, Bool.false_eq_true,
    Nat.add_zero] at h
  simp only [deliver]
  simp [h]

/-! ## The engine callback in one step -/

/-- C2 (bind on late callback): in every state with a pending intent and a non-zero
pending address, `tcpip_acd_conflict_callback(netif, ACD_IP_OK)` for a netif that
maps to an esp-netif handle leaves the interface bound to exactly
`s_pending_static_ip_cfg` and clears `s_acd_probe_pending`; nothing is assumed
about `s_acd_callback_received`, the semaphore or an earlier timeout. -/
theorem bind_on_late_callback (P : Config) (e : CallbackEnv) (s : St)
    (hpend : s.s_acd_probe_pending = true)
    (hip : s.s_pending_static_ip_cfg.ip ≠ 0)
    (hfound : e.esp_netif_found = true) :
    (tcpip_acd_conflict_callback P e true .ACD_IP_OK s).ip_info = s.s_pending_static_ip_cfg ∧
    (tcpip_acd_conflict_callback P e true .ACD_IP_OK s).s_acd_probe_pending = false := by
  cases hr : P.CONFIG_OPENER_ACD_RETRY_ENABLED <;> cases ht : s.s_acd_retry_timer <;>
    simp [tcpip_acd_conflict_callback, conflict_callback_ip_ok, give_acd_sem_eq,
      CipTcpIpSetLastAcdActivity, user_led_start_flash_eq, St.log, esp_netif_set_ip_info,
      opener_configure_dns_eq, hfound, hip, hpend, hr, ht]

/-- Witness of C2: the late `ACD_IP_OK` callback at the pending state for
`192.0.2.10`. -/
theorem bind_on_late_callback_witness :
    (tcpip_acd_conflict_callback (config_with_retry 5) callback_env_nominal true .ACD_IP_OK
      pending_192_0_2_10).ip_info =
      { ip := 3221225994, netmask := 4294967040, gw := 3221225985 } ∧
    (tcpip_acd_conflict_callback (config_with_retry 5) callback_env_nominal true .ACD_IP_OK
      pending_192_0_2_10).s_acd_probe_pending = false :=
  bind_on_late_callback (config_with_retry 5) callback_env_nominal pending_192_0_2_10
    rfl (by decide) rfl

/-! ## The bounded wait times out -/

/-- C9 (timeout is not an outcome): with ACD selected, a pending intent, link up
and a valid hardware address, if the engine client gets registered, the probe
start is issued and no callback runs during the 2000 ms wait, then after
`tcpip_try_pending_acd` returns no callback is recorded, the interface address is
unchanged, `s_acd_probe_pending` is still true, `g_tcpip.status` (hence its ACD
fault and ACD status bits) is unchanged, the retry count and the retry timer are
unchanged, and no status-indicator call was made. -/
theorem timeout_is_not_an_outcome (P : Config) (env : Env) (s : St)
    (hacd : s.select_acd = true)
    (hpend : s.s_acd_probe_pending = true)
    (hhw : netif_has_valid_hwaddr true s.lwip = true)
    (hlink : s.lwip.link_up = true)
    (hres : resources_available env s = true)
    (hreg : registration_succeeds env s = true)
    (hstart : start_succeeds env = true)
    (hcb : env.callbacks = []) :
    (tcpip_try_pending_acd P env true true s).s_acd_callback_received = false ∧
    (tcpip_try_pending_acd P env true true s).ip_info = s.ip_info ∧
    (tcpip_try_pending_acd P env true true s).s_acd_probe_pending = true ∧
    (tcpip_try_pending_acd P env true true s).status = s.status ∧
    (tcpip_try_pending_acd P env true true s).s_acd_retry_count = s.s_acd_retry_count ∧
    (tcpip_try_pending_acd P env true true s).retry_timer_active = s.retry_timer_active ∧
    led_ops (tcpip_try_pending_acd P env true true s).trace = led_ops s.trace ∧
    (tcpip_try_pending_acd P env true true s).s_user_led_flash_enabled =
      s.s_user_led_flash_enabled ∧
    (tcpip_try_pending_acd P env true true s).s_user_led_task_handle =
      s.s_user_led_task_handle := by
  have ht := tcpip_perform_acd_timeout P env s.s_pending_static_ip_cfg.ip
    (CipTcpIpSetLastAcdActivity 2 s) hcb hacd hpend hres
    (by simpa [registration_succeeds] using hreg) hstart
  have hf := tcpip_perform_acd_no_callback P env true s.s_pending_static_ip_cfg.ip
    (CipTcpIpSetLastAcdActivity 2 s) hcb
  obtain ⟨-, hst, hrecv, -⟩ := ht
  simp only [CipTcpIpSetLastAcdActivity_frame] at hf hst
  unfold tcpip_try_pending_acd
  simp only [hpend, hhw, hlink, Bool.not_true, Bool.or_self, Bool.false_eq_true, if_false,
    hrecv, Bool.false_and, CipTcpIpSetLastAcdActivity_frame]
  simp [hf, hst, hrecv, hpend]

/-- Witness of C9 for `192.0.2.10/24` with the nominal platform decisions. -/
theorem timeout_is_not_an_outcome_witness :
    (tcpip_try_pending_acd (config_with_retry 5) env_nominal true true
        pending_192_0_2_10).s_acd_callback_received = false ∧
    (tcpip_try_pending_acd (config_with_retry 5) env_nominal true true
        pending_192_0_2_10).ip_info = zero_ip ∧
    (tcpip_try_pending_acd (config_with_retry 5) env_nominal true true
        pending_192_0_2_10).s_acd_probe_pending = true :=
  have h := timeout_is_not_an_outcome (config_with_retry 5) env_nominal pending_192_0_2_10
    (by decide) (by decide) (by decide) (by decide) (by decide) (by decide) (by decide)
    (by decide)
  ⟨h.1, h.2.1, h.2.2.1⟩

/-! ## The callback arrives inside the wait window -/

/-- C3 (success scenario): with ACD selected, a pending intent for the configured
address, link up and a valid hardware address, if the engine client gets
registered, the probe start is issued and the engine's callback reports
`ACD_IP_OK` during the wait, then after `tcpip_try_pending_acd` returns the
interface is bound to the pending ip/netmask/gateway, the ACD fault and ACD
status bits are clear, the retry count is 0, `s_acd_probe_pending` is false and
`user_led_start_flash` (the "normal" signal) was called exactly once. -/
theorem success_scenario (P : Config) (env : Env) (ev : CallbackEvent) (s : St)
    (hen : P.CONFIG_OPENER_ACD_RETRY_ENABLED = true)
    (hacd : s.select_acd = true)
    (hpend : s.s_acd_probe_pending = true)
    (hhw : netif_has_valid_hwaddr true s.lwip = true)
    (hlink : s.lwip.link_up = true)
    (hres : resources_available env s = true)
    (hreg : registration_succeeds env s = true)
    (hstart : start_succeeds env = true)
    (hcb : env.callbacks = [ev])
    (hok : ev.state = .ACD_IP_OK) :
    (tcpip_try_pending_acd P env true true s).ip_info = s.s_pending_static_ip_cfg ∧
    bits_clear (tcpip_try_pending_acd P env true true s).status P.kTcpipStatusAcdFault ∧
    bits_clear (tcpip_try_pending_acd P env true true s).status P.kTcpipStatusAcdStatus ∧
    (tcpip_try_pending_acd P env true true s).s_acd_retry_count = 0 ∧
    (tcpip_try_pending_acd P env true true s).s_acd_probe_pending = false ∧
    normal_signals (tcpip_try_pending_acd P env true true s).trace =
      normal_signals s.trace + 1 := by
  obtain ⟨w, hw, hsem, hgiven, -, -, -, -, hf⟩ :=
    tcpip_perform_acd_reaches_wait P env s.s_pending_static_ip_cfg.ip
      (CipTcpIpSetLastAcdActivity 2 s) hacd hpend hres
      (by simpa [registration_succeeds] using hreg) hstart
  simp only [CipTcpIpSetLastAcdActivity_frame] at hf
  obtain ⟨netif, state, e⟩ := ev
  simp only at hok
  subst hok
  unfold tcpip_try_pending_acd
  simp only [hpend, hhw, hlink, Bool.not_true, Bool.or_self, Bool.false_eq_true, if_false, hw]
  unfold perform_acd_wait
  simp [hcb, deliver, callback_ip_ok_spec, hsem, hgiven, hf, hen, bits_clear,
    clear_bits_and_left, clear_bits_and_right, esp_netif_set_ip_info,
    opener_configure_dns_eq, normal_signals_cons]

/-- Witness of C3: `192.0.2.10/24`, gateway `192.0.2.1`, nominal platform
decisions and one `ACD_IP_OK` callback during the wait. -/
theorem success_scenario_witness :
    (tcpip_try_pending_acd (config_with_retry 5)
        { env_nominal with callbacks := [⟨true, .ACD_IP_OK, callback_env_nominal⟩] }
        true true pending_192_0_2_10).ip_info =
      { ip := 3221225994, netmask := 4294967040, gw := 3221225985 } ∧
    (tcpip_try_pending_acd (config_with_retry 5)
        { env_nominal with callbacks := [⟨true, .ACD_IP_OK, callback_env_nominal⟩] }
        true true pending_192_0_2_10).s_acd_probe_pending = false :=
  have h := success_scenario (config_with_retry 5)
    { env_nominal with callbacks := [⟨true, .ACD_IP_OK, callback_env_nominal⟩] }
    ⟨true, .ACD_IP_OK, callback_env_nominal⟩ pending_192_0_2_10
    (by decide) (by decide) (by decide) (by decide) (by decide) (by decide) (by decide)
    (by decide) rfl rfl
  ⟨h.1, h.2.2.2.2.1⟩

/-! ## A conflict with attempts remaining -/

theorem boot_init (config_control ip mask gw : Nat) : Init (boot config_control ip mask gw) := by
  constructor <;> rfl

theorem int32_wrap_of_range (x : Int) (hlo : -2147483648 ≤ x) (hhi : x ≤ 2147483647) :
    int32_wrap x = x := by
  unfold int32_wrap
  omega

theorem int32_wrap_succ (x : Int) : int32_wrap (int32_wrap x + 1) = int32_wrap (x + 1) := by
  unfold int32_wrap
  omega

theorem step_retry_timer_no_callback (P : Config) (env : Env) (s : St)
    (hen : P.CONFIG_OPENER_ACD_RETRY_ENABLED = true) (hcb : env.callbacks = []) :
    (step P s (.retry_timer env)).s_acd_retry_count = s.s_acd_retry_count ∧
    (step P s (.retry_timer env)).s_acd_retry_timer = s.s_acd_retry_timer ∧
    (step P s (.retry_timer env)).retry_timer_active = false ∧
    timer_starts (step P s (.retry_timer env)).trace = timer_starts s.trace := by
  simp only [step, hen, Bool.true_and]
  cases ha : s.retry_timer_active
  · simp [ha]
  · simp [tcpip_acd_retry_timer_callback_no_callback P env _ hcb]

/-- C7, counterexample: with `max_attempts = 2`, after start-up and two
consecutive `ACD_DECLINE` callbacks with the retry timer expiring in between, the
second callback has armed the retry timer again: the timer is active, it was
started twice, the last calls are `xTimerChangePeriod(10000)`, `xTimerStart`, and
the count is 2. -/
theorem exhaustion_scenario_counterexample :
    (run (config_with_retry 2) (boot 0 3221225994 4294967040 3221225985)
      events_two_declines).retry_timer_active = true ∧
    timer_starts (run (config_with_retry 2) (boot 0 3221225994 4294967040 3221225985)
      events_two_declines).trace = 2 ∧
    armed_with_period 10000 (run (config_with_retry 2)
      (boot 0 3221225994 4294967040 3221225985) events_two_declines).trace = true ∧
    (run (config_with_retry 2) (boot 0 3221225994 4294967040 3221225985)
      events_two_declines).s_acd_retry_count = 2 := by
  decide

/-- C7, amended: with `max_attempts = 2` and a count of 0, the first and the
second consecutive `ACD_DECLINE` callback (the retry timer expiring after each,
with no callback during the re-entered wait) both arm the retry timer, the count
going to 1 and then 2; the third `ACD_DECLINE` arms nothing: the timer stays
inactive, `xTimerStart` is not called and the count stays 2. -/
theorem exhaustion_after_third_decline (P : Config) (s : St) (e1 e2 e3 : CallbackEnv)
    (env1 env2 : Env)
    (hen : P.CONFIG_OPENER_ACD_RETRY_ENABLED = true)
    (hmax : P.CONFIG_OPENER_ACD_RETRY_MAX_ATTEMPTS = 2)
    (h0 : s.s_acd_retry_count = 0)
    (hc1 : e1.xTimerCreate_ok = true)
    (hcb1 : env1.callbacks = []) (hcb2 : env2.callbacks = []) :
    (decline_then_timer P e1 env1 s).s_acd_retry_count = 1 ∧
    timer_starts (decline_then_timer P e1 env1 s).trace = timer_starts s.trace + 1 ∧
    (decline_then_timer P e2 env2 (decline_then_timer P e1 env1 s)).s_acd_retry_count = 2 ∧
    timer_starts (decline_then_timer P e2 env2 (decline_then_timer P e1 env1 s)).trace =
      timer_starts s.trace + 2 ∧
    (deliver P (decline_then_timer P e2 env2 (decline_then_timer P e1 env1 s))
      ⟨true, .ACD_DECLINE, e3⟩).s_acd_retry_count = 2 ∧
    (deliver P (decline_then_timer P e2 env2 (decline_then_timer P e1 env1 s))
      ⟨true, .ACD_DECLINE, e3⟩).retry_timer_active = false ∧
    timer_starts (deliver P (decline_then_timer P e2 env2 (decline_then_timer P e1 env1 s))
      ⟨true, .ACD_DECLINE, e3⟩).trace = timer_starts s.trace + 2 := by
  have hd : acd_callback_enum_t.ACD_DECLINE ≠ .ACD_IP_OK := by decide
  have w1 : int32_wrap (0 + 1) = 1 := by decide
  have w2 : int32_wrap (1 + 1) = 2 := by decide
  /- first decline and expiry -/
  obtain ⟨d1c, d1t, -, d1s, -⟩ := deliver_conflict_retry P { e1 with esp_netif_found := true }
    .ACD_DECLINE s hd (by simp [retry_applies, hen, hmax, h0]) (by simp [hc1])
  obtain ⟨k1c, k1t, -, k1s⟩ := step_retry_timer_no_callback P env1
    (deliver P s ⟨true, .ACD_DECLINE, { e1 with esp_netif_found := true }⟩) hen hcb1
  have a1c : (decline_then_timer P e1 env1 s).s_acd_retry_count = 1 := by
    rw [decline_then_timer, k1c, d1c, h0, w1]
  have a1t : (decline_then_timer P e1 env1 s).s_acd_retry_timer = true := by
    rw [decline_then_timer, k1t, d1t]
  have a1s : timer_starts (decline_then_timer P e1 env1 s).trace = timer_starts s.trace + 1 := by
    rw [decline_then_timer, k1s, d1s]
  /- second decline and expiry -/
  obtain ⟨d2c, -, -, d2s, -⟩ := deliver_conflict_retry P { e2 with esp_netif_found := true }
    .ACD_DECLINE (decline_then_timer P e1 env1 s) hd
    (by simp [retry_applies, hen, hmax, a1c]) (by simp [a1t])
  obtain ⟨k2c, -, k2a, k2s⟩ := step_retry_timer_no_callback P env2
    (deliver P (decline_then_timer P e1 env1 s)
      ⟨true, .ACD_DECLINE, { e2 with esp_netif_found := true }⟩) hen hcb2
  have a2c : (decline_then_timer P e2 env2 (decline_then_timer P e1 env1 s)).s_acd_retry_count
      = 2 := by
    rw [decline_then_timer, k2c, d2c, a1c, w2]
  have a2a : (decline_then_timer P e2 env2 (decline_then_timer P e1 env1 s)).retry_timer_active
      = false := by
    rw [decline_then_timer, k2a]
  have a2s : timer_starts (decline_then_timer P e2 env2 (decline_then_timer P e1 env1 s)).trace
      = timer_starts s.trace + 2 := by
    rw [decline_then_timer, k2s, d2s, a1s]
  /- third decline -/
  obtain ⟨d3c, -, d3a, d3s, -⟩ := deliver_conflict_exhausted P e3 true .ACD_DECLINE
    (decline_then_timer P e2 env2 (decline_then_timer P e1 env1 s)) hd
    (by simp [retry_applies, hen, hmax, a2c])
  exact ⟨a1c, a1s, a2c, a2s, d3c.trans a2c, d3a.trans a2a, d3s.trans a2s⟩

/-- Witness of C7 (amended) from the pending state for `192.0.2.10`. -/
theorem exhaustion_after_third_decline_witness :
    (deliver (config_with_retry 2)
      (decline_then_timer (config_with_retry 2) callback_env_nominal env_nominal
        (decline_then_timer (config_with_retry 2) callback_env_nominal env_nominal
          pending_192_0_2_10))
      ⟨true, .ACD_DECLINE, callback_env_nominal⟩).retry_timer_active = false :=
  (exhaustion_after_third_decline (config_with_retry 2) pending_192_0_2_10
    callback_env_nominal callback_env_nominal callback_env_nominal env_nominal env_nominal
    rfl rfl rfl rfl rfl rfl).2.2.2.2.2.1

/-! ## Unlimited retries -/

theorem conflicts_succ (P : Config) (e : CallbackEnv) (n : Nat) (s : St) :
    conflicts P e (n + 1) s = deliver P (conflicts P e n s) ⟨true, .ACD_DECLINE, e⟩ := by
  unfold conflicts
  rw [Function.iterate_succ_apply']

theorem conflicts_unlimited (P : Config) (e : CallbackEnv) (s : St) (n : Nat)
    (hen : P.CONFIG_OPENER_ACD_RETRY_ENABLED = true)
    (hmax : P.CONFIG_OPENER_ACD_RETRY_MAX_ATTEMPTS = 0)
    (hfound : e.esp_netif_found = true)
    (hcreate : e.xTimerCreate_ok = true)
    (hlo : -2147483648 ≤ s.s_acd_retry_count) (hhi : s.s_acd_retry_count ≤ 2147483647) :
    (conflicts P e n s).s_acd_retry_count = int32_wrap (s.s_acd_retry_count + n) ∧
    timer_starts (conflicts P e n s).trace = timer_starts s.trace + n ∧
    (0 < n → (conflicts P e n s).retry_timer_active = true) := by
  have hd : acd_callback_enum_t.ACD_DECLINE ≠ .ACD_IP_OK := by decide
  induction n with
  | zero =>
    simp [conflicts, int32_wrap_of_range _ hlo hhi]
  | succ n ih =>
    obtain ⟨ihc, iht, -⟩ := ih
    obtain ⟨dc, -, da, ds, -⟩ := deliver_conflict_retry P e .ACD_DECLINE (conflicts P e n s) hd
      (by simp [retry_applies, hen, hmax, hfound]) (by simp [hcreate])
    rw [conflicts_succ]
    refine ⟨?_, ?_, fun _ => da⟩
    · rw [dc, ihc, int32_wrap_succ]
      push_cast
      ring_nf
    · rw [ds, iht]
      omega

/-- C8, counterexample: with unlimited retries (`max_attempts == 0`), the
2^31-th consecutive conflict callback overflows the 32-bit counter: after
2147483648 conflicts from a count of 0 it holds -2147483648. -/
theorem unlimited_retries_counterexample :
    (conflicts (config_with_retry 0) callback_env_nominal 2147483648
      pending_192_0_2_10).s_acd_retry_count = -2147483648 := by
  have h := (conflicts_unlimited (config_with_retry 0) callback_env_nominal pending_192_0_2_10
    2147483648 rfl rfl rfl rfl (by decide) (by decide)).1
  rw [h]
  decide

/-- C8, amended: with unlimited retries (`max_attempts == 0`), a netif that maps to
an esp-netif handle and a retry timer that can be created, after `n` consecutive
conflict callbacks starting from a count of 0 the counter holds `n` reduced to a
32-bit two's-complement `int`; it equals `n` as long as `n <= 2147483647`, and the
increment is unguarded beyond that.  For every `n` the retry timer was started
once per conflict and is active after the last one. -/
theorem unlimited_retries (P : Config) (e : CallbackEnv) (s : St) (n : Nat)
    (hen : P.CONFIG_OPENER_ACD_RETRY_ENABLED = true)
    (hmax : P.CONFIG_OPENER_ACD_RETRY_MAX_ATTEMPTS = 0)
    (hfound : e.esp_netif_found = true)
    (hcreate : e.xTimerCreate_ok = true)
    (h0 : s.s_acd_retry_count = 0) :
    (conflicts P e n s).s_acd_retry_count = int32_wrap n ∧
    (n ≤ 2147483647 → (conflicts P e n s).s_acd_retry_count = n) ∧
    timer_starts (conflicts P e n s).trace = timer_starts s.trace + n ∧
    (0 < n → (conflicts P e n s).retry_timer_active = true) := by
  obtain ⟨hc, ht, ha⟩ := conflicts_unlimited P e s n hen hmax hfound hcreate
    (by rw [h0]; decide) (by rw [h0]; decide)
  rw [h0, Int.zero_add] at hc
  refine ⟨hc, fun hn => ?_, ht, ha⟩
  rw [hc]
  apply int32_wrap_of_range <;> omega

/-- Witness of C8 (amended): three conflicts from the pending state for
`192.0.2.10`. -/
theorem unlimited_retries_witness :
    (conflicts (config_with_retry 0) callback_env_nominal 3
      pending_192_0_2_10).s_acd_retry_count = int32_wrap (3 : Nat) :=
  (unlimited_retries (config_with_retry 0) callback_env_nominal pending_192_0_2_10 3
    rfl rfl rfl rfl rfl).1

/-! ## Link down -/

/-- C10, counterexample: after start-up and a link-down event the client is still
marked registered and the probe intent is still pending; and when a conflict has
armed the retry timer before the link goes down, the timer is still active after
the link-down event and its expiry re-enters the orchestration: it registers
the client again and resets the outcome record. -/
theorem link_down_counterexample :
    (run (config_with_retry 5) (boot 0 3221225994 4294967040 3221225985)
      events_link_down).s_acd_registered = true ∧
    (run (config_with_retry 5) (boot 0 3221225994 4294967040 3221225985)
      events_link_down).s_acd_probe_pending = true ∧
    (run (config_with_retry 5) (boot 0 3221225994 4294967040 3221225985)
      events_conflict_link_down).retry_timer_active = true ∧
    (run (config_with_retry 5) (boot 0 3221225994 4294967040 3221225985)
      events_conflict_link_down).s_acd_registered = false ∧
    (run (config_with_retry 5) (boot 0 3221225994 4294967040 3221225985)
      (events_conflict_link_down ++ [.retry_timer env_nominal])).s_acd_registered = true ∧
    (run (config_with_retry 5) (boot 0 3221225994 4294967040 3221225985)
      events_conflict_link_down).s_acd_callback_received = true ∧
    (run (config_with_retry 5) (boot 0 3221225994 4294967040 3221225985)
      (events_conflict_link_down ++ [.retry_timer env_nominal])).s_acd_callback_received =
        false := by
  decide

/-- C10, amended: handling `ETHERNET_EVENT_DISCONNECTED` posts `tcpip_acd_stop_cb`
(the engine stop, which runs at once, stays queued, or is lost when posting
fails), clears `s_opener_initialized` and `s_services_initialized` and notifies
the application; it leaves `s_acd_registered`, `s_acd_probe_pending`, the retry
timer, the retry count, the outcome record and the bound address unchanged. -/
theorem link_down_only_stops_engine (P : Config) (env : Env) (eth_netif : Bool) (s : St) :
    (ethernet_event_handler P env eth_netif .ETHERNET_EVENT_DISCONNECTED s).trace =
      link_down_ops env.marshal_stop_cb ++ s.trace ∧
    (ethernet_event_handler P env eth_netif .ETHERNET_EVENT_DISCONNECTED s).tcpip_queue =
      s.tcpip_queue ++ (if env.marshal_stop_cb = .queued then [.tcpip_acd_stop_cb] else []) ∧
    (ethernet_event_handler P env eth_netif .ETHERNET_EVENT_DISCONNECTED s).s_opener_initialized
      = false ∧
    (ethernet_event_handler P env eth_netif
      .ETHERNET_EVENT_DISCONNECTED s).s_services_initialized = false ∧
    (ethernet_event_handler P env eth_netif .ETHERNET_EVENT_DISCONNECTED s).s_acd_registered =
      s.s_acd_registered ∧
    (ethernet_event_handler P env eth_netif .ETHERNET_EVENT_DISCONNECTED s).s_acd_probe_pending
      = s.s_acd_probe_pending ∧
    (ethernet_event_handler P env eth_netif .ETHERNET_EVENT_DISCONNECTED s).s_acd_retry_timer =
      s.s_acd_retry_timer ∧
    (ethernet_event_handler P env eth_netif .ETHERNET_EVENT_DISCONNECTED s).retry_timer_active
      = s.retry_timer_active ∧
    (ethernet_event_handler P env eth_netif .ETHERNET_EVENT_DISCONNECTED s).s_acd_retry_count =
      s.s_acd_retry_count ∧
    (ethernet_event_handler P env eth_netif
      .ETHERNET_EVENT_DISCONNECTED s).s_acd_callback_received = s.s_acd_callback_received ∧
    (ethernet_event_handler P env eth_netif .ETHERNET_EVENT_DISCONNECTED s).s_acd_last_state =
      s.s_acd_last_state ∧
    (ethernet_event_handler P env eth_netif .ETHERNET_EVENT_DISCONNECTED s).ip_info =
      s.ip_info := by
  unfold ethernet_event_handler tcpip_callback_with_block tcpip_acd_stop_cb link_down_ops
  cases env.marshal_stop_cb <;> simp [St.log]

/-! ## The invariant is preserved by every step -/

theorem Inv.of_same {P : Config} {s t : St} (hi : Inv P s) (h : SameMon s t) : Inv P t := by
  constructor
  · rw [h.acd]; exact hi.acd
  · rw [h.guarded]; exact hi.guarded
  · rw [h.received, h.last, h.since, h.count]; exact hi.outcome
  · rw [h.count, h.bound]; exact hi.unbound
  · rw [h.count]; exact hi.disabled
  · rw [h.count, h.arms]; exact hi.bounded

theorem inv_of_init (P : Config) (s : St) (h : Init s) : Inv P s := by
  constructor
  · exact h.select_acd
  · rw [h.trace]; rfl
  · intro hr; rw [h.callback_received] at hr; exact absurd hr (by decide)
  · intro hc; exact absurd h.retry_count hc
  · intro _; exact h.retry_count
  · intro _ _
    rw [h.retry_count, h.trace]
    simp [arms_since_ip_ok]

theorem deliver_inv (P : Config) (s : St) (ev : CallbackEvent) (hi : Inv P s) :
    Inv P (deliver P s ev) := by
  obtain ⟨netif, state, e⟩ := ev
  by_cases hs : state = .ACD_IP_OK
  · subst hs
    have h := callback_ip_ok_spec P e netif s
    simp only [deliver]
    constructor
    · simp [h, hi.acd]
    · simp [h, hi.guarded]
    · intro _ _
      refine ⟨by simp [h], ?_⟩
      cases hen : P.CONFIG_OPENER_ACD_RETRY_ENABLED
      · simp [h, hen, hi.disabled hen]
      · simp [h, hen]
    · intro hc
      exfalso
      apply hc
      cases hen : P.CONFIG_OPENER_ACD_RETRY_ENABLED
      · simp [h, hen, hi.disabled hen]
      · simp [h, hen]
    · intro hen
      simp [h, hen, hi.disabled hen]
    · intro h1 h2
      have hc : (tcpip_acd_conflict_callback P e netif .ACD_IP_OK s).s_acd_retry_count = 0 := by
        cases hen : P.CONFIG_OPENER_ACD_RETRY_ENABLED
        · simp [h, hen, hi.disabled hen]
        · simp [h, hen]
      have ha : arms_since_ip_ok (tcpip_acd_conflict_callback P e netif .ACD_IP_OK s).trace = 0 := by
        simp [h]
      rw [hc, ha]
      exact ⟨le_refl _, by exact_mod_cast Nat.zero_le _, le_refl _⟩
  · have h := callback_conflict_spec P e netif state s hs
    simp only [deliver]
    constructor
    · simp [h, hi.acd]
    · simp [h, hi.guarded]
    · intro _ hl
      rw [h.2.1] at hl
      exact absurd hl hs
    · intro hc
      cases hr : retry_applies P e netif s
      · simp only [h, hr, if_false, Bool.false_eq_true] at hc ⊢
        exact hi.unbound hc
      · simp [h, hr]
    · intro hen
      have hr : retry_applies P e netif s = false := by simp [retry_applies, hen]
      simp [h, hr, hi.disabled hen]
    · intro h1 h2
      obtain ⟨b1, b2, b3⟩ := hi.bounded h1 h2
      cases hr : retry_applies P e netif s
      · simp only [h, hr, if_false, Bool.false_eq_true, Bool.false_and, Nat.add_zero]
        exact ⟨b1, b2, b3⟩
      · have hlt : s.s_acd_retry_count < (P.CONFIG_OPENER_ACD_RETRY_MAX_ATTEMPTS : Int) := by
          have hr2 := hr
          simp only [retry_applies, Bool.and_eq_true, Bool.or_eq_true, decide_eq_true_eq,
            beq_iff_eq] at hr2
          rcases hr2.2 with h0 | h0
          · omega
          · exact h0
        have hw : int32_wrap (s.s_acd_retry_count + 1) = s.s_acd_retry_count + 1 := by
          apply int32_wrap_of_range <;> omega
        simp only [h, hr, if_true, hw, Bool.true_and]
        refine ⟨by omega, by omega, ?_⟩
        split_ifs <;> push_cast <;> omega

theorem deliver_all_inv (P : Config) (evs : List CallbackEvent) (s : St) (hi : Inv P s) :
    Inv P (evs.foldl (deliver P) s) := by
  induction evs generalizing s with
  | nil => exact hi
  | cons ev evs ih => exact ih _ (deliver_inv P s ev hi)

theorem perform_acd_wait_inv (P : Config) (env : Env) (s : St) (hi : Inv P s) :
    Inv P (perform_acd_wait P env s).1 := by
  have hd := deliver_all_inv P env.callbacks s hi
  simp only [perform_acd_wait]
  split_ifs <;> exact hd.of_same (by constructor <;> simp)

theorem perform_acd_attempt_inv (P : Config) (env : Env) (netif : Bool) (ip : Nat) (s : St)
    (hi : Inv P s) : Inv P (perform_acd_attempt P env netif ip s).1 := by
  have h1 : Inv P (perform_acd_register P env netif ip s).1 :=
    hi.of_same (by constructor <;> simp)
  have h2 : Inv P (perform_acd_start P env netif ip (perform_acd_register P env netif ip s).1).1 :=
    hi.of_same (by constructor <;> simp)
  simp only [perform_acd_attempt]
  split_ifs
  · exact h1
  · exact h2
  · exact perform_acd_wait_inv P env _ h2

theorem Inv.of_reset {P : Config} {s t : St} (hi : Inv P s) (h : ResetMon s t) : Inv P t := by
  constructor
  · rw [h.acd]; exact hi.acd
  · rw [h.guarded]; exact hi.guarded
  · intro hr; rw [h.received] at hr; exact absurd hr (by decide)
  · rw [h.count, h.bound]; exact hi.unbound
  · rw [h.count]; exact hi.disabled
  · rw [h.count, h.arms]; exact hi.bounded

theorem tcpip_perform_acd_inv (P : Config) (env : Env) (netif : Bool) (ip : Nat) (s : St)
    (hi : Inv P s) : Inv P (tcpip_perform_acd P env netif ip s).1 := by
  simp only [tcpip_perform_acd, hi.acd, Bool.not_true, Bool.false_eq_true, if_false]
  split_ifs
  all_goals first
    | (refine hi.of_same ?_
       constructor <;> simp [ip_ok_since_reset, probe_before_bind, bind_allowed, arms_since_ip_ok, timer_starts_cons, led_ops_cons, normal_signals_cons, is_led_op, St.log] <;> done)
    | (refine hi.of_reset ?_
       constructor <;> simp [ip_ok_since_reset, probe_before_bind, bind_allowed, arms_since_ip_ok, timer_starts_cons, led_ops_cons, normal_signals_cons, is_led_op, St.log] <;> done)
    | (apply perform_acd_attempt_inv
       refine hi.of_reset ?_
       constructor <;> simp [CipTcpIpSetLastAcdActivity, ip_ok_since_reset, probe_before_bind, bind_allowed, arms_since_ip_ok, timer_starts_cons, led_ops_cons, normal_signals_cons, is_led_op, St.log])

theorem tcpip_try_pending_acd_inv (P : Config) (env : Env) (netif lwip_netif : Bool) (s : St)
    (hi : Inv P s) : Inv P (tcpip_try_pending_acd P env netif lwip_netif s) := by
  have hx : Inv P (tcpip_perform_acd P env lwip_netif s.s_pending_static_ip_cfg.ip
      (CipTcpIpSetLastAcdActivity 2 s)).1 :=
    tcpip_perform_acd_inv P env _ _ _ (hi.of_same (by constructor <;> simp))
  simp only [tcpip_try_pending_acd, tcpip_callback_with_block]
  split_ifs with h1 h2 h3 h4 h5
  · exact hi
  · exact hi
  · exact hi.of_same (by constructor <;> simp [ip_ok_since_reset, probe_before_bind, bind_allowed, arms_since_ip_ok, timer_starts_cons, led_ops_cons, normal_signals_cons, is_led_op, St.log])
  · cases env.marshal_stop_cb <;>
      exact hx.of_same (by constructor <;> simp [ip_ok_since_reset, probe_before_bind, bind_allowed, arms_since_ip_ok, timer_starts_cons, led_ops_cons, normal_signals_cons, is_led_op, St.log])
  · simp only [Bool.and_eq_true, beq_iff_eq] at h5
    obtain ⟨hok, hzero⟩ := hx.outcome h5.1 h5.2
    constructor
    · simpa [esp_netif_set_ip_info, opener_configure_dns_eq] using hx.acd
    · simp [esp_netif_set_ip_info, opener_configure_dns_eq, probe_before_bind, bind_allowed,
        hok, hx.guarded]
    · intro _ _
      simp [esp_netif_set_ip_info, opener_configure_dns_eq, ip_ok_since_reset, hok, hzero]
    · intro hc
      exfalso
      apply hc
      simp [esp_netif_set_ip_info, opener_configure_dns_eq, hzero]
    · intro hen
      simp [esp_netif_set_ip_info, opener_configure_dns_eq, hzero]
    · intro a b
      have hb := hx.bounded a b
      simpa [esp_netif_set_ip_info, opener_configure_dns_eq, arms_since_ip_ok] using hb
  · exact hx.of_same (by constructor <;> simp)

theorem tcpip_retry_acd_deferred_inv (P : Config) (env : Env) (netif : Bool) (s : St)
    (hi : Inv P s) : Inv P (tcpip_retry_acd_deferred P env netif s) := by
  unfold tcpip_retry_acd_deferred
  split_ifs
  all_goals first
    | exact hi
    | exact tcpip_try_pending_acd_inv P env _ _ s hi

theorem retry_callback_inv (P : Config) (env : Env) (s : St) (hi : Inv P s) :
    Inv P (retry_callback P env s) := by
  unfold retry_callback
  split_ifs
  · exact tcpip_try_pending_acd_inv P env _ _ s hi
  · exact hi

theorem tcpip_acd_retry_timer_callback_inv (P : Config) (env : Env) (s : St) (hi : Inv P s) :
    Inv P (tcpip_acd_retry_timer_callback P env s) := by
  cases hm : env.marshal_retry_callback <;>
    simp only [tcpip_acd_retry_timer_callback, tcpip_callback_with_block, hm, St.log,
      Bool.not_true, Bool.not_false, Bool.false_eq_true, if_false, if_true] <;>
    split_ifs
  all_goals first
    | exact hi
    | (refine hi.of_same ?_
       constructor <;> simp [ip_ok_since_reset, probe_before_bind, bind_allowed, arms_since_ip_ok, timer_starts_cons, led_ops_cons, normal_signals_cons, is_led_op, St.log])
    | (apply tcpip_try_pending_acd_inv
       refine hi.of_same ?_
       constructor <;> simp [ip_ok_since_reset, probe_before_bind, bind_allowed, arms_since_ip_ok, timer_starts_cons, led_ops_cons, normal_signals_cons, is_led_op, St.log])
    | (apply retry_callback_inv
       refine hi.of_same ?_
       constructor <;> simp [ip_ok_since_reset, probe_before_bind, bind_allowed, arms_since_ip_ok, timer_starts_cons, led_ops_cons, normal_signals_cons, is_led_op, St.log])

theorem configure_netif_finish_same (P : Config) (s : St) :
    SameMon s (configure_netif_finish P s) := by
  unfold configure_netif_finish configure_hostname
  split_ifs <;> constructor <;> simp [ip_ok_since_reset, probe_before_bind, bind_allowed, arms_since_ip_ok, timer_starts_cons, led_ops_cons, normal_signals_cons, is_led_op, St.log]

theorem configure_netif_deferred_inv (P : Config) (env : Env) (netif lwip_netif : Bool)
    (ip_info : esp_netif_ip_info_t) (s : St) (hi : Inv P s) :
    Inv P (configure_netif_deferred P env netif lwip_netif ip_info s) := by
  have h1 : Inv P (CipTcpIpSetLastAcdActivity 1
      { s with s_pending_static_ip_cfg := ip_info, s_acd_probe_pending := true }) :=
    hi.of_same (by constructor <;> simp)
  simp only [configure_netif_deferred]
  split_ifs
  · exact tcpip_try_pending_acd_inv P env _ _ _ h1
  · exact h1

theorem configure_netif_invalid_static_same (P : Config) (env : Env) (s : St) :
    SameMon s (configure_netif_invalid_static P env s) := by
  simp only [configure_netif_invalid_static]
  split_ifs <;> constructor <;> simp [ip_ok_since_reset, probe_before_bind, bind_allowed, arms_since_ip_ok, timer_starts_cons, led_ops_cons, normal_signals_cons, is_led_op, St.log]

theorem Inv.log {P : Config} {s : St} (hi : Inv P s) (o : Op) (ho : quiet_op o = true) :
    Inv P (s.log o) := by
  refine hi.of_same ?_
  have h := fun t => ip_ok_since_reset_quiet [o] t (by simpa using ho)
  have h2 := fun t => probe_before_bind_quiet [o] t (by simpa using ho)
  have h3 := fun t => arms_since_ip_ok_quiet [o] t (by simpa using ho)
  constructor <;> first | rfl | exact h _ | exact h2 _ | exact h3 _

theorem configure_netif_from_tcpip_inv (P : Config) (env : Env) (netif : Bool) (s : St)
    (hi : Inv P s) : Inv P (configure_netif_from_tcpip P env netif s) := by
  have hstop := hi.log .esp_netif_dhcpc_stop rfl
  simp only [configure_netif_from_tcpip, hstop.acd, if_true]
  split_ifs
  · exact hi
  · exact Inv.of_same (hstop.log .esp_netif_dhcpc_start rfl) (configure_netif_finish_same P _)
  · exact Inv.of_same (configure_netif_deferred_inv P env _ _ _ _ hstop)
      (configure_netif_finish_same P _)
  · exact Inv.of_same hstop (configure_netif_invalid_static_same P env _)

theorem ethernet_event_handler_inv (P : Config) (env : Env) (eth_netif : Bool)
    (event_id : eth_event_t) (s : St) (hi : Inv P s) :
    Inv P (ethernet_event_handler P env eth_netif event_id s) := by
  have hmac := hi.log .esp_netif_set_mac rfl
  cases event_id
  · exact hi
  · exact hi
  · simp only [ethernet_event_handler]
    split_ifs
    · exact (tcpip_try_pending_acd_inv P env _ _ _ hmac).log .ScaleApplicationNotifyLinkUp rfl
    · exact hmac.log .ScaleApplicationNotifyLinkUp rfl
  · simp only [ethernet_event_handler, tcpip_callback_with_block]
    cases env.marshal_stop_cb <;>
      exact hi.of_same (by constructor <;> simp [ip_ok_since_reset, probe_before_bind, bind_allowed, arms_since_ip_ok, timer_starts_cons, led_ops_cons, normal_signals_cons, is_led_op, St.log])
  · exact hi

theorem run_work_inv (P : Config) (env : Env) (w : Work) (s : St) (hi : Inv P s) :
    Inv P (run_work P env w s) := by
  cases w <;> simp only [run_work]
  · exact hi.of_same (by constructor <;> simp)
  · exact hi.of_same (by constructor <;> simp)
  · exact hi.of_same (by constructor <;> simp)
  · split_ifs
    · exact retry_callback_inv P env s hi
    · exact hi

theorem step_inv (P : Config) (s : St) (ev : Event) (hi : Inv P s) : Inv P (step P s ev) := by
  cases ev with
  | configure env => exact configure_netif_from_tcpip_inv P env true s hi
  | ethernet event_id env => exact ethernet_event_handler_inv P env true event_id s hi
  | acd_callback ev => exact deliver_inv P s ev hi
  | retry_timer env =>
    simp only [step]
    split_ifs
    · exact tcpip_acd_retry_timer_callback_inv P env _ (hi.of_same (by constructor <;> rfl))
    · exact hi
  | deferred env => exact tcpip_retry_acd_deferred_inv P env true s hi
  | tcpip_run env =>
    simp only [step]
    cases hq : s.tcpip_queue with
    | nil => exact hi
    | cons w rest => exact run_work_inv P env w _ (hi.of_same (by constructor <;> rfl))
  | netif_update n => exact hi.of_same (by constructor <;> rfl)

theorem run_inv (P : Config) (es : List Event) (s : St) (hi : Inv P s) : Inv P (run P s es) := by
  induction es generalizing s with
  | nil => exact hi
  | cons ev es ih => exact ih _ (step_inv P s ev hi)

theorem inv_of_reachable (P : Config) (s : St) (h : Reachable P s) : Inv P s := by
  obtain ⟨s0, es, h0, rfl⟩ := h
  exact run_inv P es s0 (inv_of_init P s0 h0)

/-! ## Claims about every reachable state -/

theorem reachable_run (P : Config) (config_control ip mask gw : Nat) (es : List Event) :
    Reachable P (run P (boot config_control ip mask gw) es) :=
  ⟨_, es, boot_init config_control ip mask gw, rfl⟩

/-- Probe before bind while handlers run to completion: in every state reached
after start-up with ACD selected, through any sequence of
`configure_netif_from_tcpip`, link events, engine callbacks (inside a wait or
between two handlers), retry-timer expiries, deferred retries and queued tcpip
work, every `esp_netif_set_ip_info` with a non-null address in the log was made
when an `ACD_IP_OK` callback had been received since the outcome record was last
reset.  A callback that runs between two statements of `tcpip_perform_acd` is not
an event of this system. -/
theorem probe_before_bind_invariant (P : Config) (s : St) (h : Reachable P s) :
    probe_before_bind s.trace = true :=
  (inv_of_reachable P s h).guarded

/-- Example: the run that binds `192.0.2.10` after an `ACD_IP_OK` callback. -/
theorem probe_before_bind_invariant_witness :
    probe_before_bind (run (config_with_retry 5) (boot 0 3221225994 4294967040 3221225985)
      events_success).trace = true :=
  probe_before_bind_invariant (config_with_retry 5) _
    (reachable_run (config_with_retry 5) 0 3221225994 4294967040 3221225985 events_success)

/-- C6, counterexample: with `max_attempts = 1`, in the run
`events_reset_without_bind` every callback comes from a running engine (an
`acd_start` that returned `ERR_OK`, with no stop, registration or conflict
since).  The `ACD_IP_OK` callback of the probe started by the queued
`acd_start_probe_cb` finds no intent pending: it resets the count and binds
nothing.  So the retry timer is started twice after the last bind, and the next
expiry of the timer binds the address again: two timer starts between two
successful binds.  The count itself is 1. -/
theorem bounded_retries_counterexample :
    callbacks_expected (run (config_with_retry 1) (boot 0 3221225994 4294967040 3221225985)
      events_reset_without_bind_then_bind).trace = true ∧
    arms_since_bind (run (config_with_retry 1) (boot 0 3221225994 4294967040 3221225985)
      events_reset_without_bind).trace = 2 ∧
    (run (config_with_retry 1) (boot 0 3221225994 4294967040 3221225985)
      events_reset_without_bind).s_acd_retry_count = 1 ∧
    (run (config_with_retry 1) (boot 0 3221225994 4294967040 3221225985)
      events_reset_without_bind).ip_info = zero_ip ∧
    (run (config_with_retry 1) (boot 0 3221225994 4294967040 3221225985)
      events_reset_without_bind_then_bind).ip_info =
      { ip := 3221225994, netmask := 4294967040, gw := 3221225985 } := by
  decide

/-- C6, amended: when `0 < max_attempts` (an `int`, so below 2^31), in every
state reached after start-up the retry count lies in `0..max_attempts`, and the
retry timer has been started at most `s_acd_retry_count`, hence at most
`max_attempts`, times since the most recent `ACD_IP_OK` callback (the event that
resets the count, whether or not it binds the address). -/
theorem bounded_retries (P : Config) (s : St) (h : Reachable P s)
    (hpos : 0 < P.CONFIG_OPENER_ACD_RETRY_MAX_ATTEMPTS)
    (hint : P.CONFIG_OPENER_ACD_RETRY_MAX_ATTEMPTS < 2147483648) :
    0 ≤ s.s_acd_retry_count ∧
    s.s_acd_retry_count ≤ (P.CONFIG_OPENER_ACD_RETRY_MAX_ATTEMPTS : Int) ∧
    (arms_since_ip_ok s.trace : Int) ≤ s.s_acd_retry_count ∧
    arms_since_ip_ok s.trace ≤ P.CONFIG_OPENER_ACD_RETRY_MAX_ATTEMPTS := by
  obtain ⟨h1, h2, h3⟩ := (inv_of_reachable P s h).bounded hpos hint
  exact ⟨h1, h2, h3, by omega⟩

/-- Witness of C6 (amended): the state after `events_reset_without_bind` with
`max_attempts = 1`. -/
theorem bounded_retries_witness :
    arms_since_ip_ok (run (config_with_retry 1) (boot 0 3221225994 4294967040 3221225985)
      events_reset_without_bind).trace ≤ 1 :=
  (bounded_retries (config_with_retry 1) _
    (reachable_run (config_with_retry 1) 0 3221225994 4294967040 3221225985
      events_reset_without_bind)
    (by decide) (by decide)).2.2.2

/-! ## The attempt count across link events -/

theorem ethernet_event_handler_retry_count (P : Config) (env : Env) (eth_netif : Bool)
    (event_id : eth_event_t) (s : St) (hcb : env.callbacks = []) :
    (ethernet_event_handler P env eth_netif event_id s).s_acd_retry_count =
      s.s_acd_retry_count := by
  cases event_id
  · rfl
  · rfl
  · simp only [ethernet_event_handler]
    split_ifs
    · show (tcpip_try_pending_acd P env eth_netif env.lwip_netif_found
        (s.log .esp_netif_set_mac)).s_acd_retry_count = _
      rw [(tcpip_try_pending_acd_no_callback P env eth_netif env.lwip_netif_found
        (s.log .esp_netif_set_mac) hcb).2.1]
      rfl
    · rfl
  · simp only [ethernet_event_handler, tcpip_callback_with_block]
    cases env.marshal_stop_cb <;> simp [St.log, tcpip_acd_stop_cb]
  · rfl

/-- C11 (attempt count across a link flap): handling a link-down event leaves
`s_acd_retry_count` as it is, and so does handling the link-up event that follows
(no engine callback running while the handler waits); the count is reset to 0 by
an `ACD_IP_OK` callback, when the retry feature is compiled in. -/
theorem link_flap_keeps_retry_count (P : Config) (env_down env_up : Env) (eth_netif : Bool)
    (s : St) (hcb : env_up.callbacks = []) :
    (ethernet_event_handler P env_down eth_netif .ETHERNET_EVENT_DISCONNECTED s).s_acd_retry_count
      = s.s_acd_retry_count ∧
    (ethernet_event_handler P env_up eth_netif .ETHERNET_EVENT_CONNECTED
      (ethernet_event_handler P env_down eth_netif .ETHERNET_EVENT_DISCONNECTED s)).s_acd_retry_count
      = s.s_acd_retry_count ∧
    (∀ (e : CallbackEnv) (netif : Bool), P.CONFIG_OPENER_ACD_RETRY_ENABLED = true →
      (tcpip_acd_conflict_callback P e netif .ACD_IP_OK s).s_acd_retry_count = 0) := by
  have hdown : (ethernet_event_handler P env_down eth_netif
      .ETHERNET_EVENT_DISCONNECTED s).s_acd_retry_count = s.s_acd_retry_count := by
    simp only [ethernet_event_handler, tcpip_callback_with_block]
    cases env_down.marshal_stop_cb <;> simp [St.log, tcpip_acd_stop_cb]
  refine ⟨hdown, ?_, ?_⟩
  · rw [ethernet_event_handler_retry_count P env_up eth_netif _ _ hcb, hdown]
  · intro e netif hen
    rw [(callback_ip_ok_spec P e netif s).2.2.2.2.2.1, hen]
    rfl

/-- Witness of C11: a link flap in a state whose attempt count is 2. -/
theorem link_flap_keeps_retry_count_witness :
    (ethernet_event_handler (config_with_retry 5) env_nominal true .ETHERNET_EVENT_CONNECTED
      (ethernet_event_handler (config_with_retry 5) env_nominal true
        .ETHERNET_EVENT_DISCONNECTED pending_after_two_retries)).s_acd_retry_count = 2 ∧
    (tcpip_acd_conflict_callback (config_with_retry 5) callback_env_nominal true .ACD_IP_OK
      pending_after_two_retries).s_acd_retry_count = 0 :=
  ⟨(link_flap_keeps_retry_count (config_with_retry 5) env_nominal env_nominal true
      pending_after_two_retries rfl).2.1,
   (link_flap_keeps_retry_count (config_with_retry 5) env_nominal env_nominal true
      pending_after_two_retries rfl).2.2 callback_env_nominal true rfl⟩

/-! ## Deferral -/

/-- C18, counterexample: with an intent pending and a netif whose hardware
address is all zero, `tcpip_try_pending_acd` returns without calling
`sys_timeout`: nothing at all is logged. -/
theorem deferral_counterexample :
    pending_without_hwaddr.s_acd_probe_pending = true ∧
    netif_has_valid_hwaddr true pending_without_hwaddr.lwip = false ∧
    (tcpip_try_pending_acd (config_with_retry 5) env_nominal true true
      pending_without_hwaddr).trace = [] := by
  decide

/-- C18, amended: when `tcpip_try_pending_acd` is invoked with a pending intent,
without a valid hardware address it returns leaving the state as it is (no
`sys_timeout`); with a valid hardware address and the link down its only effect
is the call `sys_timeout(100, tcpip_retry_acd_deferred, netif)`.  In both cases no
engine call is made, no fault is reported, the intent stays pending and the
binding is unchanged. -/
theorem deferral_when_not_ready (P : Config) (env : Env) (s : St)
    (hpend : s.s_acd_probe_pending = true) :
    (netif_has_valid_hwaddr true s.lwip = false →
      tcpip_try_pending_acd P env true true s = s) ∧
    (netif_has_valid_hwaddr true s.lwip = true → s.lwip.link_up = false →
      tcpip_try_pending_acd P env true true s = s.log (.sys_timeout 100)) := by
  constructor
  · intro h
    simp [tcpip_try_pending_acd, hpend, h]
  · intro h hl
    simp [tcpip_try_pending_acd, hpend, h, hl]

/-- Witness of C18: the two deferrals at concrete states. -/
theorem deferral_when_not_ready_witness :
    tcpip_try_pending_acd (config_with_retry 5) env_nominal true true pending_without_hwaddr =
      pending_without_hwaddr ∧
    tcpip_try_pending_acd (config_with_retry 5) env_nominal true true pending_link_down =
      pending_link_down.log (.sys_timeout 100) :=
  ⟨(deferral_when_not_ready (config_with_retry 5) env_nominal pending_without_hwaddr rfl).1
      (by decide),
   (deferral_when_not_ready (config_with_retry 5) env_nominal pending_link_down rfl).2
      (by decide) (by decide)⟩

/-! ## Fallback to DHCP -/

theorem method_field_replaced (c m d : Nat) (h : d &&& m = d) :
    (clear_bits c m ||| d) &&& m = d ∧ clear_bits (clear_bits c m ||| d) m = clear_bits c m := by
  have hb : ∀ i, (d.testBit i && m.testBit i) = d.testBit i := by
    intro i
    rw [← Nat.testBit_and, h]
  constructor
  · apply Nat.eq_of_testBit_eq
    intro i
    have := hb i
    simp only [clear_bits, Nat.testBit_and, Nat.testBit_ldiff, Nat.testBit_or]
    revert this
    cases c.testBit i <;> cases m.testBit i <;> cases d.testBit i <;> simp
  · apply Nat.eq_of_testBit_eq
    intro i
    have := hb i
    simp only [clear_bits, Nat.testBit_and, Nat.testBit_ldiff, Nat.testBit_or]
    revert this
    cases c.testBit i <;> cases m.testBit i <;> cases d.testBit i <;> simp

theorem invalid_static_ops_spec (P : Config) (env : Env) :
    Op.NvTcpipStore ∈ invalid_static_ops P env ∧
    ∀ o ∈ invalid_static_ops P env, is_engine_call o = false ∧
      (∀ info, o ≠ .esp_netif_set_ip_info info) ∧ (∀ w b ok, o ≠ .tcpip_callback_with_block w b ok) := by
  unfold invalid_static_ops
  split_ifs <;> simp [is_engine_call]

/-- C20 (graceful DHCP fallback): for a configuration whose method is not DHCP and
whose address or netmask is zero, `configure_netif_from_tcpip` sets the method
field of `g_tcpip.config_control` to DHCP and keeps its other bits (the DHCP code
lies inside `kTcpipCfgCtrlMethodMask`), calls `NvTcpipStore`, leaves the binding,
the pending intent and the pending address alone, and logs after
`esp_netif_dhcpc_stop` only calls that are neither engine calls, nor
`esp_netif_set_ip_info`, nor postings to the tcpip thread. -/
theorem dhcp_fallback (P : Config) (env : Env) (s : St)
    (hmask : P.kTcpipCfgCtrlDhcp &&& P.kTcpipCfgCtrlMethodMask = P.kTcpipCfgCtrlDhcp)
    (hstatic : tcpip_config_uses_dhcp P s = false)
    (hzero : s.ip_address = 0 ∨ s.network_mask = 0) :
    (configure_netif_from_tcpip P env true s).config_control &&& P.kTcpipCfgCtrlMethodMask =
      P.kTcpipCfgCtrlDhcp ∧
    clear_bits (configure_netif_from_tcpip P env true s).config_control
      P.kTcpipCfgCtrlMethodMask = clear_bits s.config_control P.kTcpipCfgCtrlMethodMask ∧
    (configure_netif_from_tcpip P env true s).trace =
      invalid_static_ops P env ++ .esp_netif_dhcpc_stop :: s.trace ∧
    Op.NvTcpipStore ∈ invalid_static_ops P env ∧
    (∀ o ∈ invalid_static_ops P env, is_engine_call o = false ∧
      (∀ info, o ≠ .esp_netif_set_ip_info info) ∧
      (∀ w b ok, o ≠ .tcpip_callback_with_block w b ok)) ∧
    (configure_netif_from_tcpip P env true s).ip_info = s.ip_info ∧
    (configure_netif_from_tcpip P env true s).s_acd_probe_pending = s.s_acd_probe_pending ∧
    (configure_netif_from_tcpip P env true s).s_pending_static_ip_cfg =
      s.s_pending_static_ip_cfg ∧
    (configure_netif_from_tcpip P env true s).tcpip_queue = s.tcpip_queue := by
  have hd : tcpip_config_uses_dhcp P (s.log .esp_netif_dhcpc_stop) = false := hstatic
  have hbad : ip_info_has_static_address
      (some { ip := s.ip_address, netmask := s.network_mask, gw := s.gateway }) = false := by
    rcases hzero with h | h <;> simp [ip_info_has_static_address, h]
  have hm := method_field_replaced s.config_control _ _ hmask
  have hops := invalid_static_ops_spec P env
  have heq : configure_netif_from_tcpip P env true s =
      configure_netif_invalid_static P env (s.log .esp_netif_dhcpc_stop) := by
    simp [configure_netif_from_tcpip, hstatic, hbad]
  rw [heq]
  refine ⟨?_, ?_, ?_, hops.1, hops.2, ?_, ?_, ?_, ?_⟩ <;>
    simp only [configure_netif_invalid_static, invalid_static_ops, St.log] <;>
    cases P.CONFIG_LWIP_AUTOIP <;> cases env.lwip_netif_found <;>
    cases env.autoip_start_ok <;> simp [hm.1, hm.2]

/-- Witness of C20: a static configuration without an address, with the method
codes `static = 0`, `DHCP = 2` and mask `15`. -/
theorem dhcp_fallback_witness :
    (configure_netif_from_tcpip (config_with_retry 5) env_nominal true
      boot_without_address).config_control &&& 15 = 2 :=
  (dhcp_fallback (config_with_retry 5) env_nominal boot_without_address (by decide) (by decide)
    (Or.inl rfl)).1

/-! ## Expiry of the retry timer -/

/-- C17, counterexample: (1) after a bind and a later conflict the intent is not
pending and the retry timer is armed; its expiry sets the intent, registers the
client and calls `acd_start`.  (2) After a conflict and a link-up event the client
is registered again while the timer is still armed; its expiry calls `acd_start`
once more. -/
theorem retry_timer_counterexample :
    (run (config_with_retry 5) (boot 0 3221225994 4294967040 3221225985)
      events_bind_then_conflict).s_acd_probe_pending = false ∧
    (run (config_with_retry 5) (boot 0 3221225994 4294967040 3221225985)
      events_bind_then_conflict).retry_timer_active = true ∧
    (run (config_with_retry 5) (boot 0 3221225994 4294967040 3221225985)
      (events_bind_then_conflict ++ [.retry_timer env_nominal])).s_acd_probe_pending = true ∧
    acd_starts (run (config_with_retry 5) (boot 0 3221225994 4294967040 3221225985)
      events_bind_then_conflict).trace = 1 ∧
    acd_starts (run (config_with_retry 5) (boot 0 3221225994 4294967040 3221225985)
      (events_bind_then_conflict ++ [.retry_timer env_nominal])).trace = 2 ∧
    (run (config_with_retry 5) (boot 0 3221225994 4294967040 3221225985)
      events_conflict_then_link_up).s_acd_registered = true ∧
    (run (config_with_retry 5) (boot 0 3221225994 4294967040 3221225985)
      events_conflict_then_link_up).retry_timer_active = true ∧
    acd_starts (run (config_with_retry 5) (boot 0 3221225994 4294967040 3221225985)
      events_conflict_then_link_up).trace = 2 ∧
    acd_starts (run (config_with_retry 5) (boot 0 3221225994 4294967040 3221225985)
      (events_conflict_then_link_up ++ [.retry_timer env_nominal])).trace = 3 := by
  decide

/-- C17, amended: `tcpip_acd_retry_timer_callback` checks only the stored netif
pointers.  When one is NULL it returns; otherwise, whatever `s_acd_probe_pending`
and `s_acd_registered` are at firing time, it sets the intent and re-enters
`tcpip_try_pending_acd` in a state `w` with the intent pending and
`s_acd_registered` as found (through `retry_callback` when the posting succeeds
and runs, directly when the posting fails), or leaves `retry_callback` queued.
The handler that does re-validate is `tcpip_retry_acd_deferred`: with no intent
pending, or with the client registered, it changes nothing. -/
theorem retry_timer_does_not_revalidate (P : Config) (env : Env) (s : St) :
    ((s.s_acd_retry_netif = false ∨ s.s_acd_retry_lwip_netif = false) →
      tcpip_acd_retry_timer_callback P env s = s) ∧
    (s.s_acd_retry_netif = true → s.s_acd_retry_lwip_netif = true →
      ∃ w : St, w.s_acd_probe_pending = true ∧ w.s_acd_registered = s.s_acd_registered ∧
        w.trace = .tcpip_callback_with_block .retry_callback 0
          (decide (env.marshal_retry_callback ≠ .failed)) :: s.trace ∧
        (env.marshal_retry_callback ≠ .queued →
          tcpip_acd_retry_timer_callback P env s = tcpip_try_pending_acd P env true true w) ∧
        (env.marshal_retry_callback = .queued →
          tcpip_acd_retry_timer_callback P env s =
            { w with tcpip_queue := s.tcpip_queue ++ [.retry_callback] })) ∧
    ((s.s_acd_probe_pending = false ∨ s.s_acd_registered = true) →
      ∀ netif, tcpip_retry_acd_deferred P env netif s = s) := by
  refine ⟨?_, ?_, ?_⟩
  · rintro (h | h) <;> simp [tcpip_acd_retry_timer_callback, h]
  · intro hn hl
    refine ⟨{ s with s_acd_probe_pending := true,
                     trace := .tcpip_callback_with_block .retry_callback 0
                       (decide (env.marshal_retry_callback ≠ .failed)) :: s.trace },
      rfl, rfl, rfl, ?_, ?_⟩
    · intro hq
      cases hm : env.marshal_retry_callback
      · simp [tcpip_acd_retry_timer_callback, tcpip_callback_with_block, hn, hl, hm, St.log]
      · simp [tcpip_acd_retry_timer_callback, tcpip_callback_with_block, retry_callback, hn, hl,
          hm, St.log]
      · exact absurd hm hq
    · intro hm
      simp [tcpip_acd_retry_timer_callback, tcpip_callback_with_block, hn, hl, hm, St.log]
  · rintro (h | h) netif
    · cases netif <;> simp [tcpip_retry_acd_deferred, h]
    · cases netif <;> cases hp : s.s_acd_probe_pending <;> simp [tcpip_retry_acd_deferred, h, hp]

/-- Witness of C17: the timer expiry after a bind and a later conflict, and the
deferred handler at start-up. -/
theorem retry_timer_does_not_revalidate_witness :
    (∃ w : St, w.s_acd_probe_pending = true ∧
      tcpip_acd_retry_timer_callback (config_with_retry 5) env_nominal
        (run (config_with_retry 5) (boot 0 3221225994 4294967040 3221225985)
          events_bind_then_conflict) =
        tcpip_try_pending_acd (config_with_retry 5) env_nominal true true w) ∧
    tcpip_retry_acd_deferred (config_with_retry 5) env_nominal true
      (boot 0 3221225994 4294967040 3221225985) = boot 0 3221225994 4294967040 3221225985 := by
  constructor
  · obtain ⟨w, h1, _, _, h4, _⟩ :=
      (retry_timer_does_not_revalidate (config_with_retry 5) env_nominal
        (run (config_with_retry 5) (boot 0 3221225994 4294967040 3221225985)
          events_bind_then_conflict)).2.1 (by decide) (by decide)
    exact ⟨w, h1, h4 (by decide)⟩
  · exact (retry_timer_does_not_revalidate (config_with_retry 5) env_nominal
      (boot 0 3221225994 4294967040 3221225985)).2.2 (Or.inl rfl) true

/-! ## Resource exhaustion -/

theorem or_or_and_right (a m n : Nat) : (a ||| (m ||| n)) &&& n = n := by
  apply Nat.eq_of_testBit_eq
  intro i
  simp only [Nat.testBit_and, Nat.testBit_or]
  cases a.testBit i <;> cases m.testBit i <;> cases n.testBit i <;> rfl

theorem perform_acd_attempt_probe_ctx_fails (P : Config) (env : Env) (ip : Nat) (s : St)
    (hreg : registration_succeeds env s = true)
    (hsem : s.s_acd_registration_sem = true)
    (hrgiven : s.acd_registration_sem_given = false)
    (hpend : s.s_acd_probe_pending = true)
    (h1 : env.acd_start_ok = false) (h2 : env.malloc_probe_ctx_ok = false) :
    (perform_acd_attempt P env true ip s).2 = false ∧
    (perform_acd_attempt P env true ip s).1.status =
      s.status ||| (P.kTcpipStatusAcdStatus ||| P.kTcpipStatusAcdFault) ∧
    (perform_acd_attempt P env true ip s).1.last_acd_activity = 3 ∧
    (perform_acd_attempt P env true ip s).1.s_acd_callback_received =
      s.s_acd_callback_received ∧
    (perform_acd_attempt P env true ip s).1.s_acd_last_state = s.s_acd_last_state ∧
    (perform_acd_attempt P env true ip s).1.ip_info = s.ip_info ∧
    (perform_acd_attempt P env true ip s).1.s_acd_probe_pending = true ∧
    (perform_acd_attempt P env true ip s).1.s_acd_retry_count = s.s_acd_retry_count := by
  have hr := perform_acd_register_ok P env ip s hreg hsem hrgiven
  have hf := perform_acd_register_frame P env true ip s
  have hp : (perform_acd_register P env true ip s).1.s_acd_probe_pending = true := by
    rw [hf.2.2.2.2.2.1]; exact hpend
  simp only [perform_acd_attempt, perform_acd_start, hr.1, hr.2.1, hp, h1, h2, acd_fault,
    CipTcpIpSetLastAcdActivity, St.log, Bool.not_true, Bool.not_false, Bool.and_self,
    Bool.false_eq_true, if_false, if_true]
  simp [hr.2.2, hpend]


theorem tcpip_perform_acd_enters_attempt (P : Config) (env : Env) (ip : Nat) (s : St)
    (hacd : s.select_acd = true) (hpend : s.s_acd_probe_pending = true)
    (hres : resources_available env s = true) :
    ∃ w : St, tcpip_perform_acd P env true ip s = perform_acd_attempt P env true ip w ∧
      w.s_acd_registration_sem = true ∧ w.acd_registration_sem_given = false ∧
      w.s_acd_registered = s.s_acd_registered ∧ w.s_acd_probe_pending = true ∧
      w.s_acd_callback_received = false ∧ w.s_acd_last_state = .ACD_IP_OK ∧
      w.status = s.status ∧ w.ip_info = s.ip_info ∧
      w.s_acd_retry_count = s.s_acd_retry_count ∧ w.acd_sem_given = false := by
  unfold tcpip_perform_acd
  cases h1 : s.s_acd_sem <;> cases h2 : env.sem_create_ok <;>
    cases h4 : env.malloc_start_ctx_ok <;>
    cases h5 : s.s_acd_registration_sem <;> cases h6 : env.registration_sem_create_ok <;>
    simp [resources_available, h1, h2, h4, h5, h6] at hres <;>
    simp only [hacd, hpend, h1, h2, h4, h5, h6, CipTcpIpSetLastAcdActivity, St.log,
      Bool.not_true, Bool.not_false, Bool.false_eq_true, Bool.and_self, Bool.and_true,
      Bool.and_false, if_false, if_true] <;>
    exact ⟨_, rfl, rfl, rfl, rfl, rfl, rfl, rfl, rfl, rfl, rfl, rfl⟩

theorem tcpip_perform_acd_no_resources (P : Config) (env : Env) (ip : Nat) (s : St)
    (hacd : s.select_acd = true) (hpend : s.s_acd_probe_pending = true)
    (hres : resources_available env s = false)
    (hrecv : s.s_acd_sem = false → s.s_acd_callback_received = false) :
    ∃ w : St, tcpip_perform_acd P env true ip s = (acd_fault P w, false) ∧
      w.s_acd_probe_pending = true ∧ w.s_acd_callback_received = false ∧
      w.status = s.status ∧ w.ip_info = s.ip_info ∧
      w.s_acd_retry_count = s.s_acd_retry_count := by
  unfold tcpip_perform_acd
  cases h1 : s.s_acd_sem <;> cases h2 : env.sem_create_ok <;>
    cases h4 : env.malloc_start_ctx_ok <;>
    cases h5 : s.s_acd_registration_sem <;> cases h6 : env.registration_sem_create_ok <;>
    simp [resources_available, h1, h2, h4, h5, h6] at hres hrecv <;>
    simp only [hacd, hpend, h1, h2, h4, h5, h6, CipTcpIpSetLastAcdActivity, St.log,
      Bool.not_true, Bool.not_false, Bool.false_eq_true, Bool.and_self, Bool.and_true,
      Bool.and_false, if_false, if_true] <;>
    first
    | exact ⟨_, rfl, rfl, rfl, rfl, rfl, rfl⟩
    | exact ⟨_, rfl, rfl, hrecv, rfl, rfl, rfl⟩

theorem tcpip_perform_acd_exhausted (P : Config) (env : Env) (ip : Nat) (s : St)
    (hacd : s.select_acd = true) (hpend : s.s_acd_probe_pending = true)
    (hex : resource_exhausted env s = true)
    (hrecv : s.s_acd_sem = false → s.s_acd_callback_received = false) :
    (tcpip_perform_acd P env true ip s).2 = false ∧
    (tcpip_perform_acd P env true ip s).1.status =
      s.status ||| (P.kTcpipStatusAcdStatus ||| P.kTcpipStatusAcdFault) ∧
    (tcpip_perform_acd P env true ip s).1.last_acd_activity = 3 ∧
    (tcpip_perform_acd P env true ip s).1.s_acd_callback_received = false ∧
    (tcpip_perform_acd P env true ip s).1.ip_info = s.ip_info ∧
    (tcpip_perform_acd P env true ip s).1.s_acd_probe_pending = true ∧
    (tcpip_perform_acd P env true ip s).1.s_acd_retry_count = s.s_acd_retry_count := by
  cases hres : resources_available env s
  · obtain ⟨w, hw, h1, h2, h3, h4, h5⟩ :=
      tcpip_perform_acd_no_resources P env ip s hacd hpend hres hrecv
    rw [hw]
    simp [acd_fault, CipTcpIpSetLastAcdActivity, h1, h2, h3, h4, h5]
  · obtain ⟨w, hw, h1, h2, h3, h4, h5, h6, h7, h8, h9, _⟩ :=
      tcpip_perform_acd_enters_attempt P env ip s hacd hpend hres
    have hex2 : registration_succeeds env w = true ∧ env.acd_start_ok = false ∧
        env.malloc_probe_ctx_ok = false := by
      simp only [resources_available, Bool.and_eq_true, Bool.or_eq_true] at hres
      simp only [resource_exhausted, registration_succeeds, Bool.or_eq_true, Bool.and_eq_true,
        Bool.not_eq_true', h3] at hex ⊢
      rcases hex with ((h | h) | h) | h
      · rcases hres.1.1 with a | a <;> simp_all
      · simp_all
      · rcases hres.2 with a | a <;> simp_all
      · exact ⟨h.1.1, h.1.2, h.2⟩
    have ha := perform_acd_attempt_probe_ctx_fails P env ip w hex2.1 h1 h2 h4 hex2.2.1 hex2.2.2
    rw [hw]
    refine ⟨ha.1, ?_, ha.2.2.1, ?_, ?_, ha.2.2.2.2.2.2.1, ?_⟩
    · rw [ha.2.1, h7]
    · rw [ha.2.2.2.1, h5]
    · rw [ha.2.2.2.2.2.1, h8]
    · rw [ha.2.2.2.2.2.2.2, h9]

/-- C19, counterexample: start-up for `192.0.2.10` when the start context cannot
be allocated.  `tcpip_perform_acd` returns `false`, yet after
`configure_netif_from_tcpip` (which calls `tcpip_try_pending_acd`) the intent is
still pending and the last-activity code is 1, not 3. -/
theorem resource_exhaustion_counterexample :
    (tcpip_perform_acd (config_with_retry 5) env_no_memory true 3221225994
      (CipTcpIpSetLastAcdActivity 2 pending_192_0_2_10)).2 = false ∧
    (run (config_with_retry 5) (boot 0 3221225994 4294967040 3221225985)
      [.configure env_no_memory]).s_acd_probe_pending = true ∧
    (run (config_with_retry 5) (boot 0 3221225994 4294967040 3221225985)
      [.configure env_no_memory]).last_acd_activity = 1 := by
  decide

/-- C19, amended: when a semaphore or a marshaled-call context cannot be obtained
during an attempt (and no outcome is on record if `s_acd_sem` is the one that
cannot be created), `tcpip_perform_acd` returns `false` with last-activity code 3;
`tcpip_try_pending_acd` discards that result.  After it returns the ACD fault bit
is set, the binding and `s_acd_retry_count` are unchanged and the intent is still
pending. -/
theorem resource_exhaustion (P : Config) (env : Env) (s : St)
    (hacd : s.select_acd = true) (hpend : s.s_acd_probe_pending = true)
    (hmac : netif_has_valid_hwaddr true s.lwip = true) (hlink : s.lwip.link_up = true)
    (hex : resource_exhausted env s = true)
    (hrecv : s.s_acd_sem = false → s.s_acd_callback_received = false) :
    (tcpip_perform_acd P env true s.s_pending_static_ip_cfg.ip
      (CipTcpIpSetLastAcdActivity 2 s)).2 = false ∧
    (tcpip_perform_acd P env true s.s_pending_static_ip_cfg.ip
      (CipTcpIpSetLastAcdActivity 2 s)).1.last_acd_activity = 3 ∧
    bits_set (tcpip_try_pending_acd P env true true s).status P.kTcpipStatusAcdFault ∧
    (tcpip_try_pending_acd P env true true s).ip_info = s.ip_info ∧
    (tcpip_try_pending_acd P env true true s).s_acd_retry_count = s.s_acd_retry_count ∧
    (tcpip_try_pending_acd P env true true s).s_acd_probe_pending = true := by
  have h := tcpip_perform_acd_exhausted P env s.s_pending_static_ip_cfg.ip
    (CipTcpIpSetLastAcdActivity 2 s) hacd hpend hex hrecv
  obtain ⟨h1, h2, h3, h4, h5, h6, h7⟩ := h
  refine ⟨h1, h3, ?_⟩
  simp only [tcpip_try_pending_acd, hpend, hmac, hlink, h4, Bool.not_true, Bool.or_self,
    Bool.false_eq_true, Bool.false_and, if_false]
  refine ⟨?_, ?_, ?_, ?_⟩
  · show bits_set (tcpip_perform_acd P env true s.s_pending_static_ip_cfg.ip
      (CipTcpIpSetLastAcdActivity 2 s)).1.status P.kTcpipStatusAcdFault
    rw [h2]
    exact or_or_and_right _ _ _
  · exact h5
  · exact h7
  · exact h6

/-- Witness of C19: start-up when the start context cannot be allocated. -/
theorem resource_exhaustion_witness :
    (tcpip_try_pending_acd (config_with_retry 5) env_no_memory true true
      pending_192_0_2_10).s_acd_retry_count = 0 ∧
    (tcpip_try_pending_acd (config_with_retry 5) env_no_memory true true
      pending_192_0_2_10).s_acd_probe_pending = true :=
  (resource_exhaustion (config_with_retry 5) env_no_memory pending_192_0_2_10 rfl rfl
    (by decide) rfl (by decide) (fun _ => rfl)).2.2.2.2

/-! ## A start request while a probe is in flight -/

theorem acd_adds_cons (o : Op) (t : List Op) :
    acd_adds (o :: t) = acd_adds t + (if is_acd_add o then 1 else 0) := by
  simp [acd_adds, List.countP_cons]

theorem acd_starts_cons (o : Op) (t : List Op) :
    acd_starts (o :: t) = acd_starts t + (if is_acd_start o then 1 else 0) := by
  simp [acd_starts, List.countP_cons]

theorem perform_acd_register_registered (P : Config) (env : Env) (netif : Bool) (ip : Nat)
    (s : St) (h : s.s_acd_registered = true) :
    perform_acd_register P env netif ip s = (s, true) := by
  simp [perform_acd_register, h]

theorem perform_acd_wait_timeout (P : Config) (env : Env) (s : St) (hcb : env.callbacks = [])
    (hgiven : s.acd_sem_given = false) (hrecv : s.s_acd_callback_received = false)
    (hlast : s.s_acd_last_state = .ACD_IP_OK) : perform_acd_wait P env s = (s, true) := by
  simp [perform_acd_wait, perform_acd_after_wait, hcb, hgiven, hrecv, hlast]

theorem perform_acd_start_calls (P : Config) (env : Env) (netif : Bool) (ip : Nat) (s : St)
    (hpend : s.s_acd_probe_pending = true) (hreg : s.s_acd_registered = true) :
    acd_adds (perform_acd_start P env netif ip s).1.trace = acd_adds s.trace ∧
    acd_starts s.trace < acd_starts (perform_acd_start P env netif ip s).1.trace := by
  unfold perform_acd_start
  cases env.acd_start_ok <;> cases env.malloc_probe_ctx_ok <;> cases env.marshal_probe_cb <;>
    cases netif <;>
    simp [hpend, hreg, acd_fault, CipTcpIpSetLastAcdActivity, tcpip_callback_with_block,
      acd_start_probe_cb, St.log, acd_adds_cons, acd_starts_cons, is_acd_add, is_acd_start]
  omega

theorem perform_acd_attempt_in_flight (P : Config) (env : Env) (netif : Bool) (ip : Nat)
    (s : St) (hcb : env.callbacks = []) (hgiven : s.acd_sem_given = false)
    (hpend : s.s_acd_probe_pending = true) (hreg : s.s_acd_registered = true)
    (hrecv : s.s_acd_callback_received = false) (hlast : s.s_acd_last_state = .ACD_IP_OK) :
    acd_adds (perform_acd_attempt P env netif ip s).1.trace = acd_adds s.trace ∧
    acd_starts s.trace < acd_starts (perform_acd_attempt P env netif ip s).1.trace := by
  have hf := perform_acd_start_frame P env netif ip s
  have hc := perform_acd_start_calls P env netif ip s hpend hreg
  unfold perform_acd_attempt
  rw [perform_acd_register_registered P env netif ip s hreg]
  cases h2 : (perform_acd_start P env netif ip s).2
  · simpa [h2] using hc
  · simp only [h2, Bool.not_true, Bool.false_eq_true, if_false, Bool.not_false]
    rw [perform_acd_wait_timeout P env _ hcb ?_ ?_ ?_]
    · exact hc
    · simp [hgiven]
    · simp [hrecv]
    · simp [hlast]

theorem tcpip_perform_acd_sems_exist (P : Config) (env : Env) (ip : Nat) (s : St)
    (hacd : s.select_acd = true) (hpend : s.s_acd_probe_pending = true)
    (hsem : s.s_acd_sem = true) (hrsem : s.s_acd_registration_sem = true)
    (hmalloc : env.malloc_start_ctx_ok = true) :
    tcpip_perform_acd P env true ip s = perform_acd_attempt P env true ip
      { s with acd_sem_given := false, acd_registration_sem_given := false,
               s_acd_callback_received := false, s_acd_last_state := .ACD_IP_OK,
               last_acd_activity := 2,
               trace := .malloc .AcdStartContext true :: .outcome_reset :: s.trace } := by
  simp [tcpip_perform_acd, hacd, hpend, hsem, hrsem, hmalloc, CipTcpIpSetLastAcdActivity, St.log]

theorem tcpip_perform_acd_in_flight (P : Config) (env : Env) (ip : Nat) (s : St)
    (hcb : env.callbacks = []) (hacd : s.select_acd = true)
    (hpend : s.s_acd_probe_pending = true) (hreg : s.s_acd_registered = true)
    (hsem : s.s_acd_sem = true) (hrsem : s.s_acd_registration_sem = true) :
    acd_adds (tcpip_perform_acd P env true ip s).1.trace = acd_adds s.trace ∧
    (tcpip_perform_acd P env true ip s).1.s_acd_callback_received = false ∧
    (tcpip_perform_acd P env true ip s).1.s_acd_last_state = .ACD_IP_OK ∧
    (env.malloc_start_ctx_ok = true →
      acd_starts s.trace < acd_starts (tcpip_perform_acd P env true ip s).1.trace) := by
  cases hm : env.malloc_start_ctx_ok
  · simp [tcpip_perform_acd, hacd, hpend, hsem, hrsem, hm, CipTcpIpSetLastAcdActivity, St.log,
      acd_fault, acd_adds_cons, is_acd_add]
  · rw [tcpip_perform_acd_sems_exist P env ip s hacd hpend hsem hrsem hm]
    have h1 := perform_acd_attempt_in_flight P env true ip
      { s with acd_sem_given := false, acd_registration_sem_given := false,
               s_acd_callback_received := false, s_acd_last_state := .ACD_IP_OK,
               last_acd_activity := 2,
               trace := .malloc .AcdStartContext true :: .outcome_reset :: s.trace }
      hcb rfl hpend hreg rfl rfl
    have h2 := perform_acd_attempt_no_callback P env true ip
      { s with acd_sem_given := false, acd_registration_sem_given := false,
               s_acd_callback_received := false, s_acd_last_state := .ACD_IP_OK,
               last_acd_activity := 2,
               trace := .malloc .AcdStartContext true :: .outcome_reset :: s.trace }
      hcb rfl
    refine ⟨?_, ?_, ?_, ?_⟩
    · rw [h1.1]; simp [acd_adds_cons, is_acd_add]
    · rw [h2.2.2.2.1]
    · rw [h2.2.2.2.2.1]
    · intro _
      refine lt_of_le_of_lt ?_ h1.2
      simp [acd_starts_cons, is_acd_start]

/-- C12, counterexample: after start-up the intent is pending, the client is
registered, `acd_start` has been called once and no callback has been received;
a second link-up event calls `acd_start` again. -/
theorem second_start_request_counterexample :
    (run (config_with_retry 5) (boot 0 3221225994 4294967040 3221225985)
      [.configure env_nominal]).s_acd_probe_pending = true ∧
    (run (config_with_retry 5) (boot 0 3221225994 4294967040 3221225985)
      [.configure env_nominal]).s_acd_registered = true ∧
    (run (config_with_retry 5) (boot 0 3221225994 4294967040 3221225985)
      [.configure env_nominal]).s_acd_callback_received = false ∧
    acd_starts (run (config_with_retry 5) (boot 0 3221225994 4294967040 3221225985)
      [.configure env_nominal]).trace = 1 ∧
    acd_starts (run (config_with_retry 5) (boot 0 3221225994 4294967040 3221225985)
      events_second_link_up).trace = 2 := by
  decide

/-- C12, amended: when a probe intent is pending and in flight (client registered,
semaphores created, no callback received) and a further link-up event reaches
`tcpip_try_pending_acd` with link up and a valid hardware address, no `acd_add`
is issued and ProbeIntent, OutcomeRecord, RetryState and the binding are left as
they are (no callback running during the wait); but `acd_start` is called again
whenever the start context can be allocated. -/
theorem second_start_request (P : Config) (env : Env) (s : St)
    (hcb : env.callbacks = []) (hfound : env.lwip_netif_found = true)
    (hacd : s.select_acd = true) (hstatic : tcpip_config_uses_dhcp P s = false)
    (hmac : netif_has_valid_hwaddr true s.lwip = true) (hlink : s.lwip.link_up = true)
    (hpend : s.s_acd_probe_pending = true) (hreg : s.s_acd_registered = true)
    (hsem : s.s_acd_sem = true) (hrsem : s.s_acd_registration_sem = true)
    (hrecv : s.s_acd_callback_received = false) (hlast : s.s_acd_last_state = .ACD_IP_OK) :
    acd_adds (ethernet_event_handler P env true .ETHERNET_EVENT_CONNECTED s).trace =
      acd_adds s.trace ∧
    (ethernet_event_handler P env true .ETHERNET_EVENT_CONNECTED s).s_acd_probe_pending = true ∧
    (ethernet_event_handler P env true .ETHERNET_EVENT_CONNECTED s).s_pending_static_ip_cfg =
      s.s_pending_static_ip_cfg ∧
    (ethernet_event_handler P env true .ETHERNET_EVENT_CONNECTED s).s_acd_callback_received =
      s.s_acd_callback_received ∧
    (ethernet_event_handler P env true .ETHERNET_EVENT_CONNECTED s).s_acd_last_state =
      s.s_acd_last_state ∧
    (ethernet_event_handler P env true .ETHERNET_EVENT_CONNECTED s).s_acd_retry_count =
      s.s_acd_retry_count ∧
    (ethernet_event_handler P env true .ETHERNET_EVENT_CONNECTED s).s_acd_retry_timer =
      s.s_acd_retry_timer ∧
    (ethernet_event_handler P env true .ETHERNET_EVENT_CONNECTED s).retry_timer_active =
      s.retry_timer_active ∧
    (ethernet_event_handler P env true .ETHERNET_EVENT_CONNECTED s).ip_info = s.ip_info ∧
    (env.malloc_start_ctx_ok = true →
      acd_starts s.trace <
        acd_starts (ethernet_event_handler P env true .ETHERNET_EVENT_CONNECTED s).trace) := by
  have hd : tcpip_config_uses_dhcp P (s.log .esp_netif_set_mac) = false := hstatic
  have h := tcpip_perform_acd_in_flight P env s.s_pending_static_ip_cfg.ip
    (CipTcpIpSetLastAcdActivity 2 (s.log .esp_netif_set_mac)) hcb hacd hpend hreg hsem hrsem
  have hn := tcpip_perform_acd_no_callback P env true s.s_pending_static_ip_cfg.ip
    (CipTcpIpSetLastAcdActivity 2 (s.log .esp_netif_set_mac)) hcb
  obtain ⟨h1, h2, h3, h4⟩ := h
  have heq : ethernet_event_handler P env true .ETHERNET_EVENT_CONNECTED s =
      (CipTcpIpSetLastAcdActivity 1 (tcpip_perform_acd P env true s.s_pending_static_ip_cfg.ip
        (CipTcpIpSetLastAcdActivity 2 (s.log .esp_netif_set_mac))).1).log
        .ScaleApplicationNotifyLinkUp := by
    simp only [ethernet_event_handler, hd, hfound, Bool.not_false, if_true]
    congr 1
    have e1 : (s.log .esp_netif_set_mac).s_acd_probe_pending = true := hpend
    have e2 : netif_has_valid_hwaddr true (s.log .esp_netif_set_mac).lwip = true := hmac
    have e3 : (s.log .esp_netif_set_mac).lwip.link_up = true := hlink
    have e4 : (tcpip_perform_acd P env true (s.log .esp_netif_set_mac).s_pending_static_ip_cfg.ip
        (CipTcpIpSetLastAcdActivity 2 (s.log .esp_netif_set_mac))).1.s_acd_callback_received
        = false := h2
    simp only [tcpip_try_pending_acd, e1, e2, e3, e4, Bool.not_true, Bool.or_self,
      Bool.false_eq_true, Bool.false_and, if_false]
    rfl
  rw [heq]
  refine ⟨?_, hn.2.2.2.1.trans hpend, hn.2.2.2.2.1, h2.trans hrecv.symm, h3.trans hlast.symm,
    hn.2.2.1, hn.2.2.2.2.2.1,
    hn.2.2.2.2.2.2.1, hn.2.1, ?_⟩
  · simpa [St.log, CipTcpIpSetLastAcdActivity, acd_adds_cons, is_acd_add] using h1
  · intro hm
    have := h4 hm
    simpa [St.log, CipTcpIpSetLastAcdActivity, acd_starts_cons, is_acd_start] using this

/-- Witness of C12: the second link-up event after a start-up whose wait timed out. -/
theorem second_start_request_witness :
    acd_adds (ethernet_event_handler (config_with_retry 5) env_nominal true
      .ETHERNET_EVENT_CONNECTED (run (config_with_retry 5)
        (boot 0 3221225994 4294967040 3221225985) [.configure env_nominal])).trace =
      acd_adds (run (config_with_retry 5) (boot 0 3221225994 4294967040 3221225985)
        [.configure env_nominal]).trace :=
  (second_start_request (config_with_retry 5) env_nominal
    (run (config_with_retry 5) (boot 0 3221225994 4294967040 3221225985) [.configure env_nominal])
    rfl rfl (by decide) (by decide) (by decide) (by decide) (by decide) (by decide) (by decide)
    (by decide) (by decide) (by decide)).1

/-! ## The engine calls in the log -/

theorem engine_neutral_spec (o : Op) (t : List Op) (h : engine_neutral o = true) :
    registered_after (o :: t) = registered_after t ∧
    outcome_of (o :: t) = outcome_of t ∧
    add_allowed o t = true ∧ stop_allowed o t = true ∧
    is_direct_start o = false ∧ is_start_request o = false ∧
    reset_since_start (o :: t) = reset_since_start t := by
  cases o with
  | acd_start via ip ok =>
    cases via <;> simp [engine_neutral] at h <;>
      simp [registered_after, outcome_of, add_allowed, stop_allowed, is_direct_start,
        is_start_request, reset_since_start, start_issued]
  | acd_stop via =>
    cases via <;> simp [engine_neutral] at h <;>
      simp [registered_after, outcome_of, add_allowed, stop_allowed, is_direct_start,
        is_start_request, reset_since_start, start_issued]
  | tcpip_callback_with_block w b ok =>
    cases w <;> simp [engine_neutral] at h <;>
      simp [registered_after, outcome_of, add_allowed, stop_allowed, is_direct_start,
        is_start_request, reset_since_start, start_issued]
  | _ =>
    first
    | (simp [engine_neutral] at h; done)
    | simp [registered_after, outcome_of, add_allowed, stop_allowed, is_direct_start,
        is_start_request, reset_since_start, start_issued]

theorem Eng.log_neutral {s : St} (h : Eng s) (o : Op) (ho : engine_neutral o = true) :
    Eng (s.log o) := by
  obtain ⟨h1, h2, h3, h4, h5, h6, h7⟩ := engine_neutral_spec o s.trace ho
  constructor
  · show s.s_acd_registered = registered_after (o :: s.trace)
    rw [h1]; exact h.registered
  · show outcome_of (o :: s.trace) = _
    rw [h2]; exact h.outcome
  · show adds_guarded (o :: s.trace) = true
    simp [adds_guarded, h3, h.adds]
  · show stops_guarded (o :: s.trace) = true
    simp [stops_guarded, h4, h.stops]
  · show direct_starts_registered (o :: s.trace) = true
    simp [direct_starts_registered, h5, h.starts]
  · show starts_follow_reset (o :: s.trace) = true
    simp [starts_follow_reset, h6, h.resets]

theorem Eng.append {s t : St} (h : Eng s) (l : List Op)
    (hr : t.s_acd_registered = s.s_acd_registered)
    (hc : t.s_acd_callback_received = s.s_acd_callback_received)
    (hl : t.s_acd_last_state = s.s_acd_last_state)
    (ht : t.trace = l ++ s.trace) (hn : ∀ o ∈ l, engine_neutral o = true) : Eng t := by
  induction l generalizing t with
  | nil =>
    simp only [List.nil_append] at ht
    exact ⟨by rw [hr, ht]; exact h.registered, by rw [hc, hl, ht]; exact h.outcome,
      by rw [ht]; exact h.adds, by rw [ht]; exact h.stops, by rw [ht]; exact h.starts,
      by rw [ht]; exact h.resets⟩
  | cons o l ih =>
    have h1 : Eng { t with trace := l ++ s.trace } :=
      ih hr hc hl rfl (fun x hx => hn x (List.mem_cons_of_mem _ hx))
    have h2 := h1.log_neutral o (hn o (List.mem_cons_self _ _))
    exact ⟨by rw [ht]; exact h2.registered, by rw [ht]; exact h2.outcome,
      by rw [ht]; exact h2.adds, by rw [ht]; exact h2.stops, by rw [ht]; exact h2.starts,
      by rw [ht]; exact h2.resets⟩

theorem Eng.of_ext {s t : St} (h : Eng s) (e : EngExt s t) : Eng t := by
  obtain ⟨l, ht, hn⟩ := e.ext
  exact h.append l e.registered e.received e.last ht hn

theorem reset_since_start_append (l t : List Op) (hn : ∀ o ∈ l, engine_neutral o = true) :
    reset_since_start (l ++ t) = reset_since_start t := by
  induction l with
  | nil => rfl
  | cons o l ih =>
    rw [List.cons_append, (engine_neutral_spec o (l ++ t)
      (hn o (List.mem_cons_self _ _))).2.2.2.2.2.2]
    exact ih (fun x hx => hn x (List.mem_cons_of_mem _ hx))

theorem EngExt.refl (s : St) : EngExt s s := ⟨rfl, rfl, rfl, [], rfl, by simp⟩

theorem EngExt.trans {s t u : St} (h1 : EngExt s t) (h2 : EngExt t u) : EngExt s u := by
  obtain ⟨l1, e1, n1⟩ := h1.ext
  obtain ⟨l2, e2, n2⟩ := h2.ext
  refine ⟨h2.registered.trans h1.registered, h2.received.trans h1.received,
    h2.last.trans h1.last, l2 ++ l1, ?_, ?_⟩
  · rw [e2, e1, List.append_assoc]
  · intro o ho
    rcases List.mem_append.1 ho with h | h
    · exact n2 o h
    · exact n1 o h

theorem EngExt.of_log (s : St) (o : Op) (ho : engine_neutral o = true) : EngExt s (s.log o) :=
  ⟨rfl, rfl, rfl, [o], rfl, by simpa using ho⟩

theorem user_led_set_ops_neutral (level : Bool) (s : St) :
    ∀ o ∈ user_led_set_ops level s, engine_neutral o = true := by
  unfold user_led_set_ops
  split_ifs <;> simp [engine_neutral]

theorem user_led_start_flash_ops_neutral (ok : Bool) (s : St) :
    ∀ o ∈ user_led_start_flash_ops ok s, engine_neutral o = true := by
  unfold user_led_start_flash_ops
  split_ifs <;> simp [engine_neutral]

theorem opener_configure_dns_ops_neutral (s : St) :
    ∀ o ∈ opener_configure_dns_ops s, engine_neutral o = true := by
  unfold opener_configure_dns_ops
  split_ifs <;> simp [engine_neutral]

theorem user_led_set_ext (level : Bool) (s : St) : EngExt s (user_led_set level s) := by
  rw [user_led_set_eq]
  exact ⟨rfl, rfl, rfl, _, rfl, user_led_set_ops_neutral level s⟩

theorem user_led_start_flash_ext (ok : Bool) (s : St) :
    EngExt s (user_led_start_flash ok s) := by
  rw [user_led_start_flash_eq]
  exact ⟨rfl, rfl, rfl, _, rfl, user_led_start_flash_ops_neutral ok s⟩

theorem user_led_stop_flash_ext (s : St) : EngExt s (user_led_stop_flash s) := by
  rw [user_led_stop_flash_eq]
  exact ⟨rfl, rfl, rfl, [.user_led_stop_flash], rfl, by simp [engine_neutral]⟩

theorem opener_configure_dns_ext (s : St) : EngExt s (opener_configure_dns s) := by
  rw [opener_configure_dns_eq]
  exact ⟨rfl, rfl, rfl, _, rfl, opener_configure_dns_ops_neutral s⟩

theorem esp_netif_set_ip_info_ext (info : esp_netif_ip_info_t) (s : St) :
    EngExt s (esp_netif_set_ip_info info s) :=
  ⟨rfl, rfl, rfl, [.esp_netif_set_ip_info info], rfl, by simp [engine_neutral]⟩

theorem give_acd_sem_ext (s : St) : EngExt s (give_acd_sem s) := by
  rw [give_acd_sem_eq]
  exact ⟨rfl, rfl, rfl, [], rfl, by simp⟩

theorem give_registration_sem_ext (s : St) : EngExt s (give_registration_sem s) := by
  rw [give_registration_sem_eq]
  exact ⟨rfl, rfl, rfl, [], rfl, by simp⟩

theorem acd_fault_ext (P : Config) (s : St) : EngExt s (acd_fault P s) :=
  ⟨rfl, rfl, rfl, [], rfl, by simp⟩

theorem CipTcpIpSetLastAcdActivity_ext (code : Nat) (s : St) :
    EngExt s (CipTcpIpSetLastAcdActivity code s) :=
  ⟨rfl, rfl, rfl, [], rfl, by simp⟩

theorem tcpip_acd_stop_cb_ext (s : St) : EngExt s (tcpip_acd_stop_cb s) :=
  ⟨rfl, rfl, rfl, [.acd_stop .marshaled], rfl, by simp [engine_neutral]⟩

theorem acd_start_probe_cb_ext (ok : Bool) (ctx : Option (Bool × Nat)) (s : St) :
    EngExt s (acd_start_probe_cb ok ctx s) := by
  rcases ctx with _ | ⟨n, ip⟩
  · exact EngExt.refl s
  · cases n
    · exact ⟨rfl, rfl, rfl, [.free .AcdStartProbeContext], rfl, by simp [engine_neutral]⟩
    · exact ⟨rfl, rfl, rfl, [.free .AcdStartProbeContext, .acd_start .marshaled ip ok], rfl,
        by simp [engine_neutral]⟩

theorem tcpip_acd_start_retry_eng (P : Config) (ok : Bool) (netif lwip_netif : Bool) (s : St)
    (h : Eng s) : Eng (tcpip_acd_start_retry P ok netif lwip_netif s) := by
  have hr := h.registered
  have ho := h.outcome
  have ha := h.adds
  have hs := h.stops
  have hd := h.starts
  have hf := h.resets
  unfold tcpip_acd_start_retry
  cases netif <;> cases lwip_netif <;> try exact h
  cases hreg : s.s_acd_registered <;> cases htim : s.s_acd_retry_timer <;> cases ok <;>
    rw [hreg] at hr <;>
    constructor <;>
    simp [esp_netif_set_ip_info, hreg, htim, ← hr, ho, ha, hs, hd, hf, registered_after, outcome_of, adds_guarded, add_allowed, after_set_ongoing, stops_guarded,
      stop_allowed, after_registered_stop, direct_starts_registered, is_direct_start,
      starts_follow_reset, is_start_request, reset_since_start, start_issued, St.log]

theorem neutral_append (l t : List Op) (hn : ∀ o ∈ l, engine_neutral o = true) :
    registered_after (l ++ t) = registered_after t ∧
    outcome_of (l ++ t) = outcome_of t ∧
    adds_guarded (l ++ t) = adds_guarded t ∧
    stops_guarded (l ++ t) = stops_guarded t ∧
    direct_starts_registered (l ++ t) = direct_starts_registered t ∧
    starts_follow_reset (l ++ t) = starts_follow_reset t ∧
    reset_since_start (l ++ t) = reset_since_start t := by
  induction l with
  | nil => simp
  | cons o l ih =>
    obtain ⟨h1, h2, h3, h4, h5, h6, h7⟩ :=
      engine_neutral_spec o (l ++ t) (hn o (List.mem_cons_self _ _))
    obtain ⟨i1, i2, i3, i4, i5, i6, i7⟩ := ih (fun x hx => hn x (List.mem_cons_of_mem _ hx))
    simp only [List.cons_append]
    refine ⟨h1.trans i1, h2.trans i2, ?_, ?_, ?_, ?_, h7.trans i7⟩
    · simp [adds_guarded, h3, i3]
    · simp [stops_guarded, h4, i4]
    · simp [direct_starts_registered, h5, i5]
    · simp [starts_follow_reset, h6, i6]

@[simp] theorem neutral_user_led_set_ops (level : Bool) (s : St) (t : List Op) :
    registered_after (user_led_set_ops level s ++ t) = registered_after t ∧
    outcome_of (user_led_set_ops level s ++ t) = outcome_of t ∧
    adds_guarded (user_led_set_ops level s ++ t) = adds_guarded t ∧
    stops_guarded (user_led_set_ops level s ++ t) = stops_guarded t ∧
    direct_starts_registered (user_led_set_ops level s ++ t) = direct_starts_registered t ∧
    starts_follow_reset (user_led_set_ops level s ++ t) = starts_follow_reset t ∧
    reset_since_start (user_led_set_ops level s ++ t) = reset_since_start t :=
  neutral_append _ t (user_led_set_ops_neutral level s)

@[simp] theorem neutral_user_led_start_flash_ops (ok : Bool) (s : St) (t : List Op) :
    registered_after (user_led_start_flash_ops ok s ++ t) = registered_after t ∧
    outcome_of (user_led_start_flash_ops ok s ++ t) = outcome_of t ∧
    adds_guarded (user_led_start_flash_ops ok s ++ t) = adds_guarded t ∧
    stops_guarded (user_led_start_flash_ops ok s ++ t) = stops_guarded t ∧
    direct_starts_registered (user_led_start_flash_ops ok s ++ t) =
      direct_starts_registered t ∧
    starts_follow_reset (user_led_start_flash_ops ok s ++ t) = starts_follow_reset t ∧
    reset_since_start (user_led_start_flash_ops ok s ++ t) = reset_since_start t :=
  neutral_append _ t (user_led_start_flash_ops_neutral ok s)

@[simp] theorem neutral_opener_configure_dns_ops (s : St) (t : List Op) :
    registered_after (opener_configure_dns_ops s ++ t) = registered_after t ∧
    outcome_of (opener_configure_dns_ops s ++ t) = outcome_of t ∧
    adds_guarded (opener_configure_dns_ops s ++ t) = adds_guarded t ∧
    stops_guarded (opener_configure_dns_ops s ++ t) = stops_guarded t ∧
    direct_starts_registered (opener_configure_dns_ops s ++ t) = direct_starts_registered t ∧
    starts_follow_reset (opener_configure_dns_ops s ++ t) = starts_follow_reset t ∧
    reset_since_start (opener_configure_dns_ops s ++ t) = reset_since_start t :=
  neutral_append _ t (opener_configure_dns_ops_neutral s)

theorem conflict_callback_ip_ok_eng (P : Config) (e : CallbackEnv) (netif : Bool) (s : St)
    (h : Eng s) : Eng (conflict_callback_ip_ok P e netif s) := by
  have hr := h.registered
  have ho := h.outcome
  have ha := h.adds
  have hs := h.stops
  have hd := h.starts
  have hf := h.resets
  unfold conflict_callback_ip_ok
  cases hen : P.CONFIG_OPENER_ACD_RETRY_ENABLED <;> cases ht : s.s_acd_retry_timer <;>
    cases hp : s.s_acd_probe_pending <;> cases netif <;> cases hfo : e.esp_netif_found <;>
    by_cases hip : s.s_pending_static_ip_cfg.ip = 0 <;>
    constructor <;>
    simp [hen, ht, hp, hfo, hip, user_led_start_flash_eq, opener_configure_dns_eq,
      esp_netif_set_ip_info, CipTcpIpSetLastAcdActivity, ← hr, ho, ha, hs, hd, hf, registered_after, outcome_of, adds_guarded, add_allowed, after_set_ongoing, stops_guarded,
      stop_allowed, after_registered_stop, direct_starts_registered, is_direct_start,
      starts_follow_reset, is_start_request, reset_since_start, start_issued, St.log]

theorem conflict_callback_conflict_eng (P : Config) (e : CallbackEnv) (netif : Bool) (s : St)
    (h : Eng s) : Eng (conflict_callback_conflict P e netif s) := by
  have hA : Eng { s with status := (s.status ||| P.kTcpipStatusAcdStatus) |||
      P.kTcpipStatusAcdFault } := h.of_ext ⟨rfl, rfl, rfl, [], rfl, by simp⟩
  have hB := hA.of_ext (CipTcpIpSetLastAcdActivity_ext 3 _)
  have hC := hB.of_ext (user_led_stop_flash_ext _)
  have h1 := hC.of_ext (user_led_set_ext true _)
  simp only [conflict_callback_conflict]
  split_ifs
  · exact tcpip_acd_start_retry_eng P _ _ _ _ h1
  all_goals exact h1

theorem tcpip_acd_conflict_callback_eng (P : Config) (e : CallbackEnv) (netif : Bool)
    (state : acd_callback_enum_t) (s : St) (h : Eng s) :
    Eng (tcpip_acd_conflict_callback P e netif state s) := by
  have h0 : Eng { (s.log (.acd_callback state)) with
      s_acd_last_state := state, s_acd_callback_received := true } := by
    have hr := h.registered
    have ha := h.adds
    have hs := h.stops
    have hd := h.starts
    have hf := h.resets
    constructor <;> simp [← hr, ha, hs, hd, hf, registered_after, outcome_of, adds_guarded, add_allowed, after_set_ongoing, stops_guarded,
      stop_allowed, after_registered_stop, direct_starts_registered, is_direct_start,
      starts_follow_reset, is_start_request, reset_since_start, start_issued, St.log]
  unfold tcpip_acd_conflict_callback
  cases state
  · exact (conflict_callback_ip_ok_eng P e netif _ h0).of_ext (give_acd_sem_ext _)
  · exact (conflict_callback_conflict_eng P e netif _ h0).of_ext (give_acd_sem_ext _)
  · exact (conflict_callback_conflict_eng P e netif _ h0).of_ext (give_acd_sem_ext _)

theorem deliver_eng (P : Config) (s : St) (ev : CallbackEvent) (h : Eng s) :
    Eng (deliver P s ev) :=
  tcpip_acd_conflict_callback_eng P ev.env ev.netif ev.state s h

theorem deliver_all_eng (P : Config) (evs : List CallbackEvent) (s : St) (h : Eng s) :
    Eng (evs.foldl (deliver P) s) := by
  induction evs generalizing s with
  | nil => exact h
  | cons ev evs ih => exact ih _ (deliver_eng P s ev h)

theorem direct_acd_add_eng (ok : Bool) (s : St) (h : Eng s) (hreg : s.s_acd_registered = false) :
    Eng (direct_acd_add ok s) ∧
    reset_since_start (direct_acd_add ok s).trace = reset_since_start s.trace := by
  have hr := h.registered
  have ho := h.outcome
  have ha := h.adds
  have hs := h.stops
  have hd := h.starts
  have hf := h.resets
  rw [hreg] at hr
  unfold direct_acd_add
  refine ⟨?_, ?_⟩
  · cases ok <;> constructor <;> simp [hreg, ← hr, ho, ha, hs, hd, hf, registered_after, outcome_of, adds_guarded, add_allowed, after_set_ongoing, stops_guarded,
      stop_allowed, after_registered_stop, direct_starts_registered, is_direct_start,
      starts_follow_reset, is_start_request, reset_since_start, start_issued, St.log]
  · cases ok <;> simp [registered_after, outcome_of, adds_guarded, add_allowed, after_set_ongoing, stops_guarded,
      stop_allowed, after_registered_stop, direct_starts_registered, is_direct_start,
      starts_follow_reset, is_start_request, reset_since_start, start_issued, St.log]

theorem tcpip_acd_start_cb_eng (ok ok2 : Bool) (ctx : Option (Bool × Nat)) (s : St)
    (h : Eng s) :
    Eng (tcpip_acd_start_cb ok ok2 ctx s) ∧
    reset_since_start (tcpip_acd_start_cb ok ok2 ctx s).trace = reset_since_start s.trace := by
  have hr := h.registered
  have ho := h.outcome
  have ha := h.adds
  have hs := h.stops
  have hd := h.starts
  have hf := h.resets
  rcases ctx with _ | ⟨n, ip⟩
  · exact ⟨h.of_ext (give_registration_sem_ext s), by simp [tcpip_acd_start_cb, give_registration_sem_eq]⟩
  · unfold tcpip_acd_start_cb
    cases n <;> cases hreg : s.s_acd_registered <;> cases hp : s.s_acd_probe_pending <;>
      cases ok <;> cases ok2 <;> rw [hreg] at hr <;>
      refine ⟨?_, ?_⟩ <;> (try constructor) <;>
      simp [hreg, hp, give_registration_sem_eq, CipTcpIpSetLastAcdActivity, ← hr, ho, ha, hs,
        hd, hf, registered_after, outcome_of, adds_guarded, add_allowed, after_set_ongoing, stops_guarded,
      stop_allowed, after_registered_stop, direct_starts_registered, is_direct_start,
      starts_follow_reset, is_start_request, reset_since_start, start_issued, St.log]

theorem reset_since_start_log (s : St) (o : Op) (ho : start_issued o = false)
    (h : reset_since_start s.trace = true) : reset_since_start (s.log o).trace = true := by
  show reset_since_start (o :: s.trace) = true
  simp [reset_since_start, ho, h]

theorem perform_acd_register_tail_eng (P : Config) (env : Env) (y : St) (posted : Bool)
    (hy : Eng y) (hry : reset_since_start y.trace = true) :
    Eng (if !posted then (acd_fault P y, false)
      else if !y.acd_registration_sem_given then
        if !y.s_acd_registered then
          if env.acd_add_fallback_ok then (direct_acd_add env.acd_add_fallback_ok y, true)
          else (acd_fault P (direct_acd_add env.acd_add_fallback_ok y), false)
        else (y, true)
      else
        if !y.s_acd_registered then
          (acd_fault P { y with acd_registration_sem_given := false }, false)
        else ({ y with acd_registration_sem_given := false }, true)).1 ∧
    reset_since_start (if !posted then (acd_fault P y, false)
      else if !y.acd_registration_sem_given then
        if !y.s_acd_registered then
          if env.acd_add_fallback_ok then (direct_acd_add env.acd_add_fallback_ok y, true)
          else (acd_fault P (direct_acd_add env.acd_add_fallback_ok y), false)
        else (y, true)
      else
        if !y.s_acd_registered then
          (acd_fault P { y with acd_registration_sem_given := false }, false)
        else ({ y with acd_registration_sem_given := false }, true)).1.trace = true := by
  have hz : Eng { y with acd_registration_sem_given := false } :=
    hy.of_ext ⟨rfl, rfl, rfl, [], rfl, by simp⟩
  cases posted
  · exact ⟨hy.of_ext (acd_fault_ext P y), hry⟩
  · simp only [Bool.not_true, Bool.false_eq_true, if_false]
    split_ifs with h1 h2 h3 h4
    · have hreg : y.s_acd_registered = false := by simpa using h2
      exact ⟨(direct_acd_add_eng _ y hy hreg).1, (direct_acd_add_eng _ y hy hreg).2.trans hry⟩
    · have hreg : y.s_acd_registered = false := by simpa using h2
      exact ⟨(direct_acd_add_eng _ y hy hreg).1.of_ext (acd_fault_ext P _),
        (direct_acd_add_eng _ y hy hreg).2.trans hry⟩
    · exact ⟨hy, hry⟩
    · exact ⟨hz.of_ext (acd_fault_ext P _), hry⟩
    · exact ⟨hz, hry⟩

theorem perform_acd_register_eng (P : Config) (env : Env) (netif : Bool) (ip : Nat) (s : St)
    (h : Eng s) (hrs : reset_since_start s.trace = true) :
    Eng (perform_acd_register P env netif ip s).1 ∧
    reset_since_start (perform_acd_register P env netif ip s).1.trace = true := by
  cases hreg : s.s_acd_registered
  · have hd := direct_acd_add_eng env.acd_add_direct_ok s h hreg
    cases hok : env.acd_add_direct_ok
    · rw [hok] at hd
      have hreg1 : (direct_acd_add false s).s_acd_registered = false := by
        simp [direct_acd_add, hreg, St.log]
      have hrs1 : reset_since_start (direct_acd_add false s).trace = true := hd.2.trans hrs
      have hp : Eng ((direct_acd_add false s).log
          (.tcpip_callback_with_block (.tcpip_acd_start_cb netif ip) 1 true)) := hd.1.log_neutral _ rfl
      have hpr := reset_since_start_log (direct_acd_add false s)
        (.tcpip_callback_with_block (.tcpip_acd_start_cb netif ip) 1 true) rfl hrs1
      simp only [perform_acd_register, hreg, hok, hreg1, Bool.not_false, if_true,
        Bool.false_eq_true, if_false]
      cases hm : env.marshal_start_cb
      · exact perform_acd_register_tail_eng P env
          ((direct_acd_add false s).log
            (.tcpip_callback_with_block (.tcpip_acd_start_cb netif ip) 1 false)) false
          (hd.1.log_neutral _ rfl) (reset_since_start_log _ _ rfl hrs1)
      · have hc := tcpip_acd_start_cb_eng env.acd_add_cb_ok env.acd_readd_cb_ok
          (some (netif, ip)) _ hp
        exact perform_acd_register_tail_eng P env _ true hc.1 (hc.2.trans hpr)
      · exact perform_acd_register_tail_eng P env
          { ((direct_acd_add false s).log
              (.tcpip_callback_with_block (.tcpip_acd_start_cb netif ip) 1 true)) with
            tcpip_queue := (direct_acd_add false s).tcpip_queue ++
              [.tcpip_acd_start_cb netif ip] } true
          (hp.of_ext ⟨rfl, rfl, rfl, [], rfl, by simp⟩) hpr
    · rw [hok] at hd
      have hreg1 : (direct_acd_add true s).s_acd_registered = true := by
        simp [direct_acd_add, St.log]
      have hreg2 : ((direct_acd_add true s).log (.free .AcdStartContext)).s_acd_registered
          = true := hreg1
      simp only [perform_acd_register, hreg, hok, hreg2, Bool.not_false, if_true,
        Bool.not_true, Bool.false_eq_true, if_false]
      exact ⟨hd.1.log_neutral _ rfl, reset_since_start_log _ _ rfl (hd.2.trans hrs)⟩
  · rw [perform_acd_register_registered P env netif ip s hreg]
    exact ⟨h, hrs⟩

theorem perform_acd_start_eng (P : Config) (env : Env) (netif : Bool) (ip : Nat) (s : St)
    (h : Eng s) (hrs : reset_since_start s.trace = true) :
    Eng (perform_acd_start P env netif ip s).1 := by
  have hr := h.registered
  have ho := h.outcome
  have ha := h.adds
  have hs := h.stops
  have hd := h.starts
  have hf := h.resets
  unfold perform_acd_start
  cases hp : s.s_acd_probe_pending <;> cases hreg : s.s_acd_registered <;>
    simp only [Bool.and_self, Bool.and_true, Bool.and_false, Bool.false_eq_true, if_false,
      if_true] <;>
    try exact h
  rw [hreg] at hr
  cases env.acd_start_ok <;> cases env.malloc_probe_ctx_ok <;> cases env.marshal_probe_cb <;>
    cases netif <;> constructor <;>
    simp [hreg, hp, acd_fault, CipTcpIpSetLastAcdActivity, tcpip_callback_with_block,
      acd_start_probe_cb, ← hr, ho, ha, hs, hd, hf, hrs, registered_after, outcome_of, adds_guarded, add_allowed, after_set_ongoing, stops_guarded,
      stop_allowed, after_registered_stop, direct_starts_registered, is_direct_start,
      starts_follow_reset, is_start_request, reset_since_start, start_issued, St.log]

theorem perform_acd_after_wait_ext (env : Env) (s : St) :
    EngExt s (perform_acd_after_wait env s).1 := by
  unfold perform_acd_after_wait tcpip_callback_with_block
  split_ifs
  · cases env.marshal_stop_cb
    · exact ⟨rfl, rfl, rfl, [.tcpip_callback_with_block .tcpip_acd_stop_cb 1 false], rfl,
        by simp [engine_neutral]⟩
    · exact ⟨rfl, rfl, rfl, [.acd_stop .marshaled,
        .tcpip_callback_with_block .tcpip_acd_stop_cb 1 true], rfl, by simp [engine_neutral]⟩
    · exact ⟨rfl, rfl, rfl, [.tcpip_callback_with_block .tcpip_acd_stop_cb 1 true], rfl,
        by simp [engine_neutral]⟩
  · exact EngExt.refl s

theorem perform_acd_wait_eng (P : Config) (env : Env) (s : St) (h : Eng s) :
    Eng (perform_acd_wait P env s).1 := by
  have h1 := deliver_all_eng P env.callbacks s h
  have h2 : Eng { env.callbacks.foldl (deliver P) s with acd_sem_given := false } :=
    h1.of_ext ⟨rfl, rfl, rfl, [], rfl, by simp⟩
  simp only [perform_acd_wait]
  split_ifs
  · exact h2.of_ext (CipTcpIpSetLastAcdActivity_ext 0 _)
  · exact h2.of_ext (CipTcpIpSetLastAcdActivity_ext 3 _)
  · exact h2.of_ext (perform_acd_after_wait_ext env _)
  · exact h1.of_ext (CipTcpIpSetLastAcdActivity_ext 0 _)
  · exact h1.of_ext (perform_acd_after_wait_ext env _)

theorem perform_acd_attempt_eng (P : Config) (env : Env) (netif : Bool) (ip : Nat) (s : St)
    (h : Eng s) (hrs : reset_since_start s.trace = true) :
    Eng (perform_acd_attempt P env netif ip s).1 := by
  have h1 := perform_acd_register_eng P env netif ip s h hrs
  have h2 := perform_acd_start_eng P env netif ip _ h1.1 h1.2
  simp only [perform_acd_attempt]
  split_ifs
  · exact h1.1
  · exact h2
  · exact perform_acd_wait_eng P env _ h2

theorem tcpip_perform_acd_attempt_eng (P : Config) (env : Env) (ip : Nat) (s : St)
    (hacd : s.select_acd = true) (hpend : s.s_acd_probe_pending = true)
    (hres : resources_available env s = true) (h : Eng s) :
    ∃ w : St, tcpip_perform_acd P env true ip s = perform_acd_attempt P env true ip w ∧
      Eng w ∧ reset_since_start w.trace = true := by
  have hr := h.registered
  have ho := h.outcome
  have ha := h.adds
  have hs := h.stops
  have hd := h.starts
  have hf := h.resets
  unfold tcpip_perform_acd
  cases h1 : s.s_acd_sem <;> cases h2 : env.sem_create_ok <;>
    cases h4 : env.malloc_start_ctx_ok <;>
    cases h5 : s.s_acd_registration_sem <;> cases h6 : env.registration_sem_create_ok <;>
    simp [resources_available, h1, h2, h4, h5, h6] at hres <;>
    simp only [hacd, hpend, h1, h2, h4, h5, h6, CipTcpIpSetLastAcdActivity, St.log,
      Bool.not_true, Bool.not_false, Bool.false_eq_true, Bool.and_self, Bool.and_true,
      Bool.and_false, if_false, if_true] <;>
    refine ⟨_, rfl, ?_, ?_⟩ <;>
    (try constructor) <;>
    simp [← hr, ho, ha, hs, hd, hf, registered_after, outcome_of, adds_guarded, add_allowed, after_set_ongoing, stops_guarded,
      stop_allowed, after_registered_stop, direct_starts_registered, is_direct_start,
      starts_follow_reset, is_start_request, reset_since_start, start_issued, St.log]

theorem tcpip_perform_acd_fault_eng (P : Config) (env : Env) (ip : Nat) (s : St)
    (hacd : s.select_acd = true) (hpend : s.s_acd_probe_pending = true)
    (hres : resources_available env s = false) (h : Eng s) :
    Eng (tcpip_perform_acd P env true ip s).1 := by
  have hr := h.registered
  have ho := h.outcome
  have ha := h.adds
  have hs := h.stops
  have hd := h.starts
  have hf := h.resets
  unfold tcpip_perform_acd
  cases h1 : s.s_acd_sem <;> cases h2 : env.sem_create_ok <;>
    cases h4 : env.malloc_start_ctx_ok <;>
    cases h5 : s.s_acd_registration_sem <;> cases h6 : env.registration_sem_create_ok <;>
    simp [resources_available, h1, h2, h4, h5, h6] at hres <;>
    simp only [hacd, hpend, h1, h2, h4, h5, h6, CipTcpIpSetLastAcdActivity, St.log,
      Bool.not_true, Bool.not_false, Bool.false_eq_true, Bool.and_self, Bool.and_true,
      Bool.and_false, if_false, if_true] <;>
    constructor <;>
    simp [acd_fault, CipTcpIpSetLastAcdActivity, ← hr, ho, ha, hs, hd, hf, registered_after, outcome_of, adds_guarded, add_allowed, after_set_ongoing, stops_guarded,
      stop_allowed, after_registered_stop, direct_starts_registered, is_direct_start,
      starts_follow_reset, is_start_request, reset_since_start, start_issued, St.log]

theorem tcpip_perform_acd_idle_eng (P : Config) (env : Env) (netif : Bool) (ip : Nat) (s : St)
    (hidle : s.select_acd = false ∨ netif = false ∨ s.s_acd_probe_pending = false)
    (h : Eng s) : Eng (tcpip_perform_acd P env netif ip s).1 := by
  have hr := h.registered
  have ho := h.outcome
  have ha := h.adds
  have hs := h.stops
  have hd := h.starts
  have hf := h.resets
  unfold tcpip_perform_acd
  cases hacd : s.select_acd <;> cases netif <;> cases hp : s.s_acd_probe_pending <;>
    simp [hacd, hp] at hidle <;>
    cases h1 : s.s_acd_sem <;> cases h2 : env.sem_create_ok <;>
    simp only [hacd, hp, h1, h2, CipTcpIpSetLastAcdActivity, St.log,
      Bool.not_true, Bool.not_false, Bool.false_eq_true, Bool.and_self, Bool.and_true,
      Bool.and_false, if_false, if_true] <;>
    constructor <;>
    simp [acd_fault, CipTcpIpSetLastAcdActivity, ← hr, ho, ha, hs, hd, hf, registered_after, outcome_of, adds_guarded, add_allowed, after_set_ongoing, stops_guarded,
      stop_allowed, after_registered_stop, direct_starts_registered, is_direct_start,
      starts_follow_reset, is_start_request, reset_since_start, start_issued, St.log]

theorem tcpip_perform_acd_eng (P : Config) (env : Env) (netif : Bool) (ip : Nat) (s : St)
    (h : Eng s) : Eng (tcpip_perform_acd P env netif ip s).1 := by
  cases hacd : s.select_acd
  · exact tcpip_perform_acd_idle_eng P env netif ip s (Or.inl hacd) h
  cases netif
  · exact tcpip_perform_acd_idle_eng P env false ip s (Or.inr (Or.inl rfl)) h
  cases hp : s.s_acd_probe_pending
  · exact tcpip_perform_acd_idle_eng P env true ip s (Or.inr (Or.inr hp)) h
  cases hres : resources_available env s
  · exact tcpip_perform_acd_fault_eng P env ip s hacd hp hres h
  · obtain ⟨w, hw, h1, h2⟩ := tcpip_perform_acd_attempt_eng P env ip s hacd hp hres h
    rw [hw]
    exact perform_acd_attempt_eng P env true ip w h1 h2

theorem post_stop_ext (m : Marshal) (s : St) :
    EngExt s (tcpip_callback_with_block m .tcpip_acd_stop_cb 1 tcpip_acd_stop_cb s).1 := by
  cases m
  · exact ⟨rfl, rfl, rfl, [.tcpip_callback_with_block .tcpip_acd_stop_cb 1 false], rfl,
      by simp [engine_neutral]⟩
  · exact ⟨rfl, rfl, rfl, [.acd_stop .marshaled,
      .tcpip_callback_with_block .tcpip_acd_stop_cb 1 true], rfl, by simp [engine_neutral]⟩
  · exact ⟨rfl, rfl, rfl, [.tcpip_callback_with_block .tcpip_acd_stop_cb 1 true], rfl,
      by simp [engine_neutral]⟩

theorem tcpip_try_pending_acd_eng (P : Config) (env : Env) (netif lwip_netif : Bool) (s : St)
    (h : Eng s) : Eng (tcpip_try_pending_acd P env netif lwip_netif s) := by
  have h1 : Eng (CipTcpIpSetLastAcdActivity 2 s) := h.of_ext (CipTcpIpSetLastAcdActivity_ext 2 s)
  have h2 := tcpip_perform_acd_eng P env lwip_netif s.s_pending_static_ip_cfg.ip _ h1
  simp only [tcpip_try_pending_acd]
  split_ifs
  · exact h
  · exact h
  · exact h.log_neutral _ rfl
  · have h3 := h2.of_ext (acd_fault_ext P _)
    have h4 : Eng { acd_fault P (tcpip_perform_acd P env lwip_netif s.s_pending_static_ip_cfg.ip
        (CipTcpIpSetLastAcdActivity 2 s)).1 with s_acd_probe_pending := false } :=
      h3.of_ext ⟨rfl, rfl, rfl, [], rfl, by simp⟩
    exact h4.of_ext (post_stop_ext _ _)
  · have h3 := h2.of_ext (esp_netif_set_ip_info_ext
      (tcpip_perform_acd P env lwip_netif s.s_pending_static_ip_cfg.ip
        (CipTcpIpSetLastAcdActivity 2 s)).1.s_pending_static_ip_cfg _)
    have h4 := h3.of_ext (opener_configure_dns_ext _)
    have h5 : Eng { opener_configure_dns (esp_netif_set_ip_info
        (tcpip_perform_acd P env lwip_netif s.s_pending_static_ip_cfg.ip
          (CipTcpIpSetLastAcdActivity 2 s)).1.s_pending_static_ip_cfg
        (tcpip_perform_acd P env lwip_netif s.s_pending_static_ip_cfg.ip
          (CipTcpIpSetLastAcdActivity 2 s)).1) with s_acd_probe_pending := false } :=
      h4.of_ext ⟨rfl, rfl, rfl, [], rfl, by simp⟩
    exact h5.of_ext (CipTcpIpSetLastAcdActivity_ext 1 _)
  · exact h2.of_ext (CipTcpIpSetLastAcdActivity_ext 1 _)

theorem tcpip_retry_acd_deferred_eng (P : Config) (env : Env) (netif : Bool) (s : St)
    (h : Eng s) : Eng (tcpip_retry_acd_deferred P env netif s) := by
  unfold tcpip_retry_acd_deferred
  split_ifs
  any_goals exact h
  exact tcpip_try_pending_acd_eng P env _ _ _ h

theorem retry_callback_eng (P : Config) (env : Env) (s : St) (h : Eng s) :
    Eng (retry_callback P env s) := by
  unfold retry_callback
  split_ifs
  · exact tcpip_try_pending_acd_eng P env _ _ _ h
  · exact h

theorem tcpip_acd_retry_timer_callback_eng (P : Config) (env : Env) (s : St) (h : Eng s) :
    Eng (tcpip_acd_retry_timer_callback P env s) := by
  have h0 : Eng { s with s_acd_probe_pending := true } :=
    h.of_ext ⟨rfl, rfl, rfl, [], rfl, by simp⟩
  simp only [tcpip_acd_retry_timer_callback]
  split_ifs with ha hb
  · exact h
  · cases hm : env.marshal_retry_callback <;>
      simp only [tcpip_callback_with_block, hm, Bool.not_true, Bool.false_eq_true] at hb
    exact tcpip_try_pending_acd_eng P env _ _ _ (h0.log_neutral _ rfl)
  · cases hm : env.marshal_retry_callback <;>
      simp only [tcpip_callback_with_block, hm, Bool.not_true, Bool.not_false,
        not_true_eq_false] at hb ⊢
    · exact retry_callback_eng P env _ (h0.log_neutral _ rfl)
    · exact (h0.log_neutral (.tcpip_callback_with_block .retry_callback 0 true) rfl).of_ext
        ⟨rfl, rfl, rfl, [], rfl, by simp⟩

theorem configure_netif_finish_ext (P : Config) (s : St) :
    EngExt s (configure_netif_finish P s) := by
  unfold configure_netif_finish configure_hostname
  split_ifs
  · exact ⟨rfl, rfl, rfl, [.esp_netif_set_hostname], rfl, by simp [engine_neutral]⟩
  · exact ⟨rfl, rfl, rfl, [], rfl, by simp⟩

theorem configure_netif_invalid_static_ext (P : Config) (env : Env) (s : St) :
    EngExt s (configure_netif_invalid_static P env s) := by
  simp only [configure_netif_invalid_static]
  split_ifs <;> first
    | exact ⟨rfl, rfl, rfl, [.NvTcpipStore, .netifapi_autoip_start env.autoip_start_ok], rfl,
        by simp [engine_neutral]⟩
    | exact ⟨rfl, rfl, rfl, [.esp_netif_dhcpc_start, .NvTcpipStore,
        .netifapi_autoip_start env.autoip_start_ok], rfl, by simp [engine_neutral]⟩
    | exact ⟨rfl, rfl, rfl, [.NvTcpipStore], rfl, by simp [engine_neutral]⟩
    | exact ⟨rfl, rfl, rfl, [.esp_netif_dhcpc_start, .NvTcpipStore], rfl,
        by simp [engine_neutral]⟩

theorem configure_netif_deferred_eng (P : Config) (env : Env) (netif lwip_netif : Bool)
    (ip_info : esp_netif_ip_info_t) (s : St) (h : Eng s) :
    Eng (configure_netif_deferred P env netif lwip_netif ip_info s) := by
  have h1 : Eng (CipTcpIpSetLastAcdActivity 1
      { s with s_pending_static_ip_cfg := ip_info, s_acd_probe_pending := true }) :=
    h.of_ext ⟨rfl, rfl, rfl, [], rfl, by simp⟩
  simp only [configure_netif_deferred]
  split_ifs
  · exact tcpip_try_pending_acd_eng P env _ _ _ h1
  · exact h1

theorem Eng.set_pending {s : St} (h : Eng s) (b : Bool) :
    Eng { s with s_acd_probe_pending := b } :=
  h.of_ext ⟨rfl, rfl, rfl, [], rfl, by simp⟩

theorem configure_netif_from_tcpip_eng (P : Config) (env : Env) (netif : Bool) (s : St)
    (h : Eng s) : Eng (configure_netif_from_tcpip P env netif s) := by
  have hstop := h.log_neutral .esp_netif_dhcpc_stop rfl
  have hset := (hstop.of_ext (esp_netif_set_ip_info_ext
    { ip := s.ip_address, netmask := s.network_mask, gw := s.gateway } _)).of_ext
    (opener_configure_dns_ext _)
  cases hacd : s.select_acd
  · have e1 : (s.log .esp_netif_dhcpc_stop).select_acd = false := hacd
    have e2 : (opener_configure_dns (esp_netif_set_ip_info
        { ip := s.ip_address, netmask := s.network_mask, gw := s.gateway }
        (s.log .esp_netif_dhcpc_stop))).select_acd = false := by
      simp [opener_configure_dns_eq, esp_netif_set_ip_info, St.log, hacd]
    simp only [configure_netif_from_tcpip, e1, e2, Bool.false_eq_true, if_false]
    split_ifs
    · exact h
    · exact (hstop.log_neutral .esp_netif_dhcpc_start rfl).of_ext (configure_netif_finish_ext P _)
    · refine Eng.of_ext ?_ (configure_netif_finish_ext P _)
      refine Eng.of_ext ?_ (opener_configure_dns_ext _)
      refine Eng.of_ext ?_ (esp_netif_set_ip_info_ext _ _)
      refine Eng.set_pending ?_ false
      exact Eng.of_ext hset (CipTcpIpSetLastAcdActivity_ext 0 _)
    · exact hstop.of_ext (configure_netif_invalid_static_ext P env _)
  · have e1 : (s.log .esp_netif_dhcpc_stop).select_acd = true := hacd
    simp only [configure_netif_from_tcpip, e1, if_true]
    split_ifs
    · exact h
    · exact (hstop.log_neutral .esp_netif_dhcpc_start rfl).of_ext (configure_netif_finish_ext P _)
    · exact (configure_netif_deferred_eng P env _ _ _ _ hstop).of_ext
        (configure_netif_finish_ext P _)
    · exact hstop.of_ext (configure_netif_invalid_static_ext P env _)

theorem ethernet_event_handler_eng (P : Config) (env : Env) (eth_netif : Bool)
    (event_id : eth_event_t) (s : St) (h : Eng s) :
    Eng (ethernet_event_handler P env eth_netif event_id s) := by
  have hmac := h.log_neutral .esp_netif_set_mac rfl
  cases event_id
  · exact h
  · exact h
  · simp only [ethernet_event_handler]
    split_ifs
    · exact (tcpip_try_pending_acd_eng P env _ _ _ hmac).log_neutral .ScaleApplicationNotifyLinkUp rfl
    · exact hmac.log_neutral .ScaleApplicationNotifyLinkUp rfl
  · have h1 := h.of_ext (post_stop_ext env.marshal_stop_cb s)
    have h2 : Eng { (tcpip_callback_with_block env.marshal_stop_cb .tcpip_acd_stop_cb 1
        tcpip_acd_stop_cb s).1 with
        s_opener_initialized := false, s_services_initialized := false } :=
      h1.of_ext ⟨rfl, rfl, rfl, [], rfl, by simp⟩
    exact h2.log_neutral .ScaleApplicationNotifyLinkDown rfl
  · exact h

theorem run_work_eng (P : Config) (env : Env) (w : Work) (s : St) (h : Eng s) :
    Eng (run_work P env w s) := by
  cases w <;> simp only [run_work]
  · exact (tcpip_acd_start_cb_eng _ _ _ s h).1
  · exact h.of_ext (acd_start_probe_cb_ext _ _ s)
  · exact h.of_ext (tcpip_acd_stop_cb_ext s)
  · split_ifs
    · exact retry_callback_eng P env s h
    · exact h

theorem step_eng (P : Config) (s : St) (ev : Event) (h : Eng s) : Eng (step P s ev) := by
  cases ev with
  | configure env => exact configure_netif_from_tcpip_eng P env true s h
  | ethernet event_id env => exact ethernet_event_handler_eng P env true event_id s h
  | acd_callback ev => exact deliver_eng P s ev h
  | retry_timer env =>
    simp only [step]
    split_ifs
    · exact tcpip_acd_retry_timer_callback_eng P env _
        (h.of_ext ⟨rfl, rfl, rfl, [], rfl, by simp⟩)
    · exact h
  | deferred env => exact tcpip_retry_acd_deferred_eng P env true s h
  | tcpip_run env =>
    simp only [step]
    cases hq : s.tcpip_queue with
    | nil => exact h
    | cons w rest => exact run_work_eng P env w _ (h.of_ext ⟨rfl, rfl, rfl, [], rfl, by simp⟩)
  | netif_update n => exact h.of_ext ⟨rfl, rfl, rfl, [], rfl, by simp⟩

theorem run_eng (P : Config) (es : List Event) (s : St) (h : Eng s) : Eng (run P s es) := by
  induction es generalizing s with
  | nil => exact h
  | cons ev es ih => exact ih _ (step_eng P s ev h)

theorem eng_of_init (s : St) (h : Init s) : Eng s := by
  constructor <;>
    simp [h.trace, h.registered, h.callback_received, registered_after, outcome_of, adds_guarded, add_allowed, after_set_ongoing, stops_guarded,
      stop_allowed, after_registered_stop, direct_starts_registered, is_direct_start,
      starts_follow_reset, is_start_request, reset_since_start, start_issued, St.log]

theorem eng_of_reachable (P : Config) (s : St) (h : Reachable P s) : Eng s := by
  obtain ⟨s0, es, h0, rfl⟩ := h
  exact run_eng P es s0 (eng_of_init s0 h0)

/-! ## Registration, start and stop calls in every reachable state -/

/-- C15, counterexample: after start-up and a late `ACD_DECLINE` callback
`tcpip_acd_start_retry` has cleared `s_acd_registered`; a link-down event then
calls `acd_stop` through `tcpip_acd_stop_cb` all the same.  (With the conflict
reported inside the wait of start-up, the conflict branch of
`tcpip_try_pending_acd` does so too.) -/
theorem stop_only_while_registered_counterexample :
    (run (config_with_retry 5) (boot 0 3221225994 4294967040 3221225985)
      events_late_decline).s_acd_registered = false ∧
    acd_stops (run (config_with_retry 5) (boot 0 3221225994 4294967040 3221225985)
      events_late_decline).trace = 1 ∧
    acd_stops (run (config_with_retry 5) (boot 0 3221225994 4294967040 3221225985)
      events_conflict_link_down).trace = 2 ∧
    stops_while_registered (run (config_with_retry 5)
      (boot 0 3221225994 4294967040 3221225985) events_conflict_link_down).trace = false ∧
    stops_while_registered (run (config_with_retry 5)
      (boot 0 3221225994 4294967040 3221225985) events_conflict_in_wait).trace = false := by
  decide

/-- C15, amended: in every state reached after start-up, the `acd_stop` calls of
`tcpip_acd_start_retry` and of `tcpip_acd_start_cb` in the log were made while
`s_acd_registered` was true.  `tcpip_acd_stop_cb` (posted on link-down, by the
conflict branch of `tcpip_try_pending_acd` and by the conflict-on-timeout path of
`tcpip_perform_acd`) calls `acd_stop` in whatever state it runs. -/
theorem stop_only_while_registered (P : Config) (s : St) (h : Reachable P s) (w : St) :
    stops_guarded s.trace = true ∧
    (tcpip_acd_stop_cb w).trace = .acd_stop .marshaled :: w.trace ∧
    (tcpip_acd_stop_cb w).s_acd_registered = w.s_acd_registered :=
  ⟨(eng_of_reachable P s h).stops, rfl, rfl⟩

/-- Witness of C15: the run with a conflict followed by a link-down event. -/
theorem stop_only_while_registered_witness :
    stops_guarded (run (config_with_retry 5) (boot 0 3221225994 4294967040 3221225985)
      events_conflict_link_down).trace = true :=
  (stop_only_while_registered (config_with_retry 5) _
    (reachable_run (config_with_retry 5) 0 3221225994 4294967040 3221225985
      events_conflict_link_down) pending_192_0_2_10).1

/-! ## The outcome record and the start requests -/

theorem start_requests_cons (o : Op) (t : List Op) :
    start_requests (o :: t) = start_requests t + (if is_start_request o then 1 else 0) := by
  simp [start_requests, List.countP_cons]

theorem tcpip_perform_acd_idle_no_start (P : Config) (env : Env) (netif : Bool) (ip : Nat)
    (s : St)
    (hidle : s.select_acd = false ∨ netif = false ∨ s.s_acd_probe_pending = false) :
    start_requests (tcpip_perform_acd P env netif ip s).1.trace = start_requests s.trace := by
  unfold tcpip_perform_acd
  cases hacd : s.select_acd <;> cases netif <;> cases hp : s.s_acd_probe_pending <;>
    simp [hacd, hp] at hidle <;>
    cases h1 : s.s_acd_sem <;> cases h2 : env.sem_create_ok <;>
    simp only [hacd, hp, h1, h2, CipTcpIpSetLastAcdActivity, St.log,
      Bool.not_true, Bool.not_false, Bool.false_eq_true, Bool.and_self, Bool.and_true,
      Bool.and_false, if_false, if_true] <;>
    simp [acd_fault, CipTcpIpSetLastAcdActivity, start_requests_cons, is_start_request]

theorem tcpip_perform_acd_fault_no_start (P : Config) (env : Env) (ip : Nat) (s : St)
    (hacd : s.select_acd = true) (hpend : s.s_acd_probe_pending = true)
    (hres : resources_available env s = false) :
    start_requests (tcpip_perform_acd P env true ip s).1.trace = start_requests s.trace := by
  unfold tcpip_perform_acd
  cases h1 : s.s_acd_sem <;> cases h2 : env.sem_create_ok <;>
    cases h4 : env.malloc_start_ctx_ok <;>
    cases h5 : s.s_acd_registration_sem <;> cases h6 : env.registration_sem_create_ok <;>
    simp [resources_available, h1, h2, h4, h5, h6] at hres <;>
    simp only [hacd, hpend, h1, h2, h4, h5, h6, CipTcpIpSetLastAcdActivity, St.log,
      Bool.not_true, Bool.not_false, Bool.false_eq_true, Bool.and_self, Bool.and_true,
      Bool.and_false, if_false, if_true] <;>
    simp [acd_fault, CipTcpIpSetLastAcdActivity, start_requests_cons, is_start_request]

theorem tcpip_perform_acd_fresh_outcome (P : Config) (env : Env) (netif : Bool) (ip : Nat)
    (s : St) (hcb : env.callbacks = [])
    (hstart : start_requests s.trace <
      start_requests (tcpip_perform_acd P env netif ip s).1.trace) :
    (tcpip_perform_acd P env netif ip s).1.s_acd_callback_received = false := by
  cases hacd : s.select_acd
  · rw [tcpip_perform_acd_idle_no_start P env netif ip s (Or.inl hacd)] at hstart
    exact absurd hstart (lt_irrefl _)
  cases hn : netif
  · rw [hn, tcpip_perform_acd_idle_no_start P env false ip s (Or.inr (Or.inl rfl))] at hstart
    exact absurd hstart (lt_irrefl _)
  cases hp : s.s_acd_probe_pending
  · rw [tcpip_perform_acd_idle_no_start P env netif ip s (Or.inr (Or.inr hp))] at hstart
    exact absurd hstart (lt_irrefl _)
  cases hres : resources_available env s
  · rw [hn, tcpip_perform_acd_fault_no_start P env ip s hacd hp hres] at hstart
    exact absurd hstart (lt_irrefl _)
  · obtain ⟨w, hw, _, _, _, _, h5, _, _, _, _, h10⟩ :=
      tcpip_perform_acd_enters_attempt P env ip s hacd hp hres
    rw [hw, (perform_acd_attempt_no_callback P env true ip w hcb h10).2.2.2.1, h5]

/-- The outcome record while handlers run to completion: in every state reached
after start-up, each start request of the log (the direct `acd_start`, or the
posting of `acd_start_probe_cb`) was made when the outcome record had been reset
after the previous accepted start request, and the outcome on record is the one the log
gives: none after a reset, else the state of the most recent callback.  So when
`tcpip_perform_acd`, entered in any state `w`, has made a start request and no
callback ran during its wait, no outcome is on record when it returns to
`tcpip_try_pending_acd`.  A callback that runs between two statements of
`tcpip_perform_acd` is not an event of this system. -/
theorem reset_before_each_start (P : Config) (s : St) (h : Reachable P s)
    (env : Env) (netif : Bool) (ip : Nat) (w : St) :
    starts_follow_reset s.trace = true ∧
    outcome_of s.trace =
      (if s.s_acd_callback_received then some s.s_acd_last_state else none) ∧
    (env.callbacks = [] →
      start_requests w.trace < start_requests (tcpip_perform_acd P env netif ip w).1.trace →
      (tcpip_perform_acd P env netif ip w).1.s_acd_callback_received = false) :=
  ⟨(eng_of_reachable P s h).resets, (eng_of_reachable P s h).outcome,
    fun hcb hstart => tcpip_perform_acd_fresh_outcome P env netif ip w hcb hstart⟩

/-- Example: the run with a second link-up event, and the attempt made in a state
that holds the outcome of an earlier conflict. -/
theorem reset_before_each_start_witness :
    starts_follow_reset (run (config_with_retry 5) (boot 0 3221225994 4294967040 3221225985)
      events_second_link_up).trace = true ∧
    (tcpip_perform_acd (config_with_retry 5) env_nominal true 3221225994
      state_after_conflict).1.s_acd_callback_received = false :=
  ⟨(reset_before_each_start (config_with_retry 5) _
      (reachable_run (config_with_retry 5) 0 3221225994 4294967040 3221225985
        events_second_link_up) env_nominal true 3221225994 state_after_conflict).1,
   (reset_before_each_start (config_with_retry 5) _
      (reachable_run (config_with_retry 5) 0 3221225994 4294967040 3221225985
        events_second_link_up) env_nominal true 3221225994 state_after_conflict).2.2
      rfl (by decide)⟩

/-! ## The last-activity code -/

/-- C21, the code at the failing input: for the pending address `192.0.2.10` with
link up, a valid hardware address and no callback during the wait,
`tcpip_perform_acd` returns with last-activity code 2, and
`tcpip_try_pending_acd` then returns with the intent still pending, no callback
recorded and last-activity code 1. -/
theorem activity_code_after_timeout :
    (tcpip_perform_acd (config_with_retry 5) env_nominal true 3221225994
      (CipTcpIpSetLastAcdActivity 2 pending_192_0_2_10)).1.last_acd_activity = 2 ∧
    (tcpip_try_pending_acd (config_with_retry 5) env_nominal true true
      pending_192_0_2_10).s_acd_probe_pending = true ∧
    (tcpip_try_pending_acd (config_with_retry 5) env_nominal true true
      pending_192_0_2_10).s_acd_callback_received = false ∧
    (tcpip_try_pending_acd (config_with_retry 5) env_nominal true true
      pending_192_0_2_10).last_acd_activity = 1 := by
  decide

/-! ## Heap contexts of the marshaled calls -/

/-- C23, the code at the failing inputs: when the client is registered on entry,
and when the direct `acd_add` fails and `tcpip_acd_start_cb` cannot be posted,
`tcpip_perform_acd` allocates one `AcdStartContext`, never frees it and leaves no
posted work behind that would. -/
theorem start_context_not_freed :
    ctx_mallocs .AcdStartContext
      (tcpip_perform_acd (config_with_retry 5) env_nominal true 3221225994
        pending_registered).1.trace = 1 ∧
    ctx_frees .AcdStartContext
      (tcpip_perform_acd (config_with_retry 5) env_nominal true 3221225994
        pending_registered).1.trace = 0 ∧
    (tcpip_perform_acd (config_with_retry 5) env_nominal true 3221225994
      pending_registered).1.tcpip_queue = [] ∧
    ctx_mallocs .AcdStartContext
      (tcpip_perform_acd (config_with_retry 5) env_post_fails true 3221225994
        pending_192_0_2_10).1.trace = 1 ∧
    ctx_frees .AcdStartContext
      (tcpip_perform_acd (config_with_retry 5) env_post_fails true 3221225994
        pending_192_0_2_10).1.trace = 0 ∧
    (tcpip_perform_acd (config_with_retry 5) env_post_fails true 3221225994
      pending_192_0_2_10).1.tcpip_queue = [] := by
  decide

/-! ## Engine calls made from the caller's context -/

/-- C22, the code at the failing input: at start-up for `192.0.2.10` with every
platform call succeeding, `tcpip_perform_acd` makes its `acd_add` and its
`acd_start` directly from the caller's context and posts nothing through
`tcpip_callback_with_block`; so does the whole start-up, in which `app_main`
reaches the function through `configure_netif_from_tcpip`: its log holds two
direct engine calls and no posting. -/
theorem engine_calls_made_directly :
    Op.acd_add .direct true ∈
      (tcpip_perform_acd (config_with_retry 5) env_nominal true 3221225994
        pending_192_0_2_10).1.trace ∧
    Op.acd_start .direct 3221225994 true ∈
      (tcpip_perform_acd (config_with_retry 5) env_nominal true 3221225994
        pending_192_0_2_10).1.trace ∧
    postings (tcpip_perform_acd (config_with_retry 5) env_nominal true 3221225994
      pending_192_0_2_10).1.trace = 0 ∧
    direct_engine_calls (run (config_with_retry 5) (boot 0 3221225994 4294967040 3221225985)
      [.configure env_nominal]).trace = 2 ∧
    postings (run (config_with_retry 5) (boot 0 3221225994 4294967040 3221225985)
      [.configure env_nominal]).trace = 0 := by
  decide

/-! ## The return value of `tcpip_perform_acd` -/

/-- C25, the code at the failing input: `send_json_error` called with 503 sets the
status line `400 Bad Request`, not the documented `503 Service Unavailable`; so
does `GET /api/logs` when the log buffer is disabled.  The codes 400 and 500 get
their documented status lines. -/
theorem send_json_error_503 (message logs : String) (log_size bytes_read : Nat)
    (malloc_ok : Bool) :
    (send_json_error true message 503).1.status = "400 Bad Request" ∧
    some (send_json_error true message 503).1.status ≠ documented_status_line 503 ∧
    (api_get_logs_handler true false log_size malloc_ok logs bytes_read).1.status =
      "400 Bad Request" ∧
    some (send_json_error true message 400).1.status = documented_status_line 400 ∧
    some (send_json_error true message 500).1.status = documented_status_line 500 := by
  refine ⟨rfl, ?_, rfl, rfl, rfl⟩
  show some "400 Bad Request" ≠ some "503 Service Unavailable"
  decide

/-- C27, the code at the failing inputs: a `byte_offset` of 256 is narrowed to 0
before the range check, so it is accepted and stored as 0 with no error
response; `-0.5` and `22.5` lose their fraction and are stored as 0 and 22.  The
value 23 is rejected with status 400 and changes nothing; the `unit` block, which
checks the range first, stores nothing for 256. -/
theorem byte_offset_256_accepted (st : Nau7802Offset) :
    (api_post_nau7802_byte_offset true (some ⟨256, 1⟩) true st).2 = none ∧
    (api_post_nau7802_byte_offset true (some ⟨256, 1⟩) true st).1.nvs_byte_offset = 0 ∧
    (api_post_nau7802_byte_offset true (some ⟨256, 1⟩) true
      st).1.s_cached_nau7802_byte_offset = 0 ∧
    (api_post_nau7802_byte_offset true (some ⟨-1, 2⟩) true st).2 = none ∧
    (api_post_nau7802_byte_offset true (some ⟨-1, 2⟩) true st).1.nvs_byte_offset = 0 ∧
    (api_post_nau7802_byte_offset true (some ⟨45, 2⟩) true st).2 = none ∧
    (api_post_nau7802_byte_offset true (some ⟨45, 2⟩) true st).1.nvs_byte_offset = 22 ∧
    (api_post_nau7802_byte_offset true (some ⟨23, 1⟩) true st).1 = st ∧
    ((api_post_nau7802_byte_offset true (some ⟨23, 1⟩) true st).2.map
      (fun r => r.1.status)) = some "400 Bad Request" ∧
    api_post_nau7802_unit (some ⟨256, 1⟩) true = none := by
  refine ⟨rfl, rfl, rfl, rfl, rfl, rfl, rfl, rfl, rfl, rfl⟩

/-- C28, the code against the documentation: of the twelve documented endpoints,
`webui_register_api_handlers` registers seven; `GET /api/assemblies`,
`GET /api/assemblies/input`, `GET /api/assemblies/output`, `GET /api/modbus/status`
and `POST /api/modbus/enabled` are registered under no record. -/
theorem documented_endpoints_not_registered :
    documented_endpoints.filter (fun e => !endpoint_registered true e) =
      [(.HTTP_GET, "/api/assemblies"), (.HTTP_GET, "/api/assemblies/input"),
       (.HTTP_GET, "/api/assemblies/output"), (.HTTP_GET, "/api/modbus/status"),
       (.HTTP_POST, "/api/modbus/enabled")] ∧
    documented_endpoints.filter (fun e => endpoint_registered true e) =
      [(.HTTP_GET, "/api/ipconfig"), (.HTTP_POST, "/api/ipconfig"),
       (.HTTP_POST, "/api/reboot"), (.HTTP_GET, "/api/logs"), (.HTTP_GET, "/api/nau7802"),
       (.HTTP_POST, "/api/nau7802"), (.HTTP_POST, "/api/nau7802/calibrate")] := by
  decide

/-! ## The NAU7802 record in Assembly 100 -/

theorem int32_bytes_round_trip (x : Int) (h1 : -2147483648 ≤ x) (h2 : x < 2147483648) :
    int32_of_bytes ((x % 4294967296).toNat % 256) ((x % 4294967296).toNat / 256 % 256)
      ((x % 4294967296).toNat / 65536 % 256) ((x % 4294967296).toNat / 16777216 % 256) = x := by
  unfold int32_of_bytes
  have h0 : 0 ≤ x % 4294967296 := Int.emod_nonneg _ (by norm_num)
  have h3 : x % 4294967296 < 4294967296 := Int.emod_lt_of_pos _ (by norm_num)
  obtain ⟨u, hu⟩ := Int.eq_ofNat_of_zero_le h0
  rw [hu] at h3
  simp only [hu, Int.toNat_ofNat]
  have hx : x = u ∨ x = (u : Int) - 4294967296 := by omega
  split_ifs with hc <;> omega

theorem nau7802_status_byte_bits (av co ini : Bool) :
    nau7802_status_byte av co ini < 8 ∧
    ((nau7802_status_byte av co ini &&& 1) != 0) = av ∧
    ((nau7802_status_byte av co ini &&& 2) != 0) = co ∧
    ((nau7802_status_byte av co ini &&& 4) != 0) = ini := by
  cases av <;> cases co <;> cases ini <;> decide

theorem memcpy_bytes_length (bs : List Nat) (a : List Nat) (off : Nat) :
    (memcpy_bytes a off bs).length = a.length := by
  induction bs generalizing a off with
  | nil => rfl
  | cons b bs ih => rw [memcpy_bytes, ih, List.length_set]

theorem memcpy_bytes_getD (bs : List Nat) (a : List Nat) (off i : Nat)
    (h : off + bs.length ≤ a.length) :
    (memcpy_bytes a off bs).getD i 0 =
      if off ≤ i ∧ i < off + bs.length then bs.getD (i - off) 0 else a.getD i 0 := by
  induction bs generalizing a off with
  | nil =>
    have h3 : ¬ (off ≤ i ∧ i < off + ([] : List Nat).length) := by
      simp only [List.length_nil]; omega
    rw [if_neg h3]; rfl
  | cons b bs ih =>
    simp only [List.length_cons] at h
    rw [memcpy_bytes, ih _ _ (by rw [List.length_set]; omega)]
    simp only [List.length_cons, List.getD_eq_getElem?_getD, List.getElem?_set]
    by_cases h1 : off = i
    · subst h1
      have : off < a.length := by omega
      simp [this]
    · by_cases h2 : off + 1 ≤ i ∧ i < off + 1 + bs.length
      · have h3 : off ≤ i ∧ i < off + (bs.length + 1) := by omega
        obtain ⟨k, hk⟩ : ∃ k, i - off = k + 1 := ⟨i - off - 1, by omega⟩
        have h4 : i - (off + 1) = k := by omega
        simp [h2, h3, hk, h4]
      · have h3 : ¬ (off ≤ i ∧ i < off + (bs.length + 1)) := by omega
        simp [h1, h2, h3]

theorem nau7802_store_record_get (off : Nat) (w r : Int) (unit sb : Nat)
    (a : List Nat) (hoff : off ≤ 22) (hlen : a.length = 32) (i : Nat) :
    (nau7802_store_record off w r unit sb a).getD i 0 =
      if i = off + 9 then sb
      else if i = off + 8 then unit
      else if off + 4 ≤ i ∧ i < off + 8 then (int32_to_bytes r).getD (i - (off + 4)) 0
      else if off ≤ i ∧ i < off + 4 then (int32_to_bytes w).getD (i - off) 0
      else a.getD i 0 := by
  have hw : (int32_to_bytes w).length = 4 := rfl
  have hr : (int32_to_bytes r).length = 4 := rfl
  have e1 := memcpy_bytes_getD (int32_to_bytes w) a off i (by omega)
  have e2 := memcpy_bytes_getD (int32_to_bytes r) (memcpy_bytes a off (int32_to_bytes w))
    (off + 4) i (by rw [memcpy_bytes_length]; omega)
  rw [hw] at e1
  rw [hr, e1] at e2
  have l2 : (memcpy_bytes (memcpy_bytes a off (int32_to_bytes w)) (off + 4)
      (int32_to_bytes r)).length = 32 := by
    rw [memcpy_bytes_length, memcpy_bytes_length, hlen]
  simp only [nau7802_store_record]
  rw [List.getD_eq_getElem?_getD, List.getElem?_set, List.getElem?_set, List.length_set, l2]
  rw [List.getD_eq_getElem?_getD] at e2
  by_cases h9 : i = off + 9
  · subst h9
    have : off + 9 < 32 := by omega
    simp [this]
  · by_cases h8 : i = off + 8
    · subst h8
      have : off + 8 < 32 := by omega
      simp [this]
    · have h9b : ¬ off + 9 = i := fun h => h9 h.symm
      have h8b : ¬ off + 8 = i := fun h => h8 h.symm
      simp only [h9, h8, h9b, h8b, if_false]
      exact e2

theorem nau7802_scale_task_pass_writes (off : Nat) (dm av : Bool)
    (reading w : Int) (unit : Nat) (a : List Nat) (hoff : off ≤ 22) :
    nau7802_scale_task_pass true true true true off dm av reading w unit a =
      nau7802_store_record off w (if (dm && av) = true then reading else 0) (unit % 256)
        (nau7802_status_byte (dm && av) true true) a := by
  simp [nau7802_scale_task_pass, hoff]

/-- C26 (Assembly 100 record layout round trip): a pass of `nau7802_scale_task`
writes the record exactly when the scale is initialized, the connection check
succeeds, the assembly mutex is obtained and the byte offset is at most 22; the
record it writes therefore always carries the connected and the initialized flag,
and the available flag is the only one that varies.  For every such pass, every
byte offset in `0..22`, every `int32_t` weight and reading, every `uint8_t` unit
code and either value of the available flag: the assembly keeps its 32 bytes, no
byte outside `byte_offset .. byte_offset + 9` changes, the weight is in bytes 0-3
and the raw reading in bytes 4-7 (least significant byte first), the unit in byte
8 and the status in byte 9 (bit 0 available, bit 1 connected, bit 2 initialized,
bits 3-7 zero), and `api_get_status_handler`, whose cached byte offset is the
same, decodes the same weight, raw reading, unit code and flags.  In every other
case - not initialized, not connected, a mutex not obtained, byte offset above
22 - nothing is written. -/
theorem assembly_record_round_trip (off : Nat) (dm av : Bool) (reading w : Int) (unit : Nat)
    (a : List Nat) (c : Nau7802Offset) (hoff : off ≤ 22) (hlen : a.length = 32)
    (hw1 : -2147483648 ≤ w) (hw2 : w < 2147483648)
    (hr1 : -2147483648 ≤ reading) (hr2 : reading < 2147483648) (hunit : unit < 256)
    (hc : cached_byte_offset c = off) :
    (nau7802_scale_task_pass true true true true off dm av reading w unit a).length = 32 ∧
    (∀ i, i < off ∨ off + 10 ≤ i →
      (nau7802_scale_task_pass true true true true off dm av reading w unit a).getD i 0 =
        a.getD i 0) ∧
    (∀ k, k < 4 →
      (nau7802_scale_task_pass true true true true off dm av reading w unit a).getD (off + k) 0 =
        (int32_to_bytes w).getD k 0) ∧
    (∀ k, k < 4 →
      (nau7802_scale_task_pass true true true true off dm av reading w unit a).getD (off + 4 + k) 0 =
        (int32_to_bytes (if (dm && av) = true then reading else 0)).getD k 0) ∧
    (nau7802_scale_task_pass true true true true off dm av reading w unit a).getD (off + 8) 0 =
      unit ∧
    (nau7802_scale_task_pass true true true true off dm av reading w unit a).getD (off + 9) 0 =
      (if (dm && av) = true then 1 else 0) + 2 + 4 ∧
    (api_get_status_nau7802 true c
      (nau7802_scale_task_pass true true true true off dm av reading w unit a)).1 =
      some { weight_scaled := w,
             unit := if unit == 0 then "g" else if unit == 1 then "lbs" else "kg",
             unit_code := unit,
             raw_reading := if (dm && av) = true then reading else 0,
             byte_offset := off, available := dm && av, connected := true,
             initialized := true,
             status_byte := (if (dm && av) = true then 1 else 0) + 2 + 4 } ∧
    (∀ ini cm co mu off2,
      ini = false ∨ cm = false ∨ co = false ∨ mu = false ∨ 22 < off2 →
      nau7802_scale_task_pass ini cm co mu off2 dm av reading w unit a = a) := by
  have hun : unit % 256 = unit := Nat.mod_eq_of_lt hunit
  have hsb : nau7802_status_byte (dm && av) true true =
      (if (dm && av) = true then 1 else 0) + 2 + 4 := by
    cases (dm && av) <;> decide
  have hrr1 : -2147483648 ≤ (if (dm && av) = true then reading else 0) := by
    split_ifs <;> omega
  have hrr2 : (if (dm && av) = true then reading else 0) < 2147483648 := by
    split_ifs <;> omega
  rw [nau7802_scale_task_pass_writes off dm av reading w unit a hoff, hun, hsb]
  generalize (if (dm && av) = true then reading else 0) = r at hrr1 hrr2 ⊢
  generalize hsbv : (if (dm && av) = true then 1 else 0) + 2 + 4 = sb
  have hbits : ((sb &&& 1) != 0) = (dm && av) ∧ ((sb &&& 2) != 0) = true ∧
      ((sb &&& 4) != 0) = true := by
    rw [← hsbv]
    cases (dm && av) <;> decide
  have g := nau7802_store_record_get off w r unit sb a hoff hlen
  have gk : ∀ k, k < 4 → (nau7802_store_record off w r unit sb a).getD (off + k) 0 =
      (int32_to_bytes w).getD k 0 := by
    intro k hk
    rw [g]
    have h1 : ¬ off + k = off + 9 := by omega
    have h2 : ¬ off + k = off + 8 := by omega
    have h3 : ¬ (off + 4 ≤ off + k ∧ off + k < off + 8) := by omega
    have h4 : off ≤ off + k ∧ off + k < off + 4 := by omega
    rw [if_neg h1, if_neg h2, if_neg h3, if_pos h4, Nat.add_sub_cancel_left]
  have gr : ∀ k, k < 4 → (nau7802_store_record off w r unit sb a).getD (off + 4 + k) 0 =
      (int32_to_bytes r).getD k 0 := by
    intro k hk
    rw [g]
    have h1 : ¬ off + 4 + k = off + 9 := by omega
    have h2 : ¬ off + 4 + k = off + 8 := by omega
    have h3 : off + 4 ≤ off + 4 + k ∧ off + 4 + k < off + 8 := by omega
    rw [if_neg h1, if_neg h2, if_pos h3, Nat.add_sub_cancel_left]
  have g8 : (nau7802_store_record off w r unit sb a).getD (off + 8) 0 = unit := by
    rw [g]
    have h1 : ¬ off + 8 = off + 9 := by omega
    rw [if_neg h1, if_pos rfl]
  have g9 : (nau7802_store_record off w r unit sb a).getD (off + 9) 0 = sb := by
    rw [g, if_pos rfl]
  refine ⟨?_, ?_, gk, gr, g8, g9, ?_, ?_⟩
  · simp only [nau7802_store_record, List.length_set, memcpy_bytes_length, hlen]
  · intro i hi
    rw [g]
    have h1 : ¬ i = off + 9 := by omega
    have h2 : ¬ i = off + 8 := by omega
    have h3 : ¬ (off + 4 ≤ i ∧ i < off + 8) := by omega
    have h4 : ¬ (off ≤ i ∧ i < off + 4) := by omega
    rw [if_neg h1, if_neg h2, if_neg h3, if_neg h4]
  · have w0 := gk 0 (by omega)
    have w1 := gk 1 (by omega)
    have w2 := gk 2 (by omega)
    have w3 := gk 3 (by omega)
    have r0 := gr 0 (by omega)
    have r1 := gr 1 (by omega)
    have r2 := gr 2 (by omega)
    have r3 := gr 3 (by omega)
    simp only [Nat.add_assoc, Nat.reduceAdd] at r0 r1 r2 r3
    have hoc : (if (!c.s_nau7802_byte_offset_cached) = true then
        { c with s_cached_nau7802_byte_offset := c.nvs_byte_offset,
                 s_nau7802_byte_offset_cached := true }
        else c).s_cached_nau7802_byte_offset = off := by
      rw [← hc]
      unfold cached_byte_offset
      split_ifs <;> rfl
    simp only [api_get_status_nau7802, if_true, hoc, hoff, w0, w1, w2, w3, r0, r1, r2, r3, g8,
      g9, hbits.1, hbits.2.1, hbits.2.2]
    simp only [int32_to_bytes, List.getD_cons_zero, List.getD_cons_succ,
      int32_bytes_round_trip w hw1 hw2, int32_bytes_round_trip r hrr1 hrr2]
  · intro ini cm co mu off2 h
    rcases h with h | h | h | h | h
    · simp [nau7802_scale_task_pass, h]
    · simp [nau7802_scale_task_pass, h]
    · simp [nau7802_scale_task_pass, h]
    · simp [nau7802_scale_task_pass, h]
    · have : ¬ off2 ≤ 22 := by omega
      simp [nau7802_scale_task_pass, this]

/-- Witness of C26: weight `-1`, reading `305419896`, unit `lbs`, written at offset
22 of an all-zero assembly and read back with the offset loaded from NVS. -/
theorem assembly_record_round_trip_witness :
    nau7802_scale_task_pass true true true true 22 true true 305419896 (-1) 1 assembly_zero =
      List.replicate 22 0 ++ [255, 255, 255, 255, 120, 86, 52, 18, 1, 7] ∧
    (api_get_status_nau7802 true (offset_not_cached 22)
      (nau7802_scale_task_pass true true true true 22 true true 305419896 (-1) 1
        assembly_zero)).1.map
        (fun d => (d.weight_scaled, d.raw_reading, d.unit_code)) = some (-1, 305419896, 1) :=
  ⟨by decide,
   by rw [(assembly_record_round_trip 22 true true 305419896 (-1) 1 assembly_zero
      (offset_not_cached 22) (by decide) (by decide) (by decide) (by decide) (by decide)
      (by decide) (by decide) (by decide)).2.2.2.2.2.2.1]
      rfl⟩

/-! ## The payload of a multipart upload -/

/-- C29, the code at the failing inputs (the buffer holds the chunk followed by a
NUL byte).  The payload `A B C` is written as it is.  Of the payload `A LF` only
`A` is written, and of `A CR` only `A`: the loop that drops the line end before
the boundary also drops line-end bytes of the payload.  For the payload `NUL A`
the search stops at the NUL byte, no boundary is found, and the whole chunk -
payload, CRLF and boundary line - is written. -/
theorem ota_chunk_payload_not_preserved :
    ota_chunk_written (chunk_of_payload [65, 66, 67] end_boundary_XyZ ++ [0]) 14
      boundary_XyZ end_boundary_XyZ = [65, 66, 67] ∧
    ota_chunk_written (chunk_of_payload [65, 10] end_boundary_XyZ ++ [0]) 13
      boundary_XyZ end_boundary_XyZ = [65] ∧
    ota_chunk_written (chunk_of_payload [65, 13] end_boundary_XyZ ++ [0]) 13
      boundary_XyZ end_boundary_XyZ = [65] ∧
    ota_chunk_written (chunk_of_payload [0, 65] end_boundary_XyZ ++ [0]) 13
      boundary_XyZ end_boundary_XyZ = chunk_of_payload [0, 65] end_boundary_XyZ ∧
    (ota_initial_written (chunk_of_payload [65, 10] end_boundary_XyZ ++ [0]) 13
      boundary_XyZ).1 = [65] := by
  decide

/-! ## Normalisation of the loaded configuration -/

theorem clear_bits_and_self (a m : Nat) : clear_bits a m &&& m = 0 := by
  apply Nat.eq_of_testBit_eq
  intro i
  simp only [clear_bits, Nat.testBit_and, Nat.testBit_ldiff, Nat.zero_testBit]
  cases a.testBit i <;> cases m.testBit i <;> rfl

/-- C30 (boot-time configuration normalisation): for every loaded `g_tcpip`, after
the normalisation block of `app_main` the method field of `config_control` is
static or DHCP; if it is DHCP, the address, mask, gateway and both name servers
are zero; if it is static, `select_acd` is set and the configuration passed
`CipTcpIpIsValidNetworkConfig`; and the interface-configuration-pending bit of
the status is clear.  The constants come from the OpENer headers: the DHCP value
lies inside the method mask and differs from the static value. -/
theorem boot_normalisation (P : Config)
    (valid : CipTcpipInterfaceConfiguration → Bool) (s : St)
    (hmask : P.kTcpipCfgCtrlDhcp &&& P.kTcpipCfgCtrlMethodMask = P.kTcpipCfgCtrlDhcp)
    (hne : P.kTcpipCfgCtrlStaticIp ≠ P.kTcpipCfgCtrlDhcp) :
    (config_method P (app_main_normalise P valid s) = P.kTcpipCfgCtrlStaticIp ∨
      config_method P (app_main_normalise P valid s) = P.kTcpipCfgCtrlDhcp) ∧
    (config_method P (app_main_normalise P valid s) = P.kTcpipCfgCtrlDhcp →
      (app_main_normalise P valid s).interface_configuration =
        { ip_address := 0, network_mask := 0, gateway := 0, name_server := 0,
          name_server_2 := 0 }) ∧
    (config_method P (app_main_normalise P valid s) = P.kTcpipCfgCtrlStaticIp →
      (app_main_normalise P valid s).select_acd = true ∧
      valid (app_main_normalise P valid s).interface_configuration = true) ∧
    (app_main_normalise P valid s).status &&& P.kTcpipStatusIfaceCfgPend = 0 := by
  have hrep := fun c => (method_field_replaced c P.kTcpipCfgCtrlMethodMask P.kTcpipCfgCtrlDhcp
    hmask).1
  have hne2 : P.kTcpipCfgCtrlDhcp ≠ P.kTcpipCfgCtrlStaticIp := fun h => hne h.symm
  have hi : s.interface_configuration =
      { ip_address := s.ip_address, network_mask := s.network_mask, gateway := s.gateway,
        name_server := s.name_server, name_server_2 := s.name_server_2 } := rfl
  unfold app_main_normalise tcpip_static_config_valid tcpip_config_uses_dhcp config_method
    St.interface_configuration
  by_cases hs : s.config_control &&& P.kTcpipCfgCtrlMethodMask = P.kTcpipCfgCtrlStaticIp
  · have hd : ¬ s.config_control &&& P.kTcpipCfgCtrlMethodMask = P.kTcpipCfgCtrlDhcp := by
      rw [hs]; exact hne
    rw [hi] at *
    cases hv : valid (CipTcpipInterfaceConfiguration.mk s.ip_address s.network_mask s.gateway
        s.name_server s.name_server_2) <;>
      cases ha : s.select_acd <;>
      simp [hs, hd, hv, ha, hrep, hne, hne2, St.log, clear_bits_and_self]
  · by_cases hd : s.config_control &&& P.kTcpipCfgCtrlMethodMask = P.kTcpipCfgCtrlDhcp
    · cases ha : s.select_acd <;>
        simp [hs, hd, ha, hrep, hne, hne2, St.log, clear_bits_and_self]
    · cases ha : s.select_acd <;>
        simp [hs, hd, ha, hrep, hne, hne2, St.log, clear_bits_and_self]

/-- Witness of C30: a loaded configuration with an unknown method value, ACD not
selected and stale addresses, with the constants of the OpENer headers. -/
theorem boot_normalisation_witness :
    (app_main_normalise (config_with_retry 5) valid_if_address_and_mask
      loaded_unknown_method).status &&& 16 = 0 :=
  (boot_normalisation (config_with_retry 5) valid_if_address_and_mask loaded_unknown_method
    (by decide) (by decide)).2.2.2

/-! ## A callback that preempts the reset of the outcome record -/

theorem tcpip_perform_acd_preempted_nil (P : Config) (env : Env) (netif : Bool) (ip : Nat)
    (s : St) :
    tcpip_perform_acd_preempted P env [] netif ip s = tcpip_perform_acd P env netif ip s := rfl

theorem tcpip_try_pending_acd_preempted_nil (P : Config) (env : Env) (netif lwip_netif : Bool)
    (s : St) :
    tcpip_try_pending_acd_preempted P env [] netif lwip_netif s =
      tcpip_try_pending_acd P env netif lwip_netif s := rfl

theorem link_up_preempted_nil (P : Config) (env : Env) (eth_netif : Bool) (s : St) :
    link_up_preempted P env [] eth_netif s =
      ethernet_event_handler P env eth_netif .ETHERNET_EVENT_CONNECTED s := rfl

/-- C1, the code at the failing input: the probe for `192.0.2.10` is in flight and
nothing is bound; during a second link-up event an `ACD_DECLINE` callback runs
between the two stores that reset the outcome record.  The callback removes the
address and arms the retry timer; the record then reads received with
`ACD_IP_OK`, the wait ends at once, and `tcpip_try_pending_acd` binds
`192.0.2.10` although no `ACD_IP_OK` callback was ever received. -/
theorem bind_without_ip_ok :
    state_probe_in_flight.s_acd_probe_pending = true ∧
    state_probe_in_flight.ip_info = zero_ip ∧
    state_after_preempted_link_up.ip_info =
      { ip := 3221225994, netmask := 4294967040, gw := 3221225985 } ∧
    state_after_preempted_link_up.s_acd_probe_pending = false ∧
    Op.acd_callback .ACD_IP_OK ∉ state_after_preempted_link_up.trace ∧
    probe_before_bind state_after_preempted_link_up.trace = false ∧
    state_after_preempted_link_up.retry_timer_active = true := by
  decide

/-- C16, the code at the failing input: entered from `tcpip_try_pending_acd` in
`state_probe_in_flight`, with an `ACD_DECLINE` callback of the probe in flight
running between the two stores of the reset, `tcpip_perform_acd` resets the
record and makes a start request, and no callback runs after that request or
during the wait; yet on return the record reads received with `ACD_IP_OK`, while
the only callback since the reset is the `ACD_DECLINE` of the previous probe, and
the bind decision of `tcpip_try_pending_acd` is taken on that record. -/
theorem stale_outcome_after_start :
    start_requests (CipTcpIpSetLastAcdActivity 2 state_probe_in_flight).trace <
      start_requests (tcpip_perform_acd_preempted (config_with_retry 5) env_nominal
        [⟨true, .ACD_DECLINE, callback_env_nominal⟩] true 3221225994
        (CipTcpIpSetLastAcdActivity 2 state_probe_in_flight)).1.trace ∧
    starts_follow_reset (tcpip_perform_acd_preempted (config_with_retry 5) env_nominal
      [⟨true, .ACD_DECLINE, callback_env_nominal⟩] true 3221225994
      (CipTcpIpSetLastAcdActivity 2 state_probe_in_flight)).1.trace = true ∧
    callbacks_since_start (tcpip_perform_acd_preempted (config_with_retry 5) env_nominal
      [⟨true, .ACD_DECLINE, callback_env_nominal⟩] true 3221225994
      (CipTcpIpSetLastAcdActivity 2 state_probe_in_flight)).1.trace = 0 ∧
    (tcpip_perform_acd_preempted (config_with_retry 5) env_nominal
      [⟨true, .ACD_DECLINE, callback_env_nominal⟩] true 3221225994
      (CipTcpIpSetLastAcdActivity 2 state_probe_in_flight)).1.s_acd_callback_received = true ∧
    (tcpip_perform_acd_preempted (config_with_retry 5) env_nominal
      [⟨true, .ACD_DECLINE, callback_env_nominal⟩] true 3221225994
      (CipTcpIpSetLastAcdActivity 2 state_probe_in_flight)).1.s_acd_last_state = .ACD_IP_OK ∧
    outcome_of (tcpip_perform_acd_preempted (config_with_retry 5) env_nominal
      [⟨true, .ACD_DECLINE, callback_env_nominal⟩] true 3221225994
      (CipTcpIpSetLastAcdActivity 2 state_probe_in_flight)).1.trace = some .ACD_DECLINE ∧
    (tcpip_try_pending_acd_preempted (config_with_retry 5) env_nominal
      [⟨true, .ACD_DECLINE, callback_env_nominal⟩] true true state_probe_in_flight).ip_info =
      { ip := 3221225994, netmask := 4294967040, gw := 3221225985 } := by
  decide

end AcdOrch
